import Mathlib

/-!
PSMoveService: client controller view, HID controller enumerator, tracker bring-up stage,
math utilities, chessboard capture buffer

A shallow embedding of
* `src/psmoveclient/ClientControllerView.h` (connection-gated accessors, button codes),
* `src/psmoveservice/Device/Enumerator/ControllerHidDeviceEnumerator.cpp`,
* `src/psmoveconfigtool/AppStage_ComputeTrackerPoses.cpp` (request/response state machine),
* `src/psmovemath/MathUtility.cpp` (clamp, interpolation and angle wrapping on floats),
* `src/psmoveconfigtool/AppStage_DistortionCalibration.cpp` (the capture state of
  `OpenCVBufferState`),
followed by the properties established about them.

Conventions of the embedding:
* `float` values are exact rationals (`ℚ`); `unsigned char` fields are `Fin 256`; `int` is `Int`.
* a nullable pointer is an `Option`, a null-terminated linked list is a `List` (`nullptr` is `[]`).
* calls to external collaborators are recorded, in order, in a trace field of the state.
* a function that contains an `assert` returns an `Option`: `none` is a failed assertion or
  the undefined behaviour that follows it; the parameter `ndebug` tells whether `NDEBUG` is
  defined (asserts compiled out), the parameter `win32` whether `_WIN32` is.
* results of calls into the operating system or the client API are parameters
  (`hid_enumerate`, `allocate_controller_view`).

The file has two parts: the definitions of the components, then their properties.
-/

namespace PSMoveService

/-! ## ClientControllerView.h -/

/-- The enum `PSMoveButtonState` (ClientControllerView.h, lines 18-23). -/
inductive PSMoveButtonState where
  | PSMoveButton_UP
  | PSMoveButton_PRESSED
  | PSMoveButton_DOWN
  | PSMoveButton_RELEASED
  deriving DecidableEq, Repr, Fintype

namespace PSMoveButtonState

/-- Numeric enumerator values: `UP = 0x00`, `PRESSED = 0x01`, `DOWN = 0x03`, `RELEASED = 0x02`. -/
def code : PSMoveButtonState → Nat
  | PSMoveButton_UP => 0x00
  | PSMoveButton_PRESSED => 0x01
  | PSMoveButton_DOWN => 0x03
  | PSMoveButton_RELEASED => 0x02

/-- The enumerator, if any, whose numeric value is `n` (the cast from an integer to the enum). -/
def ofCode (n : Nat) : Option PSMoveButtonState :=
  if n = 0x00 then some PSMoveButton_UP
  else if n = 0x01 then some PSMoveButton_PRESSED
  else if n = 0x03 then some PSMoveButton_DOWN
  else if n = 0x02 then some PSMoveButton_RELEASED
  else none

end PSMoveButtonState

/-- The 2-bit word `(prevRaw << 1) | currRaw` built from the raw pressed bits of two frames. -/
def rawPairCode (prevRaw currRaw : Bool) : Nat :=
  (prevRaw.toNat <<< 1) ||| currRaw.toNat

/-- The struct `PSMoveVector3`. -/
structure PSMoveVector3 where
  x : ℚ
  y : ℚ
  z : ℚ
  deriving DecidableEq

/-- The struct `PSMoveQuaternion`. -/
structure PSMoveQuaternion where
  w : ℚ
  x : ℚ
  y : ℚ
  z : ℚ
  deriving DecidableEq

/-- Modelled from the spec: the object behind `extern const PSMoveVector3 *k_psmove_vector3_zero`
is defined outside the given sources; the spec calls it the zero vector. -/
def k_psmove_vector3_zero : PSMoveVector3 := { x := 0, y := 0, z := 0 }

/-- Modelled from the spec: the object behind
`extern const PSMoveQuaternion *k_psmove_quaternion_identity` is defined outside the given
sources; the spec calls it the identity orientation. -/
def k_psmove_quaternion_identity : PSMoveQuaternion := { w := 1, x := 0, y := 0, z := 0 }

/-- The struct `PSMovePose`. -/
structure PSMovePose where
  Orientation : PSMoveQuaternion
  Position : PSMoveVector3
  deriving DecidableEq

/-- The method `PSMovePose::Clear`. -/
def PSMovePose.Clear (_p : PSMovePose) : PSMovePose :=
  { Orientation := k_psmove_quaternion_identity, Position := k_psmove_vector3_zero }

/-- The private data members of `class ClientControllerView`. -/
structure ClientControllerView where
  PSMoveID : Int
  SequenceNum : Int
  ListenerCount : Int
  Pose : PSMovePose
  IsConnected : Bool
  IsTrackingEnabled : Bool
  IsCurrentlyTracking : Bool
  TriangleButton : PSMoveButtonState
  CircleButton : PSMoveButtonState
  CrossButton : PSMoveButtonState
  SquareButton : PSMoveButtonState
  SelectButton : PSMoveButtonState
  StartButton : PSMoveButtonState
  PSButton : PSMoveButtonState
  MoveButton : PSMoveButtonState
  TriggerButton : PSMoveButtonState
  PreviousTriggerValue : Fin 256
  TriggerValue : Fin 256
  CurrentRumble : Fin 256
  RumbleRequest : Fin 256
  data_frame_last_received_time : Int
  data_frame_average_fps : ℚ

namespace ClientControllerView

/-- Body: `return PSMoveID != -1;` -/
def IsValid (v : ClientControllerView) : Bool :=
  v.PSMoveID != -1

/-- Body: `return (IsValid() && IsConnected);` -/
def GetIsConnected (v : ClientControllerView) : Bool :=
  v.IsValid && v.IsConnected

/-- Body: `return GetIsConnected() ? IsCurrentlyTracking : false;` -/
def GetIsCurrentlyTracking (v : ClientControllerView) : Bool :=
  if v.GetIsConnected then v.IsCurrentlyTracking else false

/-- Body: `return GetIsConnected() ? IsTrackingEnabled : false;` -/
def GetIsTrackingEnabled (v : ClientControllerView) : Bool :=
  if v.GetIsConnected then v.IsTrackingEnabled else false

/-- Body: `return GetIsConnected() ? Pose.Position : *k_psmove_vector3_zero;` -/
def GetPosition (v : ClientControllerView) : PSMoveVector3 :=
  if v.GetIsConnected then v.Pose.Position else k_psmove_vector3_zero

/-- Body: `return GetIsConnected() ? Pose.Orientation : *k_psmove_quaternion_identity;` -/
def GetOrientation (v : ClientControllerView) : PSMoveQuaternion :=
  if v.GetIsConnected then v.Pose.Orientation else k_psmove_quaternion_identity

/-- Body: `return GetIsConnected() ? TriangleButton : PSMoveButton_UP;` -/
def GetButtonTriangle (v : ClientControllerView) : PSMoveButtonState :=
  if v.GetIsConnected then v.TriangleButton else .PSMoveButton_UP

/-- Body: `return GetIsConnected() ? CircleButton : PSMoveButton_UP;` -/
def GetButtonCircle (v : ClientControllerView) : PSMoveButtonState :=
  if v.GetIsConnected then v.CircleButton else .PSMoveButton_UP

/-- Body: `return GetIsConnected() ? CrossButton : PSMoveButton_UP;` -/
def GetButtonCross (v : ClientControllerView) : PSMoveButtonState :=
  if v.GetIsConnected then v.CrossButton else .PSMoveButton_UP

/-- Body: `return GetIsConnected() ? SquareButton : PSMoveButton_UP;` -/
def GetButtonSquare (v : ClientControllerView) : PSMoveButtonState :=
  if v.GetIsConnected then v.SquareButton else .PSMoveButton_UP

/-- Body: `return GetIsConnected() ? SelectButton : PSMoveButton_UP;` -/
def GetButtonSelect (v : ClientControllerView) : PSMoveButtonState :=
  if v.GetIsConnected then v.SelectButton else .PSMoveButton_UP

/-- Body: `return GetIsConnected() ? StartButton : PSMoveButton_UP;` -/
def GetButtonStart (v : ClientControllerView) : PSMoveButtonState :=
  if v.GetIsConnected then v.StartButton else .PSMoveButton_UP

/-- Body: `return GetIsConnected() ? PSButton : PSMoveButton_UP;` -/
def GetButtonPS (v : ClientControllerView) : PSMoveButtonState :=
  if v.GetIsConnected then v.PSButton else .PSMoveButton_UP

/-- Body: `return GetIsConnected() ? MoveButton : PSMoveButton_UP;` -/
def GetButtonMove (v : ClientControllerView) : PSMoveButtonState :=
  if v.GetIsConnected then v.MoveButton else .PSMoveButton_UP

/-- Body: `return GetIsConnected() ? TriggerButton : PSMoveButton_UP;` -/
def GetButtonTrigger (v : ClientControllerView) : PSMoveButtonState :=
  if v.GetIsConnected then v.TriggerButton else .PSMoveButton_UP

/-- Body: `return GetIsConnected() ? ((float)TriggerValue / 255.f) : 0.f;` -/
def GetTriggerValue (v : ClientControllerView) : ℚ :=
  if v.GetIsConnected then ((v.TriggerValue.val : ℚ) / 255) else 0

/-- Body: `return data_frame_average_fps;` -/
def GetDataFrameFPS (v : ClientControllerView) : ℚ :=
  v.data_frame_average_fps

end ClientControllerView

/-- A view that still holds the data of earlier frames: every stored field is non-neutral,
the id is valid and `IsConnected` has dropped to false. -/
def staleDisconnectedView : ClientControllerView :=
  { PSMoveID := 0, SequenceNum := 41, ListenerCount := 1,
    Pose := { Orientation := { w := 0, x := 1, y := 0, z := 0 },
              Position := { x := 10, y := -20, z := 30 } },
    IsConnected := false, IsTrackingEnabled := true, IsCurrentlyTracking := true,
    TriangleButton := .PSMoveButton_DOWN, CircleButton := .PSMoveButton_PRESSED,
    CrossButton := .PSMoveButton_RELEASED, SquareButton := .PSMoveButton_DOWN,
    SelectButton := .PSMoveButton_DOWN, StartButton := .PSMoveButton_PRESSED,
    PSButton := .PSMoveButton_DOWN, MoveButton := .PSMoveButton_DOWN,
    TriggerButton := .PSMoveButton_DOWN,
    PreviousTriggerValue := 180, TriggerValue := 200,
    CurrentRumble := 7, RumbleRequest := 7,
    data_frame_last_received_time := 123456, data_frame_average_fps := 60 }

/-! ## ControllerHidDeviceEnumerator.cpp -/

/-- The C library function `strstr` on character lists: the suffix of `haystack` that starts
at the first occurrence of `needle`, or `none` (a null pointer) when there is none. -/
def strstr (haystack needle : List Char) : Option (List Char) :=
  if needle.isPrefixOf haystack then some haystack
  else match haystack with
    | [] => none
    | _ :: rest => strstr rest needle

/-- The hidapi record `struct hid_device_info`, restricted to the members the enumerator
reads; the `next` member is the tail of the list the record sits in. -/
structure hid_device_info where
  path : String
  serial_number : Option String
  deriving DecidableEq, Repr

/-- The struct `USBDeviceFilter`. -/
structure USBDeviceFilter where
  vendor_id : Nat
  product_id : Nat
  deriving DecidableEq, Repr

namespace CommonDeviceState

/-- Modelled from the spec: the header declaring `CommonDeviceState::eDeviceType` is outside the
given sources. The controller types are numbered in the order of the table
`g_supported_controller_infos` (PSMove, PSNavi, PSDualShock4), followed by the count. -/
def PSMove : Nat := 0

/-- Modelled from the spec: second controller type of the closed set, see `PSMove`. -/
def PSNavi : Nat := 1

/-- Modelled from the spec: third controller type of the closed set, see `PSMove`. -/
def PSDualShock4 : Nat := 2

/-- Modelled from the spec: the number of supported controller types, see `PSMove`. -/
def SUPPORTED_CONTROLLER_TYPE_COUNT : Nat := 3

end CommonDeviceState

/-- Modelled from the spec: the macro `GET_DEVICE_TYPE_INDEX` is outside the given sources; on
controller types it is the position of the type in `g_supported_controller_infos`. -/
def GET_DEVICE_TYPE_INDEX (deviceType : Nat) : Nat := deviceType

/-- The macro `MAX_CONTROLLER_TYPE_INDEX`, defined as
`GET_DEVICE_TYPE_INDEX(CommonDeviceState::SUPPORTED_CONTROLLER_TYPE_COUNT)`. -/
def MAX_CONTROLLER_TYPE_INDEX : Nat :=
  GET_DEVICE_TYPE_INDEX CommonDeviceState.SUPPORTED_CONTROLLER_TYPE_COUNT

/-- The table `g_supported_controller_infos[MAX_CONTROLLER_TYPE_INDEX]`. -/
def g_supported_controller_infos : List USBDeviceFilter :=
  [ { vendor_id := 0x054c, product_id := 0x03d5 },   -- PSMove
    { vendor_id := 0x054c, product_id := 0x042F },   -- PSNavi
    { vendor_id := 0x054c, product_id := 0x05C4 } ]  -- PSDualShock4

/-- Calls made to hidapi, in order. An enumeration handle is the list it points to. -/
inductive HidCall where
  | hid_enumerate (vendor_id product_id : Nat)
  | hid_free_enumeration (devs : List hid_device_info)
  deriving DecidableEq, Repr

/-- The data members of `ControllerHidDeviceEnumerator` (`m_deviceType` is inherited from
`DeviceEnumerator`), and the trace of hidapi calls made so far. `devs` and `cur_dev` are
pointers into a null-terminated list: `[]` is `nullptr`, and `cur_dev` is the part of the
list from the current node on. -/
structure ControllerHidDeviceEnumerator where
  m_deviceType : Nat
  devs : List hid_device_info
  cur_dev : List hid_device_info
  hid_calls : List HidCall
  deriving DecidableEq, Repr

namespace ControllerHidDeviceEnumerator

/-- Body: `return (cur_dev != nullptr) ? cur_dev->path : nullptr;` -/
def get_path (e : ControllerHidDeviceEnumerator) : Option String :=
  match e.cur_dev with
  | [] => none
  | d :: _ => some d.path

/-- The method `is_valid`; `win32` tells whether `_WIN32` is defined for the build. -/
def is_valid (win32 : Bool) (e : ControllerHidDeviceEnumerator) : Bool :=
  match e.cur_dev with
  | [] => false
  | d :: _ =>
    if win32 && e.m_deviceType == CommonDeviceState.PSMove
        && (strstr d.path.toList "&col01#".toList).isNone then
      false
    else
      true

/-- First statement of the loop body of `next()`:
`if (cur_dev != nullptr) { cur_dev = cur_dev->next; foundValid = is_valid(); }`,
entered with `foundValid == false`. Returns the new `foundValid` and state. -/
def advance_cur_dev (win32 : Bool) (e : ControllerHidDeviceEnumerator) :
    Bool × ControllerHidDeviceEnumerator :=
  match e.cur_dev with
  | [] => (false, e)
  | _ :: rest => (is_valid win32 { e with cur_dev := rest }, { e with cur_dev := rest })

/-- Body of the second statement of the loop of `next()`, run when
`!foundValid && cur_dev == nullptr`: move to the next device type, free the previous
enumeration and, if a type is left, enumerate it. `hid_enumerate vendor_id product_id` is the
list the operating system reports (`[]` for the null pointer hidapi returns on failure or
when nothing matches). -/
def open_next_type (win32 : Bool) (hid_enumerate : Nat → Nat → List hid_device_info)
    (e : ControllerHidDeviceEnumerator) : Bool × ControllerHidDeviceEnumerator :=
  -- m_deviceType = static_cast<CommonDeviceState::eDeviceType>(m_deviceType + 1);
  let e2 := { e with m_deviceType := e.m_deviceType + 1 }
  -- if (devs != nullptr) { hid_free_enumeration(devs); cur_dev = nullptr; devs = nullptr; }
  let e3 :=
    if !e2.devs.isEmpty then
      { e2 with hid_calls := e2.hid_calls ++ [HidCall.hid_free_enumeration e2.devs],
                cur_dev := [], devs := [] }
    else e2
  -- if (GET_DEVICE_TYPE_INDEX(m_deviceType) < MAX_CONTROLLER_TYPE_INDEX)
  if h : GET_DEVICE_TYPE_INDEX e3.m_deviceType < MAX_CONTROLLER_TYPE_INDEX then
    -- USBDeviceFilter &dev_info = g_supported_controller_infos[GET_DEVICE_TYPE_INDEX(m_deviceType)];
    let dev_info := g_supported_controller_infos.get ⟨GET_DEVICE_TYPE_INDEX e3.m_deviceType, h⟩
    -- devs = hid_enumerate(dev_info.vendor_id, dev_info.product_id); cur_dev = devs;
    let found := hid_enumerate dev_info.vendor_id dev_info.product_id
    let e4 := { e3 with
      hid_calls :=
        e3.hid_calls ++ [HidCall.hid_enumerate dev_info.vendor_id dev_info.product_id],
      devs := found, cur_dev := found }
    -- foundValid = is_valid();
    (is_valid win32 e4, e4)
  else
    (false, e3)

/-- One pass through the body of the `while` loop of `next()`, entered with
`foundValid == false`; returns the new value of `foundValid` and the new state. -/
def next_iteration (win32 : Bool) (hid_enumerate : Nat → Nat → List hid_device_info)
    (e : ControllerHidDeviceEnumerator) : Bool × ControllerHidDeviceEnumerator :=
  let s := advance_cur_dev win32 e
  if !s.1 && s.2.cur_dev.isEmpty then open_next_type win32 hid_enumerate s.2 else s

/-- The `while (!foundValid && m_deviceType < SUPPORTED_CONTROLLER_TYPE_COUNT)` loop of
`next()`, started with the given value of `foundValid`. Every pass either moves `cur_dev`
one node along its list or increments `m_deviceType`, which is the termination argument. -/
def next_loop (win32 : Bool) (hid_enumerate : Nat → Nat → List hid_device_info)
    (foundValid : Bool) (e : ControllerHidDeviceEnumerator) :
    Bool × ControllerHidDeviceEnumerator :=
  if !foundValid && decide (e.m_deviceType < CommonDeviceState.SUPPORTED_CONTROLLER_TYPE_COUNT) then
    next_loop win32 hid_enumerate (next_iteration win32 hid_enumerate e).1
      (next_iteration win32 hid_enumerate e).2
  else
    (foundValid, e)
termination_by
  (CommonDeviceState.SUPPORTED_CONTROLLER_TYPE_COUNT - e.m_deviceType, e.cur_dev.length)
decreasing_by
  rename_i hcond
  simp only [Bool.and_eq_true, decide_eq_true_eq] at hcond
  simp only [Prod.lex_def]
  have hopen : ∀ x : ControllerHidDeviceEnumerator,
      (open_next_type win32 hid_enumerate x).2.m_deviceType = x.m_deviceType + 1 := by
    intro x
    unfold open_next_type
    simp only
    split <;> split <;> rfl
  have hstep : (next_iteration win32 hid_enumerate e).2.m_deviceType = e.m_deviceType + 1 ∨
      ((next_iteration win32 hid_enumerate e).2.m_deviceType = e.m_deviceType ∧
        (next_iteration win32 hid_enumerate e).2.cur_dev.length < e.cur_dev.length) := by
    unfold next_iteration
    simp only
    split
    · left
      rw [hopen]
      unfold advance_cur_dev
      split <;> rfl
    · rename_i hc
      right
      unfold advance_cur_dev at hc ⊢
      cases hcur : e.cur_dev with
      | nil => simp [hcur] at hc
      | cons d rest => simp
  rcases hstep with h | ⟨h1, h2⟩
  · left
    omega
  · right
    exact ⟨by rw [h1], h2⟩

/-- The method `next()`: returns the final `foundValid` and the new state. -/
def next (win32 : Bool) (hid_enumerate : Nat → Nat → List hid_device_info)
    (e : ControllerHidDeviceEnumerator) : Bool × ControllerHidDeviceEnumerator :=
  next_loop win32 hid_enumerate false e

/-- The constructor `ControllerHidDeviceEnumerator(deviceType)`. The result is `none` when the
assertion on `deviceType` fails (the table access that follows would be out of bounds). -/
def create (win32 : Bool) (hid_enumerate : Nat → Nat → List hid_device_info)
    (deviceType : Nat) : Option ControllerHidDeviceEnumerator :=
  -- assert(m_deviceType >= 0 && GET_DEVICE_TYPE_INDEX(m_deviceType) < MAX_CONTROLLER_TYPE_INDEX);
  if h : GET_DEVICE_TYPE_INDEX deviceType < MAX_CONTROLLER_TYPE_INDEX then
    let dev_info := g_supported_controller_infos.get ⟨GET_DEVICE_TYPE_INDEX deviceType, h⟩
    let found := hid_enumerate dev_info.vendor_id dev_info.product_id
    let e : ControllerHidDeviceEnumerator :=
      { m_deviceType := deviceType, devs := found, cur_dev := found,
        hid_calls := [HidCall.hid_enumerate dev_info.vendor_id dev_info.product_id] }
    -- if (!is_valid()) { next(); }
    if !is_valid win32 e then some (next win32 hid_enumerate e).2 else some e
  else
    none

/-- The default constructor `ControllerHidDeviceEnumerator()`, which starts at `PSMove`. -/
def createDefault (win32 : Bool) (hid_enumerate : Nat → Nat → List hid_device_info) :
    Option ControllerHidDeviceEnumerator :=
  create win32 hid_enumerate CommonDeviceState.PSMove

/-- The destructor: `if (devs != nullptr) { hid_free_enumeration(devs); }`. -/
def destroy (e : ControllerHidDeviceEnumerator) : ControllerHidDeviceEnumerator :=
  if !e.devs.isEmpty then
    { e with hid_calls := e.hid_calls ++ [HidCall.hid_free_enumeration e.devs] }
  else e

/-- The device the enumerator is positioned on, with the device type it is reported under;
`none` when `cur_dev` is null. -/
def current (e : ControllerHidDeviceEnumerator) : Option (Nat × hid_device_info) :=
  match e.cur_dev with
  | [] => none
  | d :: _ => some (e.m_deviceType, d)

/-- The devices a consumer is handed by calling `next()` until it returns false: the device
the enumerator is positioned on after each call that returned true. -/
def drain (win32 : Bool) (hid_enumerate : Nat → Nat → List hid_device_info)
    (e : ControllerHidDeviceEnumerator) : List (Nat × hid_device_info) :=
  if (next win32 hid_enumerate e).1 then
    (current (next win32 hid_enumerate e).2).toList ++
      drain win32 hid_enumerate (next win32 hid_enumerate e).2
  else
    []
termination_by
  (CommonDeviceState.SUPPORTED_CONTROLLER_TYPE_COUNT - e.m_deviceType, e.cur_dev.length)
decreasing_by
  rename_i hres
  unfold next at hres ⊢
  have hmeasure : ∀ (foundValid : Bool) (x : ControllerHidDeviceEnumerator),
      next_loop win32 hid_enumerate foundValid x = (foundValid, x) ∨
      Prod.Lex (· < ·) (· < ·)
        (CommonDeviceState.SUPPORTED_CONTROLLER_TYPE_COUNT -
            (next_loop win32 hid_enumerate foundValid x).2.m_deviceType,
          (next_loop win32 hid_enumerate foundValid x).2.cur_dev.length)
        (CommonDeviceState.SUPPORTED_CONTROLLER_TYPE_COUNT - x.m_deviceType,
          x.cur_dev.length) := by
    intro foundValid x
    induction foundValid, x using next_loop.induct win32 hid_enumerate with
    | case1 fv x hcond ih =>
      right
      rw [next_loop, if_pos hcond]
      simp only [Bool.and_eq_true, decide_eq_true_eq] at hcond
      have hopen : ∀ y : ControllerHidDeviceEnumerator,
          (open_next_type win32 hid_enumerate y).2.m_deviceType = y.m_deviceType + 1 := by
        intro y
        unfold open_next_type
        simp only
        split <;> split <;> rfl
      have hstep : Prod.Lex (· < ·) (· < ·)
          (CommonDeviceState.SUPPORTED_CONTROLLER_TYPE_COUNT -
              (next_iteration win32 hid_enumerate x).2.m_deviceType,
            (next_iteration win32 hid_enumerate x).2.cur_dev.length)
          (CommonDeviceState.SUPPORTED_CONTROLLER_TYPE_COUNT - x.m_deviceType,
            x.cur_dev.length) := by
        simp only [Prod.lex_def]
        unfold next_iteration
        simp only
        split
        · left
          rw [hopen]
          unfold advance_cur_dev
          split <;> simp only <;> omega
        · rename_i hc
          right
          unfold advance_cur_dev at hc ⊢
          cases hcur : x.cur_dev with
          | nil => simp [hcur] at hc
          | cons d rest => simp
      rcases ih with h | h
      · rw [h]
        exact hstep
      · exact Prod.Lex.trans h hstep
    | case2 fv x hcond =>
      left
      rw [next_loop, if_neg hcond]
  rcases hmeasure false e with h | h
  · rw [h] at hres
    exact absurd hres (by simp)
  · exact h

/-- The whole sequence of devices seen by a consumer: the device the enumerator is positioned
on after construction, if any, followed by those reached by `next()` until it returns false.
`none` when construction fails its assertion. -/
def enumerated (win32 : Bool) (hid_enumerate : Nat → Nat → List hid_device_info)
    (deviceType : Nat) : Option (List (Nat × hid_device_info)) :=
  (create win32 hid_enumerate deviceType).map
    (fun e => (current e).toList ++ drain win32 hid_enumerate e)

/-- The validity predicate of `is_valid()` for an entry `d` reported under device type
`deviceType`: the value of `is_valid()` on an enumerator positioned on `d`. -/
def valid_entry (win32 : Bool) (deviceType : Nat) (d : hid_device_info) : Bool :=
  is_valid win32 { m_deviceType := deviceType, devs := [d], cur_dev := [d], hid_calls := [] }

/-- The list the operating system reports for the controller type `deviceType`: the result of
`hid_enumerate` on the vendor and product id of its row of `g_supported_controller_infos`. -/
def os_list (hid_enumerate : Nat → Nat → List hid_device_info) (deviceType : Nat) :
    List hid_device_info :=
  match g_supported_controller_infos[GET_DEVICE_TYPE_INDEX deviceType]? with
  | some dev_info => hid_enumerate dev_info.vendor_id dev_info.product_id
  | none => []

/-- The entries of the operating-system list of `deviceType` that satisfy the validity
predicate for that type, in list order, tagged with the type. -/
def valid_entries (win32 : Bool) (hid_enumerate : Nat → Nat → List hid_device_info)
    (deviceType : Nat) : List (Nat × hid_device_info) :=
  ((os_list hid_enumerate deviceType).filter (valid_entry win32 deviceType)).map
    (fun d => (deviceType, d))

/-- Concatenation of `valid_entries` over the `count` device types starting at `deviceType`. -/
def valid_entries_from (win32 : Bool) (hid_enumerate : Nat → Nat → List hid_device_info) :
    (count : Nat) → (deviceType : Nat) → List (Nat × hid_device_info)
  | 0, _ => []
  | count + 1, deviceType =>
    valid_entries win32 hid_enumerate deviceType ++
      valid_entries_from win32 hid_enumerate count (deviceType + 1)

/-- What is still ahead of an enumerator: the valid entries after the current node in the
current list, then the valid entries of every later device type. -/
def pending (win32 : Bool) (hid_enumerate : Nat → Nat → List hid_device_info)
    (e : ControllerHidDeviceEnumerator) : List (Nat × hid_device_info) :=
  ((e.cur_dev.tail.filter (valid_entry win32 e.m_deviceType)).map
      (fun d => (e.m_deviceType, d))) ++
    valid_entries_from win32 hid_enumerate
      (CommonDeviceState.SUPPORTED_CONTROLLER_TYPE_COUNT - (e.m_deviceType + 1))
      (e.m_deviceType + 1)

/-- State invariant of the enumerator: the device type never passes the count, and once it
equals the count there is neither a current device nor an open enumeration. -/
def Exhaustible (e : ControllerHidDeviceEnumerator) : Prop :=
  e.m_deviceType ≤ CommonDeviceState.SUPPORTED_CONTROLLER_TYPE_COUNT ∧
  (e.m_deviceType = CommonDeviceState.SUPPORTED_CONTROLLER_TYPE_COUNT →
    e.cur_dev = [] ∧ e.devs = [])

/-- Whether the path of `d` contains the marker `&col01#`, tested as `is_valid()` tests it:
`strstr(path, "&col01#") != nullptr`. -/
def has_col01_marker (d : hid_device_info) : Bool :=
  (strstr d.path.toList "&col01#".toList).isSome

/-- The enumerator after construction at `deviceType` followed by `calls` calls of `next()`. -/
def after_calls (win32 : Bool) (hid_enumerate : Nat → Nat → List hid_device_info)
    (deviceType : Nat) : (calls : Nat) → Option ControllerHidDeviceEnumerator
  | 0 => create win32 hid_enumerate deviceType
  | calls + 1 =>
    (after_calls win32 hid_enumerate deviceType calls).map
      (fun e => (next win32 hid_enumerate e).2)

end ControllerHidDeviceEnumerator

/-- A PSMove sub-interface entry as Windows reports it: the data-bearing `&col01#` one. -/
def psmove_col01 : hid_device_info :=
  { path := "hid#vid_054c&pid_03d5&col01#7&2f1a9c30&0&0000",
    serial_number := some "00:06:f7:c2:31:9a" }

/-- The `&col02#` sub-interface entry of the same physical controller. -/
def psmove_col02 : hid_device_info :=
  { path := "hid#vid_054c&pid_03d5&col02#7&2f1a9c30&0&0001", serial_number := none }

/-- The `&col03#` sub-interface entry of the same physical controller. -/
def psmove_col03 : hid_device_info :=
  { path := "hid#vid_054c&pid_03d5&col03#7&2f1a9c30&0&0002", serial_number := none }

/-- A navigation controller entry. -/
def psnavi_entry : hid_device_info :=
  { path := "hid#vid_054c&pid_042f#6&11c0b3e&0&0000", serial_number := none }

/-- A synthetic host: one PSMove reported three times (the `&col01#` entry in the middle),
one PSNavi, and a failed (null) enumeration for every other vendor/product pair. -/
def example_hid_enumerate (vendor_id product_id : Nat) : List hid_device_info :=
  if vendor_id = 0x054c ∧ product_id = 0x03d5 then [psmove_col02, psmove_col01, psmove_col03]
  else if vendor_id = 0x054c ∧ product_id = 0x042F then [psnavi_entry]
  else []

/-! ## AppStage_ComputeTrackerPoses.cpp -/

/-- The enum `AppStage_ComputeTrackerPoses::eMenuState`; the enumerators are those named by
the `case` labels of the source file. -/
inductive eMenuState where
  | inactive
  | pendingControllerListRequest
  | failedControllerListRequest
  | pendingControllerStartRequest
  | failedControllerStartRequest
  | pendingTrackerListRequest
  | failedTrackerListRequest
  | pendingTrackerStartRequest
  | failedTrackerStartRequest
  | verifyTrackers
  | selectCalibrationMethod
  | calibrateWithMat
  | stereoCalibrate
  | testTracking
  | showTrackerVideo
  | calibrateStepFailed
  deriving DecidableEq, Repr

/-- The enum `ClientPSMoveAPI::eClientPSMoveResultCode`. -/
inductive eClientPSMoveResultCode where
  | _clientPSMoveResultCode_ok
  | _clientPSMoveResultCode_error
  | _clientPSMoveResultCode_canceled
  deriving DecidableEq, Repr

/-- Modelled from the spec: the controller type enum the stage switches on
(`ClientControllerView::PSMove`, `ClientControllerView::PSDualShock4`) is declared outside the
given sources; the closed set of controller types is PSMove, PSNavi, PSDualShock4. -/
inductive eControllerType where
  | PSMove
  | PSNavi
  | PSDualShock4
  deriving DecidableEq, Repr

/-- The flag bits or-ed into the `flags` word of a controller start-stream request; the word
is the list of the bits that are set. -/
inductive eControllerDataStreamFlags where
  | includePositionData
  | includeCalibratedSensorData
  | includeRawTrackerData
  | includePhysicsData
  | disableROI
  deriving DecidableEq, Repr

/-- The camera modes passed to `App::setCameraType`. -/
inductive eCameraType where
  | _cameraFixed
  | _cameraOrbit
  deriving DecidableEq, Repr

/-- The part of a controller view the stage reads and writes through its pointer: the id it
was allocated for, the type reported by `GetControllerViewType()`, and the flag set by
`SetPoseResetButtonEnabled`. -/
structure StageControllerView where
  ControllerID : Int
  ControllerViewType : eControllerType
  PoseResetButtonEnabled : Bool
  deriving DecidableEq, Repr

/-- The struct `ControllerState` held in `m_controllerViews`. `controllerView` is the live
view returned by `allocate_controller_view`. -/
structure ControllerState where
  listIndex : Int
  controllerView : StageControllerView
  trackingColorType : Int
  deriving DecidableEq, Repr

/-- The part of `ClientTrackerInfo` the stage reads. -/
structure ClientTrackerInfo where
  tracker_id : Int
  deriving DecidableEq, Repr

/-- The part of a tracker view the stage uses: its id and whether the local video stream
(shared memory channel) is open. -/
structure StageTrackerView where
  tracker_id : Int
  videoStreamOpen : Bool
  deriving DecidableEq, Repr

/-- The texture created by `handle_tracker_start_stream_response`. -/
structure TextureAsset where
  width : Int
  height : Int
  deriving DecidableEq, Repr

/-- The struct `TrackerState` held in `m_trackerViews`; `textureAsset` is nullable. -/
structure TrackerState where
  listIndex : Int
  trackerView : StageTrackerView
  textureAsset : Option TextureAsset
  deriving DecidableEq, Repr

/-- One row of a controller-list response: `controller_id[i]`, `controller_type[i]` and the
`tracking_color_type` of the protocol record with the same index. -/
structure ControllerListEntry where
  controller_id : Int
  controller_type : eControllerType
  tracking_color_type : Int
  deriving DecidableEq, Repr

/-- The tagged payload of a `ClientPSMoveAPI::ResponseMessage` (`payload_type` and `payload`). -/
inductive ResponsePayload where
  | _responsePayloadType_Empty
  | _responsePayloadType_ControllerList (controller_list : List ControllerListEntry)
  | _responsePayloadType_TrackerList (tracker_list : List ClientTrackerInfo)
  deriving DecidableEq, Repr

/-- Calls the stage makes to its collaborators (`ClientPSMoveAPI`, `App`, tracker views,
calibration sub-stages), recorded in order. A request passed to `register_callback` or
`eat_response` is recorded as the request. -/
inductive ApiCall where
  | get_controller_list
  | allocate_controller_view (ControllerID : Int)
  | start_controller_data_stream (ControllerID : Int) (flags : List eControllerDataStreamFlags)
  | stop_controller_data_stream (ControllerID : Int)
  | free_controller_view (ControllerID : Int)
  | get_tracker_list
  | allocate_tracker_view (tracker_id : Int)
  | start_tracker_data_stream (tracker_id : Int)
  | stop_tracker_data_stream (tracker_id : Int)
  | free_tracker_view (tracker_id : Int)
  | openVideoStream (tracker_id : Int)
  | closeVideoStream (tracker_id : Int)
  | delete_textureAsset (tracker_id : Int)
  | setCameraType (cameraType : eCameraType)
  | setAppStage (app_stage_name : String)
  | calibrateWithMat_enter
  | calibrateWithMat_exit
  | stereoCalibrate_enter
  | stereoCalibrate_exit
  | calibrateWithMat_update
  | calibrateWithMat_renderUI
  | stereoCalibrate_update
  | stereoCalibrate_renderUI
  | pollVideoStream (tracker_id : Int)
  | copyBufferIntoTexture (tracker_id : Int)
  deriving DecidableEq, Repr

/-- Modelled from the spec: the menu state a calibration sub-stage reports through
`getMenuState()` (`AppSubStage_CalibrateWithMat`, `AppSubStage_StereoCalibrate`) is declared
outside the given sources; the stage compares it with `calibrateStepSuccess` and
`calibrateStepFailed`, every other step of the sub-stage is `otherStep`. -/
inductive eCalibrationMenuState where
  | calibrateStepSuccess
  | calibrateStepFailed
  | otherStep (step : Nat)
  deriving DecidableEq, Repr

/-- What the immediate-mode UI reports during one `renderUI()` call: `Button label` is the
result of `ImGui::Button(label)`, `ButtonInID id label` its result between `ImGui::PushID(id)`
and `ImGui::PopID()`. -/
structure ImGuiFrame where
  Button : String → Bool
  ButtonInID : Int → String → Bool

/-- The constant `AppStage_ComputeTrackerPoses::APP_STAGE_NAME`. -/
def APP_STAGE_NAME : String := "ComputeTrackerPoses"

/-- Modelled from the spec: `AppStage_TrackerSettings::APP_STAGE_NAME` is defined outside the
given sources; it names the tracker settings stage. -/
def AppStage_TrackerSettings_APP_STAGE_NAME : String := "TrackerSettings"

/-- Modelled from the spec: `AppStage_MainMenu::APP_STAGE_NAME` is defined outside the given
sources; it names the main menu stage. -/
def AppStage_MainMenu_APP_STAGE_NAME : String := "MainMenu"

/-- The lookup `std::map<int, V>::find` on a map kept as a list of pairs: `none` is `end()`. -/
def map_find {V : Type} (m : List (Int × V)) (key : Int) : Option V :=
  match m with
  | [] => none
  | (k, v) :: rest => if k = key then some v else map_find rest key

/-- The insertion `std::map<int, V>::insert`: an existing key keeps its value, a new key is put in key
order. -/
def map_insert {V : Type} (m : List (Int × V)) (key : Int) (value : V) : List (Int × V) :=
  match map_find m key with
  | some _ => m
  | none =>
    m.takeWhile (fun kv => decide (kv.1 < key)) ++
      (key, value) :: m.dropWhile (fun kv => decide (kv.1 < key))

/-- Assignment through a reference obtained from `find`: replaces the value stored under
`key`, if the key is present. -/
def map_assign {V : Type} (m : List (Int × V)) (key : Int) (value : V) : List (Int × V) :=
  match m with
  | [] => []
  | (k, v) :: rest =>
    if k = key then (k, value) :: rest else (k, v) :: map_assign rest key value

/-- The data members of `AppStage_ComputeTrackerPoses` that the request chain uses, and the
trace `calls` of the calls made to collaborators. `m_renderTrackerIter` is the key of the
entry the iterator points to, `none` for `end()`. -/
structure AppStage_ComputeTrackerPoses where
  m_menuState : eMenuState
  m_trackerViews : List (Int × TrackerState)
  m_pendingTrackerStartCount : Int
  m_controllerViews : List (Int × ControllerState)
  m_pendingControllerStartCount : Int
  m_renderTrackerIndex : Int
  m_renderTrackerIter : Option Int
  m_bSkipCalibration : Bool
  m_overrideControllerId : Int
  calls : List ApiCall
  deriving DecidableEq, Repr

namespace AppStage_ComputeTrackerPoses

/-- The constructor: `inactive`, empty maps, zero counts, no override id. -/
def create : AppStage_ComputeTrackerPoses :=
  { m_menuState := eMenuState.inactive
    m_trackerViews := []
    m_pendingTrackerStartCount := 0
    m_controllerViews := []
    m_pendingControllerStartCount := 0
    m_renderTrackerIndex := 0
    m_renderTrackerIter := none
    m_bSkipCalibration := false
    m_overrideControllerId := -1
    calls := [] }

/-- Appends one call to the trace. -/
def record (s : AppStage_ComputeTrackerPoses) (c : ApiCall) : AppStage_ComputeTrackerPoses :=
  { s with calls := s.calls ++ [c] }

/-- The method `onExitState`; it switches on `m_menuState`, the state being left. -/
def onExitState (s : AppStage_ComputeTrackerPoses) (_newState : eMenuState) :
    AppStage_ComputeTrackerPoses :=
  match s.m_menuState with
  | eMenuState.inactive => s
  | eMenuState.pendingControllerListRequest
  | eMenuState.pendingControllerStartRequest
  | eMenuState.pendingTrackerListRequest
  | eMenuState.pendingTrackerStartRequest => s
  | eMenuState.failedControllerListRequest
  | eMenuState.failedControllerStartRequest
  | eMenuState.failedTrackerListRequest
  | eMenuState.failedTrackerStartRequest => s
  | eMenuState.verifyTrackers => s
  | eMenuState.selectCalibrationMethod => s
  | eMenuState.calibrateWithMat => s.record ApiCall.calibrateWithMat_exit
  | eMenuState.stereoCalibrate => s.record ApiCall.stereoCalibrate_exit
  | eMenuState.testTracking => s.record (ApiCall.setCameraType eCameraType._cameraFixed)
  | eMenuState.showTrackerVideo => s
  | eMenuState.calibrateStepFailed => s

/-- Body of the loop of `onEnterState(testTracking)` for one controller session. -/
def enablePoseReset (c : ControllerState) : ControllerState :=
  match c.controllerView.ControllerViewType with
  | eControllerType.PSMove =>
    { c with controllerView := { c.controllerView with PoseResetButtonEnabled := true } }
  | eControllerType.PSDualShock4 =>
    { c with controllerView := { c.controllerView with PoseResetButtonEnabled := true } }
  | eControllerType.PSNavi => c

/-- The method `onEnterState`. -/
def onEnterState (s : AppStage_ComputeTrackerPoses) (newState : eMenuState) :
    AppStage_ComputeTrackerPoses :=
  match newState with
  | eMenuState.inactive => s
  | eMenuState.pendingControllerListRequest => s
  | eMenuState.pendingControllerStartRequest =>
    { s with m_controllerViews := [], m_pendingControllerStartCount := 0 }
  | eMenuState.pendingTrackerListRequest => s
  | eMenuState.pendingTrackerStartRequest =>
    { s with m_trackerViews := [], m_pendingTrackerStartCount := 0 }
  | eMenuState.failedControllerListRequest
  | eMenuState.failedControllerStartRequest
  | eMenuState.failedTrackerListRequest
  | eMenuState.failedTrackerStartRequest => s
  | eMenuState.verifyTrackers =>
    let first := s.m_trackerViews.head?.map (fun kv : Int × TrackerState => kv.1)
    { s with m_renderTrackerIter := first }
  | eMenuState.selectCalibrationMethod => s
  | eMenuState.calibrateWithMat => s.record ApiCall.calibrateWithMat_enter
  | eMenuState.stereoCalibrate => s.record ApiCall.stereoCalibrate_enter
  | eMenuState.testTracking =>
    let views := s.m_controllerViews.map
      (fun kv : Int × ControllerState => (kv.1, enablePoseReset kv.2))
    ({ s with m_controllerViews := views }).record
      (ApiCall.setCameraType eCameraType._cameraOrbit)
  | eMenuState.showTrackerVideo => s
  | eMenuState.calibrateStepFailed => s

/-- The method `setState`. -/
def setState (s : AppStage_ComputeTrackerPoses) (newState : eMenuState) :
    AppStage_ComputeTrackerPoses :=
  if newState ≠ s.m_menuState then
    { onEnterState (onExitState s s.m_menuState) newState with m_menuState := newState }
  else
    s

/-- The stop and free calls `release_devices` makes for the controller sessions, in key
order. -/
def release_controller_calls (views : List (Int × ControllerState)) : List ApiCall :=
  match views with
  | [] => []
  | (_, c) :: rest =>
    [ApiCall.stop_controller_data_stream c.controllerView.ControllerID,
     ApiCall.free_controller_view c.controllerView.ControllerID] ++
      release_controller_calls rest

/-- The calls `release_devices` makes for the tracker sessions, in key order: delete the
texture if there is one, close the video stream, stop the data stream, free the view. -/
def release_tracker_calls (views : List (Int × TrackerState)) : List ApiCall :=
  match views with
  | [] => []
  | (_, t) :: rest =>
    (match t.textureAsset with
      | some _ => [ApiCall.delete_textureAsset t.trackerView.tracker_id]
      | none => []) ++
    [ApiCall.closeVideoStream t.trackerView.tracker_id,
     ApiCall.stop_tracker_data_stream t.trackerView.tracker_id,
     ApiCall.free_tracker_view t.trackerView.tracker_id] ++
      release_tracker_calls rest

/-- The method `release_devices`. The views stored in the maps are live, so the null checks
on `controllerView` and `trackerView` pass for every session. -/
def release_devices (s : AppStage_ComputeTrackerPoses) : AppStage_ComputeTrackerPoses :=
  { s with
    calls := s.calls ++ release_controller_calls s.m_controllerViews ++
      release_tracker_calls s.m_trackerViews
    m_controllerViews := []
    m_pendingControllerStartCount := 0
    m_trackerViews := []
    m_pendingTrackerStartCount := 0
    m_renderTrackerIndex := 0
    m_renderTrackerIter := none }

/-- The method `request_exit_to_app_stage`. -/
def request_exit_to_app_stage (s : AppStage_ComputeTrackerPoses) (app_stage_name : String) :
    AppStage_ComputeTrackerPoses :=
  (release_devices s).record (ApiCall.setAppStage app_stage_name)

/-- The method `request_controller_list`; it assigns `m_menuState` directly. -/
def request_controller_list (s : AppStage_ComputeTrackerPoses) : AppStage_ComputeTrackerPoses :=
  if s.m_menuState ≠ eMenuState.pendingControllerListRequest then
    ({ s with m_menuState := eMenuState.pendingControllerListRequest }).record
      ApiCall.get_controller_list
  else
    s

/-- The method `enter`. -/
def enter (s : AppStage_ComputeTrackerPoses) : AppStage_ComputeTrackerPoses :=
  (request_controller_list s).record (ApiCall.setCameraType eCameraType._cameraFixed)

/-- The method `exit`. -/
def exit (s : AppStage_ComputeTrackerPoses) : AppStage_ComputeTrackerPoses :=
  setState (release_devices s) eMenuState.inactive

/-- The method `request_tracker_list`. -/
def request_tracker_list (s : AppStage_ComputeTrackerPoses) : AppStage_ComputeTrackerPoses :=
  if s.m_menuState ≠ eMenuState.pendingTrackerListRequest then
    (setState s eMenuState.pendingTrackerListRequest).record ApiCall.get_tracker_list
  else
    s

/-- The `flags` word built by `request_start_controller_stream`. -/
def start_controller_flags (bSkipCalibration : Bool) : List eControllerDataStreamFlags :=
  [eControllerDataStreamFlags.includePositionData,
   eControllerDataStreamFlags.includeCalibratedSensorData,
   eControllerDataStreamFlags.includeRawTrackerData,
   eControllerDataStreamFlags.includePhysicsData] ++
  (if !bSkipCalibration then [eControllerDataStreamFlags.disableROI] else [])

/-- The method `request_start_controller_stream`. `ndebug` tells whether `NDEBUG` is defined
for the build (asserts compiled out); `allocate_controller_view` is the view the client API
hands back for an id. The result is `none` when the assertion fails. -/
def request_start_controller_stream (ndebug : Bool)
    (allocate_controller_view : Int → StageControllerView)
    (s : AppStage_ComputeTrackerPoses) (ControllerID : Int) (listIndex : Int)
    (trackingColorType : Int) : Option AppStage_ComputeTrackerPoses :=
  -- setState(eMenuState::pendingControllerStartRequest);
  let s1 := setState s eMenuState.pendingControllerStartRequest
  -- Allocate a new controller view
  let controllerState : ControllerState :=
    { listIndex := listIndex
      controllerView := allocate_controller_view ControllerID
      trackingColorType := trackingColorType }
  let s2 := s1.record (ApiCall.allocate_controller_view ControllerID)
  -- assert(m_controllerViews.find(ControllerID) == m_controllerViews.end());
  if !ndebug && (map_find s2.m_controllerViews ControllerID).isSome then
    none
  else
    -- m_controllerViews.insert(...); ++m_pendingControllerStartCount;
    let s3 := { s2 with
      m_controllerViews := map_insert s2.m_controllerViews ControllerID controllerState
      m_pendingControllerStartCount := s2.m_pendingControllerStartCount + 1 }
    -- start_controller_data_stream(controllerState.controllerView, flags)
    some (s3.record (ApiCall.start_controller_data_stream
      controllerState.controllerView.ControllerID (start_controller_flags s3.m_bSkipCalibration)))

/-- The method `handle_start_controller_response`. -/
def handle_start_controller_response (s : AppStage_ComputeTrackerPoses)
    (ResultCode : eClientPSMoveResultCode) : AppStage_ComputeTrackerPoses :=
  match ResultCode with
  | eClientPSMoveResultCode._clientPSMoveResultCode_ok =>
    -- --thisPtr->m_pendingControllerStartCount;
    let s1 := { s with m_pendingControllerStartCount := s.m_pendingControllerStartCount - 1 }
    if s1.m_pendingControllerStartCount ≤ 0 then request_tracker_list s1 else s1
  | eClientPSMoveResultCode._clientPSMoveResultCode_error
  | eClientPSMoveResultCode._clientPSMoveResultCode_canceled =>
    setState s eMenuState.failedControllerStartRequest

/-- The first loop of `handle_controller_list_response` (no override id), from `list_index`
on: start every PSMove and PSDualShock4 controller of the list. Returns the state and
`bStartedAnyControllers`. -/
def start_listed_controllers (ndebug : Bool)
    (allocate_controller_view : Int → StageControllerView) :
    List ControllerListEntry → Int → Bool → AppStage_ComputeTrackerPoses →
      Option (AppStage_ComputeTrackerPoses × Bool)
  | [], _, bStartedAnyControllers, s => some (s, bStartedAnyControllers)
  | c :: rest, list_index, bStartedAnyControllers, s =>
    if c.controller_type = eControllerType.PSMove ∨
        c.controller_type = eControllerType.PSDualShock4 then
      match request_start_controller_stream ndebug allocate_controller_view s
          c.controller_id list_index c.tracking_color_type with
      | none => none
      | some s1 =>
        start_listed_controllers ndebug allocate_controller_view rest (list_index + 1) true s1
    else
      start_listed_controllers ndebug allocate_controller_view rest (list_index + 1)
        bStartedAnyControllers s

/-- The second loop of `handle_controller_list_response` (override id set), from `list_index`
on: `(trackedControllerId, trackedControllerListIndex, trackingColorType)` of the first row
whose id is the override id, `(-1, -1, 0)` when there is none (the colour is then unused). -/
def find_override_controller (overrideControllerId : Int) :
    List ControllerListEntry → Int → Int × Int × Int
  | [], _ => (-1, -1, 0)
  | c :: rest, list_index =>
    if c.controller_id = overrideControllerId then
      (c.controller_id, list_index, c.tracking_color_type)
    else
      find_override_controller overrideControllerId rest (list_index + 1)

/-- The method `handle_controller_list_response`. The result is `none` when an assertion
fails (wrong payload type, or a controller id started twice in a build with asserts). -/
def handle_controller_list_response (ndebug : Bool)
    (allocate_controller_view : Int → StageControllerView)
    (s : AppStage_ComputeTrackerPoses) (ResultCode : eClientPSMoveResultCode)
    (payload : ResponsePayload) : Option AppStage_ComputeTrackerPoses :=
  match ResultCode with
  | eClientPSMoveResultCode._clientPSMoveResultCode_ok =>
    match payload with
    | ResponsePayload._responsePayloadType_ControllerList controller_list =>
      if s.m_overrideControllerId = -1 then
        match start_listed_controllers ndebug allocate_controller_view controller_list 0
            false s with
        | none => none
        | some (s1, bStartedAnyControllers) =>
          if !bStartedAnyControllers then
            some (setState s1 eMenuState.failedControllerListRequest)
          else
            some s1
      else
        let found := find_override_controller s.m_overrideControllerId controller_list 0
        if found.1 ≠ -1 then
          request_start_controller_stream ndebug allocate_controller_view s
            found.1 found.2.1 found.2.2
        else
          some (setState s eMenuState.failedControllerListRequest)
    | _ => none
  | eClientPSMoveResultCode._clientPSMoveResultCode_error
  | eClientPSMoveResultCode._clientPSMoveResultCode_canceled =>
    some (setState s eMenuState.failedControllerListRequest)

/-- The method `handle_all_devices_ready`. -/
def handle_all_devices_ready (s : AppStage_ComputeTrackerPoses) : AppStage_ComputeTrackerPoses :=
  if !s.m_bSkipCalibration then
    setState s eMenuState.verifyTrackers
  else
    setState s eMenuState.testTracking

/-- The method `request_tracker_start_stream`; `none` when the assertion fails. -/
def request_tracker_start_stream (ndebug : Bool) (s : AppStage_ComputeTrackerPoses)
    (TrackerInfo : ClientTrackerInfo) (listIndex : Int) : Option AppStage_ComputeTrackerPoses :=
  let s1 := setState s eMenuState.pendingTrackerStartRequest
  let trackerState : TrackerState :=
    { listIndex := listIndex
      trackerView := { tracker_id := TrackerInfo.tracker_id, videoStreamOpen := false }
      textureAsset := none }
  let s2 := s1.record (ApiCall.allocate_tracker_view TrackerInfo.tracker_id)
  -- assert(m_trackerViews.find(TrackerInfo->tracker_id) == m_trackerViews.end());
  if !ndebug && (map_find s2.m_trackerViews TrackerInfo.tracker_id).isSome then
    none
  else
    let s3 := { s2 with
      m_trackerViews := map_insert s2.m_trackerViews TrackerInfo.tracker_id trackerState
      m_pendingTrackerStartCount := s2.m_pendingTrackerStartCount + 1 }
    some (s3.record (ApiCall.start_tracker_data_stream TrackerInfo.tracker_id))

/-- The loop of `handle_tracker_list_response` from `tracker_index` on. -/
def start_listed_trackers (ndebug : Bool) :
    List ClientTrackerInfo → Int → AppStage_ComputeTrackerPoses →
      Option AppStage_ComputeTrackerPoses
  | [], _, s => some s
  | t :: rest, tracker_index, s =>
    match request_tracker_start_stream ndebug s t tracker_index with
    | none => none
    | some s1 => start_listed_trackers ndebug rest (tracker_index + 1) s1

/-- The method `handle_tracker_list_response`; `none` when an assertion fails. -/
def handle_tracker_list_response (ndebug : Bool) (s : AppStage_ComputeTrackerPoses)
    (result_code : eClientPSMoveResultCode) (payload : ResponsePayload) :
    Option AppStage_ComputeTrackerPoses :=
  match result_code with
  | eClientPSMoveResultCode._clientPSMoveResultCode_ok =>
    match payload with
    | ResponsePayload._responsePayloadType_TrackerList tracker_list =>
      start_listed_trackers ndebug tracker_list 0 s
    | _ => none
  | eClientPSMoveResultCode._clientPSMoveResultCode_error
  | eClientPSMoveResultCode._clientPSMoveResultCode_canceled =>
    some (setState s eMenuState.failedTrackerListRequest)

/-- The method `handle_tracker_start_stream_response`. `tracker_id` is the id read from the
request the response belongs to; `openVideoStream` is the result of
`trackerView->openVideoStream()`, `width` and `height` the frame size the view reports.
The result is `none` when the tracker id is not in `m_trackerViews`: the assertion fails, and
without asserts the `end()` iterator is dereferenced. -/
def handle_tracker_start_stream_response (s : AppStage_ComputeTrackerPoses)
    (result_code : eClientPSMoveResultCode) (tracker_id : Int) (openVideoStream : Bool)
    (width height : Int) : Option AppStage_ComputeTrackerPoses :=
  match result_code with
  | eClientPSMoveResultCode._clientPSMoveResultCode_ok =>
    match map_find s.m_trackerViews tracker_id with
    | none => none
    | some trackerState =>
      let s1 := s.record (ApiCall.openVideoStream trackerState.trackerView.tracker_id)
      let trackerState1 : TrackerState :=
        if openVideoStream then
          { trackerState with
            trackerView := { trackerState.trackerView with videoStreamOpen := true }
            textureAsset := some { width := width, height := height } }
        else
          trackerState
      let s2 := { s1 with
        m_trackerViews := map_assign s1.m_trackerViews tracker_id trackerState1
        m_pendingTrackerStartCount := s1.m_pendingTrackerStartCount - 1 }
      if s2.m_pendingTrackerStartCount ≤ 0 then
        some (handle_all_devices_ready s2)
      else
        some s2
  | eClientPSMoveResultCode._clientPSMoveResultCode_error
  | eClientPSMoveResultCode._clientPSMoveResultCode_canceled =>
    some (setState s eMenuState.failedTrackerStartRequest)

/-- The static method `enterStageAndCalibrate`, as far as it acts on the stage object: it
clears `m_bSkipCalibration`, stores the requested controller id and asks the application to
switch to this stage (the application then calls `enter()`). -/
def enterStageAndCalibrate (s : AppStage_ComputeTrackerPoses) (reqeusted_controller_id : Int) :
    AppStage_ComputeTrackerPoses :=
  ({ s with m_bSkipCalibration := false
            m_overrideControllerId := reqeusted_controller_id }).record
    (ApiCall.setAppStage APP_STAGE_NAME)

/-- The static method `enterStageAndSkipCalibration`, as far as it acts on the stage object:
it sets `m_bSkipCalibration`, stores the requested controller id and asks the application to
switch to this stage (the application then calls `enter()`). -/
def enterStageAndSkipCalibration (s : AppStage_ComputeTrackerPoses)
    (reqeusted_controller_id : Int) : AppStage_ComputeTrackerPoses :=
  ({ s with m_bSkipCalibration := true
            m_overrideControllerId := reqeusted_controller_id }).record
    (ApiCall.setAppStage APP_STAGE_NAME)

/-- The search loop shared by `go_next_tracker` and `go_previous_tracker`: the iterator is set
to every entry whose `listIndex` is the render index (so the last such entry wins) and is
left as it was when there is none. -/
def find_render_tracker (views : List (Int × TrackerState)) (renderTrackerIndex : Int)
    (iter : Option Int) : Option Int :=
  match views with
  | [] => iter
  | (k, t) :: rest =>
    find_render_tracker rest renderTrackerIndex
      (if t.listIndex = renderTrackerIndex then some k else iter)

/-- The method `go_next_tracker`; `%` on `int` is the truncated remainder. -/
def go_next_tracker (s : AppStage_ComputeTrackerPoses) : AppStage_ComputeTrackerPoses :=
  let trackerCount : Int := s.m_trackerViews.length
  if trackerCount > 1 then
    let index := Int.tmod (s.m_renderTrackerIndex + 1) trackerCount
    { s with
      m_renderTrackerIndex := index
      m_renderTrackerIter := find_render_tracker s.m_trackerViews index s.m_renderTrackerIter }
  else
    s

/-- The method `go_previous_tracker`. -/
def go_previous_tracker (s : AppStage_ComputeTrackerPoses) : AppStage_ComputeTrackerPoses :=
  let trackerCount : Int := s.m_trackerViews.length
  if trackerCount > 1 then
    let index := Int.tmod (s.m_renderTrackerIndex + trackerCount - 1) trackerCount
    { s with
      m_renderTrackerIndex := index
      m_renderTrackerIter := find_render_tracker s.m_trackerViews index s.m_renderTrackerIter }
  else
    s

/-- The method `update_tracker_video`; `pollVideoStream` is the result of
`trackerView->pollVideoStream()`. The result is `none` when the iterator does not point into
the map or when a frame arrives for a tracker whose `textureAsset` is null (the pointer is
dereferenced without a check). -/
def update_tracker_video (s : AppStage_ComputeTrackerPoses) (pollVideoStream : Bool) :
    Option AppStage_ComputeTrackerPoses :=
  match s.m_renderTrackerIter with
  | none => some s
  | some key =>
    match map_find s.m_trackerViews key with
    | none => none
    | some trackerState =>
      let s1 := s.record (ApiCall.pollVideoStream trackerState.trackerView.tracker_id)
      if pollVideoStream then
        match trackerState.textureAsset with
        | none => none
        | some _ =>
          some (s1.record (ApiCall.copyBufferIntoTexture trackerState.trackerView.tracker_id))
      else
        some s1

/-- The method `update`. `calibrateWithMatState` and `stereoCalibrateState` are what
`getMenuState()` of the two sub-stages returns after their `update()`. The switch has no case
for `failedTrackerListRequest`, which falls to `default: assert(0 && "unreachable")`: `none`
with asserts, no effect without. -/
def update (ndebug : Bool) (s : AppStage_ComputeTrackerPoses)
    (calibrateWithMatState stereoCalibrateState : eCalibrationMenuState)
    (pollVideoStream : Bool) : Option AppStage_ComputeTrackerPoses :=
  match s.m_menuState with
  | eMenuState.inactive => some s
  | eMenuState.pendingControllerListRequest
  | eMenuState.pendingControllerStartRequest
  | eMenuState.pendingTrackerListRequest
  | eMenuState.pendingTrackerStartRequest => some s
  | eMenuState.failedControllerListRequest
  | eMenuState.failedControllerStartRequest
  | eMenuState.failedTrackerStartRequest => some s
  | eMenuState.verifyTrackers => update_tracker_video s pollVideoStream
  | eMenuState.selectCalibrationMethod => some s
  | eMenuState.calibrateWithMat =>
    -- m_pCalibrateWithMat->update();
    let s1 := s.record ApiCall.calibrateWithMat_update
    if calibrateWithMatState = eCalibrationMenuState.calibrateStepSuccess then
      some (setState s1 eMenuState.testTracking)
    else if calibrateWithMatState = eCalibrationMenuState.calibrateStepFailed then
      some (setState s1 eMenuState.calibrateStepFailed)
    else
      some s1
  | eMenuState.stereoCalibrate =>
    -- m_pStereoCalibrate->update();
    let s1 := s.record ApiCall.stereoCalibrate_update
    if stereoCalibrateState = eCalibrationMenuState.calibrateStepSuccess then
      some (setState s1 eMenuState.testTracking)
    else if stereoCalibrateState = eCalibrationMenuState.calibrateStepFailed then
      some (setState s1 eMenuState.calibrateStepFailed)
    else
      some s1
  | eMenuState.testTracking => some s
  | eMenuState.showTrackerVideo => update_tracker_video s pollVideoStream
  | eMenuState.calibrateStepFailed => some s
  | eMenuState.failedTrackerListRequest => if ndebug then some s else none

/-- The "Looks Good!" action of `renderUI` in `verifyTrackers`. -/
def verifyTrackers_accept (s : AppStage_ComputeTrackerPoses) : AppStage_ComputeTrackerPoses :=
  if s.m_trackerViews.length = 2 then
    -- only consider stereo camera calibration when there are two trackers
    setState s eMenuState.selectCalibrationMethod
  else
    setState s eMenuState.calibrateWithMat

/-- The loop of `renderUI` in `testTracking` over the tracker sessions: on a local server, the
"Tracker Video" button of a tracker points the render iterator to it and enters
`showTrackerVideo`. -/
def testTracking_tracker_buttons (ui : ImGuiFrame) (isLocalServer : Bool) :
    List (Int × TrackerState) → AppStage_ComputeTrackerPoses → AppStage_ComputeTrackerPoses
  | [], s => s
  | (k, t) :: rest, s =>
    let s1 :=
      if isLocalServer && ui.ButtonInID t.trackerView.tracker_id "Tracker Video" then
        setState { s with m_renderTrackerIter := some k } eMenuState.showTrackerVideo
      else
        s
    testTracking_tracker_buttons ui isLocalServer rest s1

/-- The method `renderUI`, as far as it acts on the stage: the case is chosen by the value of
`m_menuState` on entry and the buttons of that case are handled in source order.
`isLocalServer` is `m_app->getIsLocalServer()`. -/
def renderUI (ui : ImGuiFrame) (isLocalServer : Bool) (s : AppStage_ComputeTrackerPoses) :
    AppStage_ComputeTrackerPoses :=
  match s.m_menuState with
  | eMenuState.inactive => s
  | eMenuState.pendingControllerListRequest
  | eMenuState.pendingControllerStartRequest
  | eMenuState.pendingTrackerListRequest
  | eMenuState.pendingTrackerStartRequest =>
    if ui.Button "Return to Tracker Settings" then
      request_exit_to_app_stage s AppStage_TrackerSettings_APP_STAGE_NAME
    else s
  | eMenuState.failedControllerListRequest
  | eMenuState.failedControllerStartRequest
  | eMenuState.failedTrackerListRequest
  | eMenuState.failedTrackerStartRequest =>
    let s1 :=
      if ui.Button "Ok" then
        request_exit_to_app_stage s AppStage_TrackerSettings_APP_STAGE_NAME
      else s
    if ui.Button "Return to Main Menu" then
      request_exit_to_app_stage s1 AppStage_MainMenu_APP_STAGE_NAME
    else s1
  | eMenuState.verifyTrackers =>
    let s1 :=
      if s.m_trackerViews.length > 1 then
        let s0 := if ui.Button "Previous Tracker" then go_previous_tracker s else s
        if ui.Button "Next Tracker" then go_next_tracker s0 else s0
      else s
    let s2 := if ui.Button "Looks Good!" then verifyTrackers_accept s1 else s1
    if ui.Button "Hmm... Something is wrong." then
      request_exit_to_app_stage s2 AppStage_TrackerSettings_APP_STAGE_NAME
    else s2
  | eMenuState.selectCalibrationMethod =>
    let s1 := if ui.Button "Calibration Mat" then setState s eMenuState.calibrateWithMat else s
    if ui.Button "Stereo Camera" then setState s1 eMenuState.stereoCalibrate else s1
  | eMenuState.calibrateWithMat => s.record ApiCall.calibrateWithMat_renderUI
  | eMenuState.stereoCalibrate => s.record ApiCall.stereoCalibrate_renderUI
  | eMenuState.testTracking =>
    let s1 := testTracking_tracker_buttons ui isLocalServer s.m_trackerViews s
    let s2 :=
      if !s1.m_bSkipCalibration then
        if ui.Button "Redo Calibration" then setState s1 eMenuState.verifyTrackers else s1
      else s1
    if ui.Button "Exit" then
      s2.record (ApiCall.setAppStage AppStage_TrackerSettings_APP_STAGE_NAME)
    else s2
  | eMenuState.showTrackerVideo =>
    let s1 :=
      if s.m_trackerViews.length > 1 then
        let s0 := if ui.Button "<##Previous Tracker" then go_previous_tracker s else s
        if ui.Button ">##Next Tracker" then go_next_tracker s0 else s0
      else s
    if ui.Button "Return" then setState s1 eMenuState.testTracking else s1
  | eMenuState.calibrateStepFailed =>
    let s1 :=
      if ui.Button "Restart Calibration" then setState s eMenuState.verifyTrackers else s
    if ui.Button "Cancel" then
      s1.record (ApiCall.setAppStage AppStage_TrackerSettings_APP_STAGE_NAME)
    else s1

/-- One tracker start-stream response as the handler sees it: the result code, the tracker id
of the request it answers, and what the tracker view reports when its video stream is
opened. -/
structure TrackerStartResponse where
  result_code : eClientPSMoveResultCode
  tracker_id : Int
  openVideoStream : Bool
  width : Int
  height : Int
  deriving DecidableEq, Repr

/-- Delivery of a sequence of tracker start-stream responses, in the order given; `none` as
soon as one of them fails the lookup of its tracker id. -/
def deliver_tracker_start_responses :
    List TrackerStartResponse → AppStage_ComputeTrackerPoses →
      Option AppStage_ComputeTrackerPoses
  | [], s => some s
  | r :: rest, s =>
    match handle_tracker_start_stream_response s r.result_code r.tracker_id r.openVideoStream
        r.width r.height with
    | none => none
    | some s1 => deliver_tracker_start_responses rest s1

end AppStage_ComputeTrackerPoses

namespace AppStage_ComputeTrackerPoses

/-- A run of `request_start_controller_stream` calls, one for each
`(ControllerID, listIndex, trackingColorType)` of `requests`, in order. -/
def start_requests (ndebug : Bool) (allocate_controller_view : Int → StageControllerView) :
    List (Int × Int × Int) → AppStage_ComputeTrackerPoses → Option AppStage_ComputeTrackerPoses
  | [], s => some s
  | r :: rest, s =>
    match request_start_controller_stream ndebug allocate_controller_view s r.1 r.2.1 r.2.2 with
    | none => none
    | some s1 => start_requests ndebug allocate_controller_view rest s1

/-- The arguments of the `request_start_controller_stream` calls that the first loop of
`handle_controller_list_response` makes on the rows from `list_index` on. -/
def listed_start_requests : List ControllerListEntry → Int → List (Int × Int × Int)
  | [], _ => []
  | c :: rest, list_index =>
    if c.controller_type = eControllerType.PSMove ∨
        c.controller_type = eControllerType.PSDualShock4 then
      (c.controller_id, list_index, c.tracking_color_type) ::
        listed_start_requests rest (list_index + 1)
    else
      listed_start_requests rest (list_index + 1)

/-- The arguments of the `request_start_controller_stream` calls that an Ok controller-list
response makes, for the given value of `m_overrideControllerId`. -/
def controller_start_requests (overrideControllerId : Int)
    (controller_list : List ControllerListEntry) : List (Int × Int × Int) :=
  if overrideControllerId = -1 then
    listed_start_requests controller_list 0
  else if (find_override_controller overrideControllerId controller_list 0).1 ≠ -1 then
    [find_override_controller overrideControllerId controller_list 0]
  else
    []

/-- The calls recorded by a run of `request_start_controller_stream` calls that all return:
for each request the allocation of the view and the start-stream request with its flags. -/
def start_request_calls (allocate_controller_view : Int → StageControllerView)
    (bSkipCalibration : Bool) : List (Int × Int × Int) → List ApiCall
  | [] => []
  | r :: rest =>
    [ApiCall.allocate_controller_view r.1,
     ApiCall.start_controller_data_stream (allocate_controller_view r.1).ControllerID
      (start_controller_flags bSkipCalibration)] ++
      start_request_calls allocate_controller_view bSkipCalibration rest

/-- Delivery of a sequence of controller start-stream responses, in the order given. -/
def deliver_start_controller_responses (s : AppStage_ComputeTrackerPoses)
    (responses : List eClientPSMoveResultCode) : AppStage_ComputeTrackerPoses :=
  responses.foldl handle_start_controller_response s

end AppStage_ComputeTrackerPoses

/-- A client API whose views all report the type PSMove. -/
def example_allocate_controller_view (ControllerID : Int) : StageControllerView :=
  { ControllerID := ControllerID, ControllerViewType := eControllerType.PSMove,
    PoseResetButtonEnabled := false }

/-- A controller list with two PSMove controllers, ids 0 and 1. -/
def example_controller_list : List ControllerListEntry :=
  [ { controller_id := 0, controller_type := eControllerType.PSMove, tracking_color_type := 0 },
    { controller_id := 1, controller_type := eControllerType.PSMove, tracking_color_type := 1 } ]

/-- The stage after construction and `enter()`: waiting for the controller list. -/
def example_entered_stage : AppStage_ComputeTrackerPoses :=
  AppStage_ComputeTrackerPoses.enter AppStage_ComputeTrackerPoses.create

/-- The stage after `enter()` and an Ok controller-list response listing one PSMove
controller with id 0 (built with asserts enabled): one start-stream request is in flight. -/
def example_one_request_in_flight : Option AppStage_ComputeTrackerPoses :=
  AppStage_ComputeTrackerPoses.handle_controller_list_response false
    example_allocate_controller_view example_entered_stage
    eClientPSMoveResultCode._clientPSMoveResultCode_ok
    (ResponsePayload._responsePayloadType_ControllerList
      [ { controller_id := 0, controller_type := eControllerType.PSMove,
          tracking_color_type := 0 } ])

/-- The stage after `enter()` and an Ok controller-list response listing the two controllers
of `example_controller_list` (built with asserts enabled): two requests are in flight. -/
def example_two_requests_in_flight : Option AppStage_ComputeTrackerPoses :=
  AppStage_ComputeTrackerPoses.handle_controller_list_response false
    example_allocate_controller_view example_entered_stage
    eClientPSMoveResultCode._clientPSMoveResultCode_ok
    (ResponsePayload._responsePayloadType_ControllerList example_controller_list)

/-- A frame of the UI in which exactly the buttons with the given label are pressed. -/
def example_click (label : String) : ImGuiFrame :=
  { Button := fun l => l == label, ButtonInID := fun _ _ => false }

/-- The stage of `example_two_requests_in_flight` after both controller streams have started
and an Ok tracker list with one tracker (id 0) has arrived: one tracker start request is in
flight. -/
def example_tracker_request_in_flight : Option AppStage_ComputeTrackerPoses :=
  example_two_requests_in_flight.bind (fun s =>
    AppStage_ComputeTrackerPoses.handle_tracker_list_response false
      (AppStage_ComputeTrackerPoses.deliver_start_controller_responses s
        [eClientPSMoveResultCode._clientPSMoveResultCode_ok,
         eClientPSMoveResultCode._clientPSMoveResultCode_ok])
      eClientPSMoveResultCode._clientPSMoveResultCode_ok
      (ResponsePayload._responsePayloadType_TrackerList [{ tracker_id := 0 }]))

/-- The stage of `example_tracker_request_in_flight` after the Ok answer of the tracker, with
the video stream opened: all devices are ready and the trackers are being verified. -/
def example_verifying : Option AppStage_ComputeTrackerPoses :=
  example_tracker_request_in_flight.bind (fun s =>
    AppStage_ComputeTrackerPoses.handle_tracker_start_stream_response s
      eClientPSMoveResultCode._clientPSMoveResultCode_ok 0 true 640 480)

/-- The stage of `example_verifying` after "Looks Good!" and a calibration tick that reports
success: the machine is in `testTracking`. -/
def example_test_tracking : Option AppStage_ComputeTrackerPoses :=
  example_verifying.bind (fun s =>
    AppStage_ComputeTrackerPoses.update false
      (AppStage_ComputeTrackerPoses.renderUI (example_click "Looks Good!") true s)
      eCalibrationMenuState.calibrateStepSuccess (eCalibrationMenuState.otherStep 0) false)

/-- A controller list with a PSMove controller (id 0) and a PSNavi controller (id 1). -/
def example_mixed_controller_list : List ControllerListEntry :=
  [ { controller_id := 0, controller_type := eControllerType.PSMove, tracking_color_type := 0 },
    { controller_id := 1, controller_type := eControllerType.PSNavi, tracking_color_type := 1 } ]

/-- A client API for the controllers of `example_mixed_controller_list`: the view of id 1
reports the type PSNavi, every other view the type PSMove. -/
def example_allocate_mixed_view (ControllerID : Int) : StageControllerView :=
  { ControllerID := ControllerID
    ControllerViewType := if ControllerID = 1 then eControllerType.PSNavi
      else eControllerType.PSMove
    PoseResetButtonEnabled := false }

/-- The stage entered through `enterStageAndSkipCalibration` with the override id 1, after an
Ok controller-list response with `example_mixed_controller_list`, the Ok answer to the one
controller start request, and an Ok tracker list with one tracker (id 0): one tracker start
request is in flight. -/
def example_override_navi_tracker_request_in_flight : Option AppStage_ComputeTrackerPoses :=
  (AppStage_ComputeTrackerPoses.handle_controller_list_response false
    example_allocate_mixed_view
    (AppStage_ComputeTrackerPoses.enter
      (AppStage_ComputeTrackerPoses.enterStageAndSkipCalibration
        AppStage_ComputeTrackerPoses.create 1))
    eClientPSMoveResultCode._clientPSMoveResultCode_ok
    (ResponsePayload._responsePayloadType_ControllerList example_mixed_controller_list)).bind
  (fun s =>
    AppStage_ComputeTrackerPoses.handle_tracker_list_response false
      (AppStage_ComputeTrackerPoses.handle_start_controller_response s
        eClientPSMoveResultCode._clientPSMoveResultCode_ok)
      eClientPSMoveResultCode._clientPSMoveResultCode_ok
      (ResponsePayload._responsePayloadType_TrackerList [{ tracker_id := 0 }]))

/-! ## ControllerHidDeviceEnumerator.cpp: loop passes and handle lifetime -/

namespace ControllerHidDeviceEnumerator

/-- The number of passes through the body of the `while` loop of `next()` when the loop is
started with the given value of `foundValid`: the recursion is that of `next_loop`, with one
counted for every pass. -/
def next_loop_passes (win32 : Bool) (hid_enumerate : Nat → Nat → List hid_device_info)
    (foundValid : Bool) (e : ControllerHidDeviceEnumerator) : Nat :=
  if !foundValid && decide (e.m_deviceType < CommonDeviceState.SUPPORTED_CONTROLLER_TYPE_COUNT) then
    1 + next_loop_passes win32 hid_enumerate (next_iteration win32 hid_enumerate e).1
      (next_iteration win32 hid_enumerate e).2
  else
    0
termination_by
  (CommonDeviceState.SUPPORTED_CONTROLLER_TYPE_COUNT - e.m_deviceType, e.cur_dev.length)
decreasing_by
  rename_i hcond
  simp only [Bool.and_eq_true, decide_eq_true_eq] at hcond
  simp only [Prod.lex_def]
  have hopen : ∀ x : ControllerHidDeviceEnumerator,
      (open_next_type win32 hid_enumerate x).2.m_deviceType = x.m_deviceType + 1 := by
    intro x
    unfold open_next_type
    simp only
    split <;> split <;> rfl
  have hstep : (next_iteration win32 hid_enumerate e).2.m_deviceType = e.m_deviceType + 1 ∨
      ((next_iteration win32 hid_enumerate e).2.m_deviceType = e.m_deviceType ∧
        (next_iteration win32 hid_enumerate e).2.cur_dev.length < e.cur_dev.length) := by
    unfold next_iteration
    simp only
    split
    · left
      rw [hopen]
      unfold advance_cur_dev
      split <;> rfl
    · rename_i hc
      right
      unfold advance_cur_dev at hc ⊢
      cases hcur : e.cur_dev with
      | nil => simp [hcur] at hc
      | cons d rest => simp
  rcases hstep with h | ⟨h1, h2⟩
  · left
    omega
  · right
    exact ⟨by rw [h1], h2⟩

/-- The number of loop passes of one `next()` call. -/
def next_passes (win32 : Bool) (hid_enumerate : Nat → Nat → List hid_device_info)
    (e : ControllerHidDeviceEnumerator) : Nat :=
  next_loop_passes win32 hid_enumerate false e

/-- The state the constructor is in when it tests `is_valid()`, after the first enumeration;
`none` when the assertion on `deviceType` fails. -/
def constructed (hid_enumerate : Nat → Nat → List hid_device_info) (deviceType : Nat) :
    Option ControllerHidDeviceEnumerator :=
  if h : GET_DEVICE_TYPE_INDEX deviceType < MAX_CONTROLLER_TYPE_INDEX then
    let dev_info := g_supported_controller_infos.get ⟨GET_DEVICE_TYPE_INDEX deviceType, h⟩
    let found := hid_enumerate dev_info.vendor_id dev_info.product_id
    some { m_deviceType := deviceType, devs := found, cur_dev := found,
           hid_calls := [HidCall.hid_enumerate dev_info.vendor_id dev_info.product_id] }
  else
    none

/-- The number of loop passes made by the `next()` call of the constructor: none when the
first device is valid (or the assertion fails), else those of `next()` on the state after the
first enumeration. -/
def create_passes (win32 : Bool) (hid_enumerate : Nat → Nat → List hid_device_info)
    (deviceType : Nat) : Nat :=
  match constructed hid_enumerate deviceType with
  | none => 0
  | some e => if !is_valid win32 e then next_passes win32 hid_enumerate e else 0

/-- Replay of a trace of hidapi calls, following the handle that is live: `live` is the
handle obtained and not yet freed (`[]` when there is none, a handle being a non-null list).
An enumeration while a handle is live, and a free of anything but the live handle, are
violations and give `none`; otherwise the result is the handle live at the end. -/
def replay_hid_calls (hid_enumerate : Nat → Nat → List hid_device_info) :
    List HidCall → List hid_device_info → Option (List hid_device_info)
  | [], live => some live
  | HidCall.hid_enumerate vendor_id product_id :: rest, live =>
    if live.isEmpty then
      replay_hid_calls hid_enumerate rest (hid_enumerate vendor_id product_id)
    else
      none
  | HidCall.hid_free_enumeration devs :: rest, live =>
    if !devs.isEmpty && decide (devs = live) then
      replay_hid_calls hid_enumerate rest []
    else
      none

/-- The number of `hid_enumerate` calls of a trace that returned a handle. -/
def handles_obtained (hid_enumerate : Nat → Nat → List hid_device_info) :
    List HidCall → Nat
  | [] => 0
  | HidCall.hid_enumerate vendor_id product_id :: rest =>
    (if (hid_enumerate vendor_id product_id).isEmpty then 0 else 1) +
      handles_obtained hid_enumerate rest
  | HidCall.hid_free_enumeration _ :: rest => handles_obtained hid_enumerate rest

/-- The number of `hid_free_enumeration` calls of a trace. -/
def handles_freed : List HidCall → Nat
  | [] => 0
  | HidCall.hid_enumerate _ _ :: rest => handles_freed rest
  | HidCall.hid_free_enumeration _ :: rest => 1 + handles_freed rest

end ControllerHidDeviceEnumerator

/-! ## MathUtility.cpp -/

namespace MathUtility

/-- The C library function `fmaxf` in exact arithmetic: the larger of its arguments. -/
def fmaxf (x y : ℚ) : ℚ := if x < y then y else x

/-- The C library function `fminf` in exact arithmetic: the smaller of its arguments. -/
def fminf (x y : ℚ) : ℚ := if y < x then y else x

/-- The C library function `fmodf` in exact arithmetic: the remainder `x - n * y` where `n` is
the quotient `x / y` rounded towards zero, so the result has the sign of `x`. -/
def fmodf (x y : ℚ) : ℚ :=
  x - (if 0 ≤ x / y then ⌊x / y⌋ else ⌈x / y⌉) * y

/-- Body: `return fminf(fmaxf(x, lo), hi);` -/
def clampf (x lo hi : ℚ) : ℚ := fminf (fmaxf x lo) hi

/-- Body: `return clampf(x, 0.f, 1.f);` -/
def clampf01 (x : ℚ) : ℚ := clampf x 0 1

/-- Body: `return a*(1.f - u) + b*u;` -/
def lerpf (a b u : ℚ) : ℚ := a * (1 - u) + b * u

/-- Body: `return clampf(lerpf(a, b, u), a, b);` -/
def lerp_clampf (a b u : ℚ) : ℚ := clampf (lerpf a b u) a b

/-- Body: `return fmodf(angle + 360.f, 360.f);` -/
def wrap_degrees (angle : ℚ) : ℚ := fmodf (angle + 360) 360

end MathUtility

/-! ## Further example data for the bring-up stage -/

namespace AppStage_ComputeTrackerPoses

/-- Both session maps hold at most one session per device id. -/
def UniqueSessions (s : AppStage_ComputeTrackerPoses) : Prop :=
  (s.m_controllerViews.map Prod.fst).Nodup ∧ (s.m_trackerViews.map Prod.fst).Nodup

instance instDecidableUniqueSessions (s : AppStage_ComputeTrackerPoses) :
    Decidable (UniqueSessions s) :=
  inferInstanceAs (Decidable (_ ∧ _))

/-- The render-tracker selection invariant: the render index is a position of the tracker
list, and the iterator points to the session whose `listIndex` is the render index. -/
def RenderSelectionInvariant (s : AppStage_ComputeTrackerPoses) : Prop :=
  0 ≤ s.m_renderTrackerIndex ∧ s.m_renderTrackerIndex < s.m_trackerViews.length ∧
  (s.m_renderTrackerIter.bind (map_find s.m_trackerViews)).map
    (fun trackerState => trackerState.listIndex) = some s.m_renderTrackerIndex

instance instDecidableRenderSelectionInvariant (s : AppStage_ComputeTrackerPoses) :
    Decidable (RenderSelectionInvariant s) :=
  inferInstanceAs (Decidable (_ ∧ _ ∧ _))

end AppStage_ComputeTrackerPoses

/-- The stage of `example_two_requests_in_flight` after both controller streams have started:
it has asked for the tracker list and waits in `pendingTrackerListRequest`. -/
def example_waiting_for_tracker_list : AppStage_ComputeTrackerPoses :=
  AppStage_ComputeTrackerPoses.deliver_start_controller_responses
    (example_two_requests_in_flight.getD AppStage_ComputeTrackerPoses.create)
    [eClientPSMoveResultCode._clientPSMoveResultCode_ok,
     eClientPSMoveResultCode._clientPSMoveResultCode_ok]

/-- A controller list that names the PSMove controller with id 0 twice. -/
def example_duplicate_controller_list : List ControllerListEntry :=
  [ { controller_id := 0, controller_type := eControllerType.PSMove, tracking_color_type := 0 },
    { controller_id := 0, controller_type := eControllerType.PSMove, tracking_color_type := 0 } ]

/-- The answer of a tracker whose video stream opens with 640x480 frames. -/
def example_tracker_started (tracker_id : Int) :
    AppStage_ComputeTrackerPoses.TrackerStartResponse :=
  { result_code := eClientPSMoveResultCode._clientPSMoveResultCode_ok
    tracker_id := tracker_id, openVideoStream := true, width := 640, height := 480 }

/-- The stage of `example_waiting_for_tracker_list` after an Ok tracker list with the
trackers 0 and 1 (in this order) and the Ok answers of both: the trackers are being
verified. -/
def example_two_trackers_verifying : Option AppStage_ComputeTrackerPoses :=
  (AppStage_ComputeTrackerPoses.handle_tracker_list_response false
    example_waiting_for_tracker_list eClientPSMoveResultCode._clientPSMoveResultCode_ok
    (ResponsePayload._responsePayloadType_TrackerList
      [{ tracker_id := 0 }, { tracker_id := 1 }])).bind
  (AppStage_ComputeTrackerPoses.deliver_tracker_start_responses
    [example_tracker_started 0, example_tracker_started 1])

/-- The stage of `example_two_trackers_verifying` after the user has pressed "Next Tracker",
then "Looks Good!", then "Calibration Mat", and the calibration has reported success: the
machine is in `testTracking`. -/
def example_two_trackers_test_tracking : Option AppStage_ComputeTrackerPoses :=
  example_two_trackers_verifying.bind (fun s =>
    AppStage_ComputeTrackerPoses.update false
      (AppStage_ComputeTrackerPoses.renderUI (example_click "Calibration Mat") true
        (AppStage_ComputeTrackerPoses.renderUI (example_click "Looks Good!") true
          (AppStage_ComputeTrackerPoses.renderUI (example_click "Next Tracker") true s)))
      eCalibrationMenuState.calibrateStepSuccess (eCalibrationMenuState.otherStep 0) false)

/-- The stage of `example_two_trackers_test_tracking` after "Redo Calibration": the machine
is in `verifyTrackers` again. -/
def example_redo_calibration : Option AppStage_ComputeTrackerPoses :=
  example_two_trackers_test_tracking.map
    (AppStage_ComputeTrackerPoses.renderUI (example_click "Redo Calibration") true)

/-- A frame of the UI in which exactly the "Tracker Video" button of one tracker is
pressed. -/
def example_click_tracker_video (tracker_id : Int) : ImGuiFrame :=
  { Button := fun _ => false
    ButtonInID := fun id label => id == tracker_id && label == "Tracker Video" }

/-- The stage of `example_two_trackers_test_tracking` after the "Tracker Video" button of
tracker 0 has been pressed on a local server: the machine is in `showTrackerVideo`. -/
def example_show_tracker_video : Option AppStage_ComputeTrackerPoses :=
  example_two_trackers_test_tracking.map
    (AppStage_ComputeTrackerPoses.renderUI (example_click_tracker_video 0) true)

/-- The stage of `example_waiting_for_tracker_list` after an Ok tracker list that names
tracker 1 before tracker 0, and the Ok answers of both. -/
def example_unsorted_trackers_verifying : Option AppStage_ComputeTrackerPoses :=
  (AppStage_ComputeTrackerPoses.handle_tracker_list_response false
    example_waiting_for_tracker_list eClientPSMoveResultCode._clientPSMoveResultCode_ok
    (ResponsePayload._responsePayloadType_TrackerList
      [{ tracker_id := 1 }, { tracker_id := 0 }])).bind
  (AppStage_ComputeTrackerPoses.deliver_tracker_start_responses
    [example_tracker_started 1, example_tracker_started 0])

/-- The stage of `example_waiting_for_tracker_list` after an Error answer to the tracker
list request. -/
def example_tracker_list_failed : Option AppStage_ComputeTrackerPoses :=
  AppStage_ComputeTrackerPoses.handle_tracker_list_response false
    example_waiting_for_tracker_list eClientPSMoveResultCode._clientPSMoveResultCode_error
    ResponsePayload._responsePayloadType_Empty

/-! ## AppStage_DistortionCalibration.cpp -/

namespace AppStage_DistortionCalibration

/-- The macro `PATTERN_W`: internal corners per row of the chessboard. -/
def PATTERN_W : Int := 9

/-- The macro `PATTERN_H`. -/
def PATTERN_H : Int := 6

/-- The macro `CORNER_COUNT`, defined as `(PATTERN_W*PATTERN_H)`. -/
def CORNER_COUNT : Int := PATTERN_W * PATTERN_H

/-- The macro `DESIRED_CAPTURE_BOARD_COUNT`. -/
def DESIRED_CAPTURE_BOARD_COUNT : Int := 100

/-- The macro `BOARD_MOVED_PIXEL_DIST`. -/
def BOARD_MOVED_PIXEL_DIST : Int := 5

/-- The macro `BOARD_MOVED_SQUARED_ERROR_SUM`, defined as
`(BOARD_MOVED_PIXEL_DIST*BOARD_MOVED_PIXEL_DIST)*CORNER_COUNT`. -/
def BOARD_MOVED_SQUARED_ERROR_SUM : Int :=
  (BOARD_MOVED_PIXEL_DIST * BOARD_MOVED_PIXEL_DIST) * CORNER_COUNT

/-- The OpenCV type `cv::Point2f`, with exact coordinates. -/
structure Point2f where
  x : ℚ
  y : ℚ
  deriving DecidableEq, Repr

/-- The difference of two points, `a - b` on `cv::Point2f`. -/
def Point2f.sub (a b : Point2f) : Point2f := { x := a.x - b.x, y := a.y - b.y }

/-- The OpenCV type `cv::Mat` holding one float per entry: its size and its entries. -/
structure Mat where
  rows : Int
  cols : Int
  data : Int → Int → ℚ

/-- The matrix `cv::Mat::zeros(rows, cols, CV_32FC1)`. -/
def Mat.zeros (rows cols : Int) : Mat := { rows := rows, cols := cols, data := fun _ _ => 0 }

/-- The assignment `m->at<float>(row, col) = value`. The access is only defined inside the
matrix (OpenCV checks the indices in debug builds only), so the result is `none` for an
index outside it. -/
def Mat.set (m : Mat) (row col : Int) (value : ℚ) : Option Mat :=
  if 0 ≤ row ∧ row < m.rows ∧ 0 ≤ col ∧ col < m.cols then
    some { m with data := fun r c => if r = row ∧ c = col then value else m.data r c }
  else
    none

/-- The data members of `OpenCVBufferState` that hold the chessboard capture state, and the
reprojection error of the calibration state. -/
structure OpenCVBufferState where
  capturedBoardCount : Int
  corners : List Point2f
  upperCornerPath : List Point2f
  lowerCornerPath : List Point2f
  image_points : Mat
  object_points : Mat
  reprojectionError : ℚ

namespace OpenCVBufferState

/-- The method `resetCaptureState`. -/
def resetCaptureState (s : OpenCVBufferState) : OpenCVBufferState :=
  { s with
    capturedBoardCount := 0
    corners := []
    image_points := Mat.zeros (DESIRED_CAPTURE_BOARD_COUNT * CORNER_COUNT) 2
    object_points := Mat.zeros (DESIRED_CAPTURE_BOARD_COUNT * CORNER_COUNT) 3 }

/-- The method `resetCalibrationState`, as far as it acts on the modelled members. -/
def resetCalibrationState (s : OpenCVBufferState) : OpenCVBufferState :=
  { s with reprojectionError := 0 }

/-- The constructor: `capturedBoardCount(0)`, the two point matrices allocated with
`DESIRED_CAPTURE_BOARD_COUNT * CORNER_COUNT` rows, then `resetCaptureState()` and
`resetCalibrationState()`. `uninitialised` stands for the entries of the freshly allocated
matrices. -/
def create (uninitialised : Int → Int → ℚ) : OpenCVBufferState :=
  resetCalibrationState (resetCaptureState
    { capturedBoardCount := 0
      corners := []
      upperCornerPath := []
      lowerCornerPath := []
      image_points :=
        { rows := DESIRED_CAPTURE_BOARD_COUNT * CORNER_COUNT, cols := 2, data := uninitialised }
      object_points :=
        { rows := DESIRED_CAPTURE_BOARD_COUNT * CORNER_COUNT, cols := 3, data := uninitialised }
      reprojectionError := 0 })

/-- One pass of the loop that sums the distances between the new and the remembered corners:
`squared_error_sum += cv::norm(new_corners[corner_index] - corners[corner_index])`; `none`
when an index is outside one of the vectors. `norm` is `cv::norm` on points. -/
def add_squared_error (norm : Point2f → ℚ) (new_corners corners : List Point2f)
    (squared_error_sum : ℚ) (corner_index : Nat) : Option ℚ :=
  match new_corners[corner_index]?, corners[corner_index]? with
  | some a, some b => some (squared_error_sum + norm (a.sub b))
  | _, _ => none

/-- The loop `for (corner_index = 0; corner_index < CORNER_COUNT; ++corner_index)` that
computes `squared_error_sum`. -/
def squared_error_sum (norm : Point2f → ℚ) (new_corners corners : List Point2f) : Option ℚ :=
  (List.range CORNER_COUNT.toNat).foldlM (add_squared_error norm new_corners corners) 0

/-- One pass of the loop that appends a board: the five assignments into row
`write_index = write_offset + corner_index` of `image_points` and `object_points`; `none`
when an index is outside the vector or a matrix. -/
def write_corner (new_corners : List Point2f) (write_offset : Int) (points : Mat × Mat)
    (corner_index : Nat) : Option (Mat × Mat) :=
  match new_corners[corner_index]? with
  | none => none
  | some corner =>
    let write_index : Int := write_offset + corner_index
    -- image_points->at<float>(write_index, 0)= new_corners[corner_index].x; (and .y)
    (points.1.set write_index 0 corner.x).bind (fun image1 =>
    (image1.set write_index 1 corner.y).bind (fun image2 =>
    -- object_points->at<float>(write_index, 0)= (float)corner_index / (float)PATTERN_W;
    (points.2.set write_index 0 ((corner_index : ℚ) / (PATTERN_W : ℚ))).bind (fun object1 =>
    -- object_points->at<float>(write_index, 1)= (float)(corner_index % PATTERN_W);
    (object1.set write_index 1 ((Int.tmod corner_index PATTERN_W : Int) : ℚ)).bind
      (fun object2 =>
    -- object_points->at<float>(write_index, 2)= 0.f;
    (object2.set write_index 2 0).bind (fun object3 =>
    some (image2, object3))))))

/-- The loop `for (write_index = write_offset, corner_index = 0; corner_index < CORNER_COUNT;
++write_index, ++corner_index)` of `findAndAppendNewChessBoard`. -/
def write_board (new_corners : List Point2f) (write_offset : Int) (points : Mat × Mat) :
    Option (Mat × Mat) :=
  (List.range CORNER_COUNT.toNat).foldlM (write_corner new_corners write_offset) points

/-- The method `findAndAppendNewChessBoard`. `found` is what `cv::findChessboardCorners`
and `cv::cornerSubPix` produce for the current frame (`none` when no chessboard is found),
`norm` is `cv::norm` on points. The result is `none` when an access falls outside a vector or
a matrix. -/
def findAndAppendNewChessBoard (norm : Point2f → ℚ) (found : Option (List Point2f))
    (s : OpenCVBufferState) : Option OpenCVBufferState :=
  if s.capturedBoardCount < DESIRED_CAPTURE_BOARD_COUNT then
    match found with
    | none => some s
    | some new_corners =>
      if (new_corners.length : Int) = CORNER_COUNT then
        -- See if the board moved enough to be considered a new location
        let bCornersChanged : Option Bool :=
          if s.corners.length > 0 then
            (squared_error_sum norm new_corners s.corners).map
              (fun sum => decide (sum ≥ (BOARD_MOVED_SQUARED_ERROR_SUM : ℚ)))
          else
            some true
        match bCornersChanged with
        | none => none
        | some false => some s
        | some true =>
          let write_offset := s.capturedBoardCount * CORNER_COUNT
          match write_board new_corners write_offset (s.image_points, s.object_points) with
          | none => none
          | some points =>
            some { s with
              image_points := points.1
              object_points := points.2
              capturedBoardCount := s.capturedBoardCount + 1
              upperCornerPath := s.upperCornerPath ++ (new_corners[0]?).toList
              lowerCornerPath :=
                s.lowerCornerPath ++ (new_corners[(CORNER_COUNT - 1).toNat]?).toList
              corners := new_corners }
      else
        some s
  else
    some s

/-- The method `computeCameraCalibration`: the returned `bSuccess` and the new state.
`calibrateCamera` is the reprojection error `cv::calibrateCamera` returns. -/
def computeCameraCalibration (calibrateCamera : ℚ) (s : OpenCVBufferState) :
    Bool × OpenCVBufferState :=
  if s.capturedBoardCount ≥ DESIRED_CAPTURE_BOARD_COUNT then
    (true, { s with reprojectionError := calibrateCamera })
  else
    (false, s)

/-- A call made on the buffer state by the calibration stage. -/
inductive Call where
  | findAndAppendNewChessBoard (found : Option (List Point2f))
  | resetCaptureState
  | computeCameraCalibration (calibrateCamera : ℚ)

/-- The state after a sequence of calls, in order; `none` as soon as a call makes an access
outside a vector or a matrix. -/
def run (norm : Point2f → ℚ) : List Call → OpenCVBufferState → Option OpenCVBufferState
  | [], s => some s
  | Call.findAndAppendNewChessBoard found :: rest, s =>
    (OpenCVBufferState.findAndAppendNewChessBoard norm found s).bind (run norm rest)
  | Call.resetCaptureState :: rest, s => run norm rest (OpenCVBufferState.resetCaptureState s)
  | Call.computeCameraCalibration calibrateCamera :: rest, s =>
    run norm rest (OpenCVBufferState.computeCameraCalibration calibrateCamera s).2

/-- The state invariant of the capture buffer: the count is between 0 and
`DESIRED_CAPTURE_BOARD_COUNT`, the point matrices have the size they were allocated with,
and the remembered corners are none or those of one whole board. -/
def CaptureInvariant (s : OpenCVBufferState) : Prop :=
  0 ≤ s.capturedBoardCount ∧ s.capturedBoardCount ≤ DESIRED_CAPTURE_BOARD_COUNT ∧
  s.image_points.rows = DESIRED_CAPTURE_BOARD_COUNT * CORNER_COUNT ∧
  s.image_points.cols = 2 ∧
  s.object_points.rows = DESIRED_CAPTURE_BOARD_COUNT * CORNER_COUNT ∧
  s.object_points.cols = 3 ∧
  (s.corners = [] ∨ (s.corners.length : Int) = CORNER_COUNT)

end OpenCVBufferState

/-- The corners of a synthetic board: 54 points on a line. -/
def example_board (shift : ℚ) : List Point2f :=
  (List.range 54).map (fun i => { x := (i : ℚ) + shift, y := shift })

/-- A stand-in for `cv::norm`: the sum of the absolute coordinates. -/
def example_norm (p : Point2f) : ℚ := |p.x| + |p.y|

end AppStage_DistortionCalibration

/-! ## Response events of the controller stage -/

namespace AppStage_ComputeTrackerPoses

end AppStage_ComputeTrackerPoses

section ControllerViewProperties

open ClientControllerView PSMoveButtonState

theorem GetIsConnected_eq_false_iff (v : ClientControllerView) :
    v.GetIsConnected = false ↔ (v.IsConnected = false ∨ v.PSMoveID = -1) := by
  unfold GetIsConnected IsValid
  cases hc : v.IsConnected <;> by_cases hid : v.PSMoveID = -1 <;> simp [hid]

/-- C1: whenever `GetIsConnected()` is false (which happens exactly when the `IsConnected` flag
is false or `PSMoveID == -1`), and whatever the stored fields hold, `GetPosition()` is the
zero-vector constant, `GetOrientation()` the identity-quaternion constant, each of the nine
button accessors is `PSMoveButton_UP`, `GetTriggerValue()` is 0, and `GetIsCurrentlyTracking()`
and `GetIsTrackingEnabled()` are false. -/
theorem C1_disconnected_accessors_neutral (v : ClientControllerView)
    (h : v.GetIsConnected = false) :
    (v.IsConnected = false ∨ v.PSMoveID = -1) ∧
    v.GetPosition = k_psmove_vector3_zero ∧
    v.GetOrientation = k_psmove_quaternion_identity ∧
    v.GetButtonTriangle = PSMoveButton_UP ∧
    v.GetButtonCircle = PSMoveButton_UP ∧
    v.GetButtonCross = PSMoveButton_UP ∧
    v.GetButtonSquare = PSMoveButton_UP ∧
    v.GetButtonSelect = PSMoveButton_UP ∧
    v.GetButtonStart = PSMoveButton_UP ∧
    v.GetButtonPS = PSMoveButton_UP ∧
    v.GetButtonMove = PSMoveButton_UP ∧
    v.GetButtonTrigger = PSMoveButton_UP ∧
    v.GetTriggerValue = 0 ∧
    v.GetIsCurrentlyTracking = false ∧
    v.GetIsTrackingEnabled = false := by
  refine ⟨(GetIsConnected_eq_false_iff v).mp h, ?_⟩
  simp [GetPosition, GetOrientation, GetButtonTriangle, GetButtonCircle, GetButtonCross,
    GetButtonSquare, GetButtonSelect, GetButtonStart, GetButtonPS, GetButtonMove,
    GetButtonTrigger, GetTriggerValue, GetIsCurrentlyTracking, GetIsTrackingEnabled, h]

/-- Witness for C1 at a view whose stored pose, buttons and trigger are all non-neutral. -/
theorem C1_disconnected_accessors_neutral_witness :
    staleDisconnectedView.GetIsConnected = false ∧
    staleDisconnectedView.Pose.Position ≠ k_psmove_vector3_zero ∧
    staleDisconnectedView.TriangleButton ≠ PSMoveButton_UP ∧
    staleDisconnectedView.GetPosition = k_psmove_vector3_zero ∧
    staleDisconnectedView.GetButtonTriangle = PSMoveButton_UP ∧
    staleDisconnectedView.GetTriggerValue = 0 :=
  have h := C1_disconnected_accessors_neutral staleDisconnectedView (by decide)
  ⟨by decide, by decide, by decide, h.2.1, h.2.2.2.1, h.2.2.2.2.2.2.2.2.2.2.2.2.1⟩

/-- C2: the `PSMoveButtonState` codes realise the 2-bit debounce table. For every pair
`(prevRaw, currRaw)` the word `prevRaw<<1 | currRaw` is the code of exactly one state, with
(0,0) -> UP = 0, (0,1) -> PRESSED = 1, (1,1) -> DOWN = 3, (1,0) -> RELEASED = 2; the map from
pairs to states is a bijection; bit0 of a code is the current raw bit and bit1 the previous
raw bit. -/
theorem C2_button_codes_debounce_table :
    (∀ prevRaw currRaw : Bool, ∃! s : PSMoveButtonState, s.code = rawPairCode prevRaw currRaw) ∧
    (ofCode (rawPairCode false false) = some PSMoveButton_UP ∧ PSMoveButton_UP.code = 0) ∧
    (ofCode (rawPairCode false true) = some PSMoveButton_PRESSED ∧
      PSMoveButton_PRESSED.code = 1) ∧
    (ofCode (rawPairCode true true) = some PSMoveButton_DOWN ∧ PSMoveButton_DOWN.code = 3) ∧
    (ofCode (rawPairCode true false) = some PSMoveButton_RELEASED ∧
      PSMoveButton_RELEASED.code = 2) ∧
    (∀ s : PSMoveButtonState, ofCode s.code = some s) ∧
    Function.Bijective
      (fun pc : Bool × Bool => (ofCode (rawPairCode pc.1 pc.2)).getD PSMoveButton_UP) ∧
    (∀ (prevRaw currRaw : Bool) (s : PSMoveButtonState), s.code = rawPairCode prevRaw currRaw →
      (Nat.testBit s.code 0 = currRaw ∧ Nat.testBit s.code 1 = prevRaw)) := by
  refine ⟨?_, ⟨by decide, rfl⟩, ⟨by decide, rfl⟩, ⟨by decide, rfl⟩, ⟨by decide, rfl⟩,
    by decide, ?_, by decide⟩
  · intro prevRaw currRaw
    cases prevRaw <;> cases currRaw
    · exact ⟨PSMoveButton_UP, by decide,
        fun s hs => by cases s <;> first | rfl | exact absurd hs (by decide)⟩
    · exact ⟨PSMoveButton_PRESSED, by decide,
        fun s hs => by cases s <;> first | rfl | exact absurd hs (by decide)⟩
    · exact ⟨PSMoveButton_RELEASED, by decide,
        fun s hs => by cases s <;> first | rfl | exact absurd hs (by decide)⟩
    · exact ⟨PSMoveButton_DOWN, by decide,
        fun s hs => by cases s <;> first | rfl | exact absurd hs (by decide)⟩
  · constructor
    · intro a b
      revert a b
      decide
    · intro s
      cases s
      · exact ⟨(false, false), by decide⟩
      · exact ⟨(false, true), by decide⟩
      · exact ⟨(true, true), by decide⟩
      · exact ⟨(true, false), by decide⟩

end ControllerViewProperties

/-! ## Properties of the HID controller enumerator -/

namespace ControllerHidDeviceEnumerator

theorem is_valid_eq (win32 : Bool) (e : ControllerHidDeviceEnumerator) :
    is_valid win32 e =
      match e.cur_dev with
      | [] => false
      | d :: _ => valid_entry win32 e.m_deviceType d := by
  unfold valid_entry is_valid
  cases e.cur_dev <;> rfl

theorem is_valid_nil (win32 : Bool) (e : ControllerHidDeviceEnumerator) (h : e.cur_dev = []) :
    is_valid win32 e = false := by
  rw [is_valid_eq, h]

theorem is_valid_cons (win32 : Bool) (e : ControllerHidDeviceEnumerator) (d : hid_device_info)
    (rest : List hid_device_info) (h : e.cur_dev = d :: rest) :
    is_valid win32 e = valid_entry win32 e.m_deviceType d := by
  rw [is_valid_eq, h]

theorem open_next_type_spec (win32 : Bool) (hid_enumerate : Nat → Nat → List hid_device_info)
    (e : ControllerHidDeviceEnumerator) (hcur : e.cur_dev = []) :
    let r := open_next_type win32 hid_enumerate e
    r.1 = is_valid win32 r.2 ∧
    r.2.m_deviceType = e.m_deviceType + 1 ∧
    r.2.cur_dev = r.2.devs ∧
    (e.m_deviceType + 1 < CommonDeviceState.SUPPORTED_CONTROLLER_TYPE_COUNT →
      r.2.cur_dev = os_list hid_enumerate (e.m_deviceType + 1)) ∧
    (e.m_deviceType + 1 = CommonDeviceState.SUPPORTED_CONTROLLER_TYPE_COUNT →
      r.2.cur_dev = []) := by
  intro r
  have hr : r = open_next_type win32 hid_enumerate e := rfl
  unfold open_next_type at hr
  simp only at hr
  by_cases hidx : GET_DEVICE_TYPE_INDEX (e.m_deviceType + 1) < MAX_CONTROLLER_TYPE_INDEX
  · have hidx2 : GET_DEVICE_TYPE_INDEX (e.m_deviceType + 1) < g_supported_controller_infos.length :=
      hidx
    have hos : os_list hid_enumerate (e.m_deviceType + 1) =
        hid_enumerate
          (g_supported_controller_infos.get ⟨GET_DEVICE_TYPE_INDEX (e.m_deviceType + 1), hidx⟩).vendor_id
          (g_supported_controller_infos.get ⟨GET_DEVICE_TYPE_INDEX (e.m_deviceType + 1), hidx⟩).product_id := by
      unfold os_list
      rw [List.getElem?_eq_getElem hidx2]
      rfl
    by_cases hd : e.devs.isEmpty = true
    · simp only [hd, Bool.not_true, Bool.false_eq_true, if_false, hidx, dite_true] at hr
      rw [hr]
      refine ⟨rfl, rfl, rfl, fun _ => hos.symm, fun h3 => ?_⟩
      unfold GET_DEVICE_TYPE_INDEX MAX_CONTROLLER_TYPE_INDEX GET_DEVICE_TYPE_INDEX at hidx
      omega
    · simp only [hd, Bool.not_false, if_true, hidx, dite_true] at hr
      rw [hr]
      refine ⟨rfl, rfl, rfl, fun _ => hos.symm, fun h3 => ?_⟩
      unfold GET_DEVICE_TYPE_INDEX MAX_CONTROLLER_TYPE_INDEX GET_DEVICE_TYPE_INDEX at hidx
      omega
  · have hge : ¬ (e.m_deviceType + 1 < CommonDeviceState.SUPPORTED_CONTROLLER_TYPE_COUNT) := hidx
    by_cases hd : e.devs.isEmpty = true
    · have hdevs : e.devs = [] := List.isEmpty_iff.mp hd
      simp only [hd, Bool.not_true, Bool.false_eq_true, if_false, hidx, dite_false] at hr
      rw [hr]
      refine ⟨?_, rfl, ?_, fun h => absurd h hge, fun _ => hcur⟩
      · rw [is_valid_nil]
        exact hcur
      · simp only [hcur, hdevs]
    · simp only [hd, Bool.not_false, if_true, hidx, dite_false] at hr
      rw [hr]
      exact ⟨(is_valid_nil _ _ rfl).symm, rfl, rfl, fun h => absurd h hge, fun _ => rfl⟩

theorem valid_entries_from_succ (win32 : Bool)
    (hid_enumerate : Nat → Nat → List hid_device_info) (t : Nat)
    (h : t < CommonDeviceState.SUPPORTED_CONTROLLER_TYPE_COUNT) :
    valid_entries_from win32 hid_enumerate
        (CommonDeviceState.SUPPORTED_CONTROLLER_TYPE_COUNT - t) t =
      valid_entries win32 hid_enumerate t ++
        valid_entries_from win32 hid_enumerate
          (CommonDeviceState.SUPPORTED_CONTROLLER_TYPE_COUNT - (t + 1)) (t + 1) := by
  have hsub : CommonDeviceState.SUPPORTED_CONTROLLER_TYPE_COUNT - t =
      (CommonDeviceState.SUPPORTED_CONTROLLER_TYPE_COUNT - (t + 1)) + 1 := by omega
  rw [hsub, valid_entries_from]

theorem valid_entries_from_ge (win32 : Bool)
    (hid_enumerate : Nat → Nat → List hid_device_info) (t : Nat)
    (h : CommonDeviceState.SUPPORTED_CONTROLLER_TYPE_COUNT ≤ t) :
    valid_entries_from win32 hid_enumerate
        (CommonDeviceState.SUPPORTED_CONTROLLER_TYPE_COUNT - t) t = [] := by
  have hsub : CommonDeviceState.SUPPORTED_CONTROLLER_TYPE_COUNT - t = 0 := by omega
  rw [hsub, valid_entries_from]

/-- What `open_next_type` does to the pending sequence when the current list is used up. -/
theorem open_next_type_pending (win32 : Bool)
    (hid_enumerate : Nat → Nat → List hid_device_info)
    (e : ControllerHidDeviceEnumerator) (hcur : e.cur_dev = [])
    (hlt : e.m_deviceType < CommonDeviceState.SUPPORTED_CONTROLLER_TYPE_COUNT) :
    let r := open_next_type win32 hid_enumerate e
    r.1 = is_valid win32 r.2 ∧ Exhaustible r.2 ∧
    pending win32 hid_enumerate e =
      (if r.1 then (current r.2).toList else []) ++ pending win32 hid_enumerate r.2 := by
  intro r
  obtain ⟨h1, h2, h3, h4, h5⟩ := open_next_type_spec win32 hid_enumerate e hcur
  change r.1 = is_valid win32 r.2 at h1
  change r.2.m_deviceType = e.m_deviceType + 1 at h2
  change r.2.cur_dev = r.2.devs at h3
  refine ⟨h1, ⟨by omega, fun h => ?_⟩, ?_⟩
  · have hc : r.2.cur_dev = [] := h5 (by omega)
    exact ⟨hc, by rw [← h3]; exact hc⟩
  · have hpe : pending win32 hid_enumerate e =
        valid_entries_from win32 hid_enumerate
          (CommonDeviceState.SUPPORTED_CONTROLLER_TYPE_COUNT - (e.m_deviceType + 1))
          (e.m_deviceType + 1) := by
      unfold pending
      rw [hcur]
      rfl
    rw [hpe]
    by_cases hnext : e.m_deviceType + 1 < CommonDeviceState.SUPPORTED_CONTROLLER_TYPE_COUNT
    · have hc : r.2.cur_dev = os_list hid_enumerate (e.m_deviceType + 1) := h4 hnext
      rw [valid_entries_from_succ win32 hid_enumerate _ hnext]
      unfold pending
      rw [h2, ← List.append_assoc]
      congr 1
      unfold valid_entries
      rw [← hc, h1, is_valid_eq, h2]
      unfold current
      cases hl : r.2.cur_dev with
      | nil => simp
      | cons d rest =>
        by_cases hv : valid_entry win32 (e.m_deviceType + 1) d = true
        · simp [hv, List.filter_cons, h2]
        · simp [hv, List.filter_cons]
    · have hc : r.2.cur_dev = [] := h5 (by omega)
      rw [valid_entries_from_ge win32 hid_enumerate _ (by omega)]
      have hf : r.1 = false := by rw [h1]; exact is_valid_nil _ _ hc
      unfold pending
      rw [hf, hc, h2, valid_entries_from_ge win32 hid_enumerate _ (by omega)]
      rfl

/-- One pass of the loop of `next()` consumes the pending sequence correctly: the new
`foundValid` is `is_valid()`, and the pending sequence before the pass is the device reached
(if valid) followed by the pending sequence after it. -/
theorem next_iteration_pending (win32 : Bool)
    (hid_enumerate : Nat → Nat → List hid_device_info)
    (e : ControllerHidDeviceEnumerator)
    (hlt : e.m_deviceType < CommonDeviceState.SUPPORTED_CONTROLLER_TYPE_COUNT) :
    let r := next_iteration win32 hid_enumerate e
    r.1 = is_valid win32 r.2 ∧ Exhaustible r.2 ∧
    pending win32 hid_enumerate e =
      (if r.1 then (current r.2).toList else []) ++ pending win32 hid_enumerate r.2 := by
  intro r
  have hr : r = next_iteration win32 hid_enumerate e := rfl
  unfold next_iteration advance_cur_dev at hr
  cases hcur : e.cur_dev with
  | nil =>
    simp only [hcur, Bool.not_false, List.isEmpty_nil, Bool.and_self, if_true] at hr
    rw [hr]
    exact open_next_type_pending win32 hid_enumerate e hcur hlt
  | cons d0 rest =>
    cases hrest : rest with
    | nil =>
      subst hrest
      have hv : is_valid win32 { e with cur_dev := [] } = false := is_valid_nil _ _ rfl
      simp only [hcur, hv, Bool.not_false, List.isEmpty_nil, Bool.and_self, if_true] at hr
      rw [hr]
      have hp : pending win32 hid_enumerate e =
          pending win32 hid_enumerate { e with cur_dev := [] } := by
        unfold pending
        rw [hcur]
        rfl
      rw [hp]
      exact open_next_type_pending win32 hid_enumerate { e with cur_dev := [] } rfl hlt
    | cons d1 rest2 =>
      subst hrest
      simp only [hcur, List.isEmpty_cons, Bool.and_false, Bool.false_eq_true, if_false] at hr
      rw [hr]
      refine ⟨rfl, ⟨Nat.le_of_lt hlt, fun h => ?_⟩, ?_⟩
      · exact absurd h (Nat.ne_of_lt hlt)
      · simp only
        rw [is_valid_cons win32 _ d1 rest2 rfl]
        unfold pending current
        simp only [hcur, List.tail_cons]
        by_cases hv : valid_entry win32 e.m_deviceType d1 = true
        · simp [hv, List.filter_cons]
        · simp [hv, List.filter_cons]

theorem pending_of_exhausted (win32 : Bool)
    (hid_enumerate : Nat → Nat → List hid_device_info) (e : ControllerHidDeviceEnumerator)
    (hinv : Exhaustible e)
    (hge : ¬ e.m_deviceType < CommonDeviceState.SUPPORTED_CONTROLLER_TYPE_COUNT) :
    pending win32 hid_enumerate e = [] := by
  have ht : e.m_deviceType = CommonDeviceState.SUPPORTED_CONTROLLER_TYPE_COUNT :=
    Nat.le_antisymm hinv.1 (Nat.le_of_not_lt hge)
  unfold pending
  rw [(hinv.2 ht).1, valid_entries_from_ge win32 hid_enumerate _ (by omega)]
  rfl

/-- The loop of `next()` against the pending sequence, for any entry value of `foundValid`
that agrees with `is_valid()` when it is true. -/
theorem next_loop_pending (win32 : Bool) (hid_enumerate : Nat → Nat → List hid_device_info)
    (foundValid : Bool) (e : ControllerHidDeviceEnumerator) :
    Exhaustible e → (foundValid = true → is_valid win32 e = true) →
    (next_loop win32 hid_enumerate foundValid e).1 =
        is_valid win32 (next_loop win32 hid_enumerate foundValid e).2 ∧
    Exhaustible (next_loop win32 hid_enumerate foundValid e).2 ∧
    ((next_loop win32 hid_enumerate foundValid e).1 = false →
      (next_loop win32 hid_enumerate foundValid e).2.m_deviceType =
        CommonDeviceState.SUPPORTED_CONTROLLER_TYPE_COUNT) ∧
    (if foundValid then (current e).toList else []) ++ pending win32 hid_enumerate e =
      (if (next_loop win32 hid_enumerate foundValid e).1 then
        (current (next_loop win32 hid_enumerate foundValid e).2).toList ++
          pending win32 hid_enumerate (next_loop win32 hid_enumerate foundValid e).2
      else []) := by
  induction foundValid, e using next_loop.induct win32 hid_enumerate with
  | case1 fv e hcond ih =>
    intro _ _
    rw [next_loop, if_pos hcond]
    simp only [Bool.and_eq_true, Bool.not_eq_true', decide_eq_true_eq] at hcond
    obtain ⟨hfv, hlt⟩ := hcond
    obtain ⟨h1, h2, h3⟩ := next_iteration_pending win32 hid_enumerate e hlt
    obtain ⟨i1, i2, i3, i4⟩ := ih h2 (fun h => by rw [← h1]; exact h)
    refine ⟨i1, i2, i3, ?_⟩
    rw [← i4, hfv, h3]
    simp
  | case2 fv e hcond =>
    intro hinv hfv
    rw [next_loop, if_neg hcond]
    simp only [Bool.and_eq_true, Bool.not_eq_true', decide_eq_true_eq, not_and] at hcond
    cases fv with
    | true =>
      refine ⟨(hfv rfl).symm, hinv, fun h => absurd h (by simp), ?_⟩
      simp
    | false =>
      have hge := hcond rfl
      have ht : e.m_deviceType = CommonDeviceState.SUPPORTED_CONTROLLER_TYPE_COUNT :=
        Nat.le_antisymm hinv.1 (Nat.le_of_not_lt hge)
      refine ⟨(is_valid_nil _ _ (hinv.2 ht).1).symm, hinv, fun _ => ht, ?_⟩
      simp [pending_of_exhausted win32 hid_enumerate e hinv hge]

/-- The method `next()` against the pending sequence: it returns true exactly when something
is pending, and then it is positioned on the first pending device. -/
theorem next_pending (win32 : Bool) (hid_enumerate : Nat → Nat → List hid_device_info)
    (e : ControllerHidDeviceEnumerator) (hinv : Exhaustible e) :
    (next win32 hid_enumerate e).1 = is_valid win32 (next win32 hid_enumerate e).2 ∧
    Exhaustible (next win32 hid_enumerate e).2 ∧
    ((next win32 hid_enumerate e).1 = false →
      (next win32 hid_enumerate e).2.m_deviceType =
        CommonDeviceState.SUPPORTED_CONTROLLER_TYPE_COUNT) ∧
    pending win32 hid_enumerate e =
      (if (next win32 hid_enumerate e).1 then
        (current (next win32 hid_enumerate e).2).toList ++
          pending win32 hid_enumerate (next win32 hid_enumerate e).2
      else []) := by
  have h := next_loop_pending win32 hid_enumerate false e hinv (fun h => absurd h (by simp))
  simpa [next] using h

/-- Calling `next()` until it returns false hands out exactly the pending sequence. -/
theorem drain_eq_pending (win32 : Bool) (hid_enumerate : Nat → Nat → List hid_device_info)
    (e : ControllerHidDeviceEnumerator) :
    Exhaustible e → drain win32 hid_enumerate e = pending win32 hid_enumerate e := by
  induction e using drain.induct win32 hid_enumerate with
  | case1 e hres ih =>
    intro hinv
    obtain ⟨_, h2, _, h4⟩ := next_pending win32 hid_enumerate e hinv
    rw [drain, if_pos hres, ih h2, h4, if_pos hres]
  | case2 e hres =>
    intro hinv
    obtain ⟨_, _, _, h4⟩ := next_pending win32 hid_enumerate e hinv
    rw [drain, if_neg hres, h4, if_neg hres]

theorem strstr_isSome_iff (haystack needle : List Char) :
    (strstr haystack needle).isSome = true ↔ needle <:+: haystack := by
  induction haystack with
  | nil =>
    rw [strstr]
    by_cases h : needle.isPrefixOf [] = true
    · rw [if_pos h]
      simp only [Option.isSome_some, true_iff]
      exact (List.isPrefixOf_iff_prefix.mp h).isInfix
    · rw [if_neg h]
      simp only [Option.isSome_none, Bool.false_eq_true, false_iff]
      intro hin
      apply h
      rw [List.isPrefixOf_iff_prefix]
      have : needle = [] := List.eq_nil_of_infix_nil hin
      rw [this]
  | cons c rest ih =>
    rw [strstr]
    by_cases h : needle.isPrefixOf (c :: rest) = true
    · rw [if_pos h]
      simp only [Option.isSome_some, true_iff]
      exact (List.isPrefixOf_iff_prefix.mp h).isInfix
    · rw [if_neg h, ih, List.infix_cons_iff]
      constructor
      · intro hr
        exact Or.inr hr
      · intro hr
        rcases hr with hp | hr
        · exact absurd (List.isPrefixOf_iff_prefix.mpr hp) h
        · exact hr

theorem has_col01_marker_iff (d : hid_device_info) :
    has_col01_marker d = true ↔ "&col01#".toList <:+: d.path.toList :=
  strstr_isSome_iff _ _

theorem valid_entry_eq (win32 : Bool) (deviceType : Nat) (d : hid_device_info) :
    valid_entry win32 deviceType d =
      if win32 = true ∧ deviceType = CommonDeviceState.PSMove then has_col01_marker d
      else true := by
  unfold valid_entry is_valid has_col01_marker
  cases win32
  · simp
  · by_cases ht : deviceType = CommonDeviceState.PSMove
    · simp only [ht, beq_self_eq_true, Bool.and_self, Bool.true_and, and_self, if_true]
      cases strstr d.path.toList "&col01#".toList <;> rfl
    · simp [ht]

theorem valid_entries_from_eq_nil_iff (win32 : Bool)
    (hid_enumerate : Nat → Nat → List hid_device_info) (count t : Nat) :
    valid_entries_from win32 hid_enumerate count t = [] ↔
      ∀ u, t ≤ u → u < t + count → ∀ d ∈ os_list hid_enumerate u,
        valid_entry win32 u d = false := by
  induction count generalizing t with
  | zero =>
    simp only [valid_entries_from, true_iff]
    intro u h1 h2
    omega
  | succ n ih =>
    simp only [valid_entries_from, List.append_eq_nil, ih, valid_entries, List.map_eq_nil_iff,
      List.filter_eq_nil_iff, Bool.not_eq_true]
    constructor
    · rintro ⟨h1, h2⟩ u hu1 hu2 d hd
      by_cases hut : u = t
      · subst hut
        exact h1 d hd
      · exact h2 u (by omega) (by omega) d hd
    · intro h
      exact ⟨fun d hd => h t (Nat.le_refl t) (by omega) d hd,
        fun u hu1 hu2 d hd => h u (by omega) (by omega) d hd⟩

theorem pending_eq_nil_iff (win32 : Bool) (hid_enumerate : Nat → Nat → List hid_device_info)
    (e : ControllerHidDeviceEnumerator) :
    pending win32 hid_enumerate e = [] ↔
      (∀ d ∈ e.cur_dev.tail, valid_entry win32 e.m_deviceType d = false) ∧
      (∀ t, e.m_deviceType < t → t < CommonDeviceState.SUPPORTED_CONTROLLER_TYPE_COUNT →
        ∀ d ∈ os_list hid_enumerate t, valid_entry win32 t d = false) := by
  unfold pending
  simp only [List.append_eq_nil, List.map_eq_nil_iff, List.filter_eq_nil_iff, Bool.not_eq_true,
    valid_entries_from_eq_nil_iff]
  constructor
  · rintro ⟨h1, h2⟩
    exact ⟨h1, fun t ht1 ht2 d hd => h2 t (by omega) (by omega) d hd⟩
  · rintro ⟨h1, h2⟩
    exact ⟨h1, fun t ht1 ht2 d hd => h2 t (by omega) (by omega) d hd⟩

theorem create_some (win32 : Bool) (hid_enumerate : Nat → Nat → List hid_device_info)
    (deviceType : Nat) (ht : deviceType < CommonDeviceState.SUPPORTED_CONTROLLER_TYPE_COUNT) :
    ∃ e, create win32 hid_enumerate deviceType = some e ∧ Exhaustible e ∧
      (current e).toList ++ pending win32 hid_enumerate e =
        valid_entries_from win32 hid_enumerate
          (CommonDeviceState.SUPPORTED_CONTROLLER_TYPE_COUNT - deviceType) deviceType := by
  have hidx : GET_DEVICE_TYPE_INDEX deviceType < MAX_CONTROLLER_TYPE_INDEX := ht
  have hidx2 : GET_DEVICE_TYPE_INDEX deviceType < g_supported_controller_infos.length := ht
  have hos : os_list hid_enumerate deviceType =
      hid_enumerate
        (g_supported_controller_infos.get ⟨GET_DEVICE_TYPE_INDEX deviceType, hidx⟩).vendor_id
        (g_supported_controller_infos.get ⟨GET_DEVICE_TYPE_INDEX deviceType, hidx⟩).product_id := by
    unfold os_list
    rw [List.getElem?_eq_getElem hidx2]
    rfl
  unfold create
  rw [dif_pos hidx]
  simp only
  rw [← hos]
  generalize hcalls : [HidCall.hid_enumerate
      (g_supported_controller_infos.get ⟨GET_DEVICE_TYPE_INDEX deviceType, hidx⟩).vendor_id
      (g_supported_controller_infos.get ⟨GET_DEVICE_TYPE_INDEX deviceType, hidx⟩).product_id] = calls
  generalize he0 : (ControllerHidDeviceEnumerator.mk deviceType
      (os_list hid_enumerate deviceType) (os_list hid_enumerate deviceType) calls) = e0
  have ht0 : e0.m_deviceType = deviceType := by rw [← he0]
  have hc0 : e0.cur_dev = os_list hid_enumerate deviceType := by rw [← he0]
  have hinv0 : Exhaustible e0 :=
    ⟨by rw [ht0]; exact Nat.le_of_lt ht, fun h => absurd (ht0 ▸ h) (Nat.ne_of_lt ht)⟩
  have hsplit : valid_entries_from win32 hid_enumerate
      (CommonDeviceState.SUPPORTED_CONTROLLER_TYPE_COUNT - deviceType) deviceType =
      (if is_valid win32 e0 then (current e0).toList else []) ++
        pending win32 hid_enumerate e0 := by
    rw [valid_entries_from_succ win32 hid_enumerate _ ht]
    unfold pending valid_entries
    rw [ht0, ← List.append_assoc]
    congr 1
    rw [is_valid_eq, ht0, ← hc0]
    unfold current
    cases hl : e0.cur_dev with
    | nil => simp
    | cons d rest =>
      by_cases hv : valid_entry win32 deviceType d = true
      · simp [hv, List.filter_cons, ht0]
      · simp [hv, List.filter_cons]
  by_cases hv : is_valid win32 e0 = true
  · refine ⟨e0, by simp [hv], hinv0, ?_⟩
    rw [hsplit, if_pos hv]
  · obtain ⟨n1, n2, n3, n4⟩ := next_pending win32 hid_enumerate e0 hinv0
    refine ⟨(next win32 hid_enumerate e0).2, by simp [hv], n2, ?_⟩
    rw [hsplit, if_neg hv, List.nil_append, n4]
    by_cases hres : (next win32 hid_enumerate e0).1 = true
    · rw [if_pos hres]
    · rw [if_neg hres]
      have htc := n3 (by simpa using hres)
      have hcur : (next win32 hid_enumerate e0).2.cur_dev = [] := (n2.2 htc).1
      rw [pending_of_exhausted win32 hid_enumerate _ n2 (by omega)]
      unfold current
      rw [hcur]
      rfl

theorem enumerated_eq (win32 : Bool) (hid_enumerate : Nat → Nat → List hid_device_info)
    (deviceType : Nat) (ht : deviceType < CommonDeviceState.SUPPORTED_CONTROLLER_TYPE_COUNT) :
    enumerated win32 hid_enumerate deviceType =
      some (valid_entries_from win32 hid_enumerate
        (CommonDeviceState.SUPPORTED_CONTROLLER_TYPE_COUNT - deviceType) deviceType) := by
  obtain ⟨e, he, hinv, hseq⟩ := create_some win32 hid_enumerate deviceType ht
  unfold enumerated
  rw [he, Option.map_some', drain_eq_pending win32 hid_enumerate e hinv, hseq]

theorem after_calls_some (win32 : Bool) (hid_enumerate : Nat → Nat → List hid_device_info)
    (deviceType calls : Nat)
    (ht : deviceType < CommonDeviceState.SUPPORTED_CONTROLLER_TYPE_COUNT) :
    ∃ e, after_calls win32 hid_enumerate deviceType calls = some e ∧ Exhaustible e := by
  induction calls with
  | zero =>
    obtain ⟨e, he, hinv, _⟩ := create_some win32 hid_enumerate deviceType ht
    exact ⟨e, he, hinv⟩
  | succ n ih =>
    obtain ⟨e, he, hinv⟩ := ih
    refine ⟨(next win32 hid_enumerate e).2, ?_, (next_pending win32 hid_enumerate e hinv).2.1⟩
    rw [after_calls, he, Option.map_some']

theorem next_of_exhausted (win32 : Bool) (hid_enumerate : Nat → Nat → List hid_device_info)
    (e : ControllerHidDeviceEnumerator)
    (h : e.m_deviceType = CommonDeviceState.SUPPORTED_CONTROLLER_TYPE_COUNT) :
    next win32 hid_enumerate e = (false, e) := by
  unfold next
  rw [next_loop, h]
  simp

/-- C6: on the Windows build, for an enumerator constructed at PSMove and advanced with
`next()` until it returns false, the PSMove entries handed out are exactly the entries of the
PSMove list whose path contains `&col01#`, so their number is the number of such entries;
when the list consists of the three sub-interface entries of one controller, exactly one of
which carries the marker, the single PSMove entry handed out is that one, and no two entries
handed out share a path. -/
theorem C6_psmove_entries_once (hid_enumerate : Nat → Nat → List hid_device_info) :
    ∃ ys, enumerated true hid_enumerate CommonDeviceState.PSMove = some ys ∧
      (∀ d, has_col01_marker d = true ↔ "&col01#".toList <:+: d.path.toList) ∧
      ys.filter (fun p => p.1 == CommonDeviceState.PSMove) =
        ((hid_enumerate 0x054c 0x03d5).filter has_col01_marker).map
          (fun d => (CommonDeviceState.PSMove, d)) ∧
      (ys.filter (fun p => p.1 == CommonDeviceState.PSMove)).length =
        (hid_enumerate 0x054c 0x03d5).countP has_col01_marker ∧
      (∀ a b c : hid_device_info, (hid_enumerate 0x054c 0x03d5).Perm [a, b, c] →
        has_col01_marker a = true → has_col01_marker b = false → has_col01_marker c = false →
        ys.filter (fun p => p.1 == CommonDeviceState.PSMove) = [(CommonDeviceState.PSMove, a)] ∧
        ((ys.filter (fun p => p.1 == CommonDeviceState.PSMove)).map (fun p => p.2.path)).Nodup) := by
  have hen := enumerated_eq true hid_enumerate CommonDeviceState.PSMove (by decide)
  have hos0 : os_list hid_enumerate 0 = hid_enumerate 0x054c 0x03d5 := rfl
  have hfilter : (valid_entries_from true hid_enumerate
      (CommonDeviceState.SUPPORTED_CONTROLLER_TYPE_COUNT - CommonDeviceState.PSMove)
      CommonDeviceState.PSMove).filter (fun p => p.1 == CommonDeviceState.PSMove) =
      ((hid_enumerate 0x054c 0x03d5).filter has_col01_marker).map
        (fun d => (CommonDeviceState.PSMove, d)) := by
    have hve : ∀ t, valid_entries true hid_enumerate t =
        ((os_list hid_enumerate t).filter (valid_entry true t)).map (fun d => (t, d)) :=
      fun t => rfl
    have hv0 : valid_entry true 0 = has_col01_marker := by
      funext d
      rw [valid_entry_eq]
      simp [CommonDeviceState.PSMove]
    simp only [CommonDeviceState.SUPPORTED_CONTROLLER_TYPE_COUNT, CommonDeviceState.PSMove,
      valid_entries_from, hve, List.filter_append, List.filter_map, List.filter_nil,
      List.append_nil, hos0, hv0]
    have h0 : ((fun p : Nat × hid_device_info => p.1 == 0) ∘ fun d => (0, d)) =
        fun _ => true := by funext d; simp
    have h1 : ((fun p : Nat × hid_device_info => p.1 == 0) ∘ fun d => (0 + 1, d)) =
        fun _ => false := by funext d; simp
    have h2 : ((fun p : Nat × hid_device_info => p.1 == 0) ∘ fun d => (0 + 1 + 1, d)) =
        fun _ => false := by funext d; simp
    rw [h0, h1, h2]
    simp
  refine ⟨_, hen, has_col01_marker_iff, hfilter, ?_, ?_⟩
  · rw [hfilter, List.length_map, List.countP_eq_length_filter]
  · intro a b c hperm ha hb hc
    have hf : (hid_enumerate 0x054c 0x03d5).filter has_col01_marker = [a] := by
      have hp := hperm.filter has_col01_marker
      have habc : [a, b, c].filter has_col01_marker = [a] := by
        simp [List.filter_cons, ha, hb, hc]
      rw [habc] at hp
      exact List.perm_singleton.mp hp
    rw [hfilter, hf]
    simp

/-- Witness for C6 on the synthetic Windows host whose PSMove list holds the three
sub-interface entries of one controller. -/
theorem C6_psmove_entries_once_witness :
    ∃ ys, enumerated true example_hid_enumerate CommonDeviceState.PSMove = some ys ∧
      ys.filter (fun p => p.1 == CommonDeviceState.PSMove) =
        [(CommonDeviceState.PSMove, psmove_col01)] := by
  obtain ⟨ys, h1, _, _, _, h5⟩ := C6_psmove_entries_once example_hid_enumerate
  refine ⟨ys, h1, ?_⟩
  exact (h5 psmove_col01 psmove_col02 psmove_col03
    (by
      have h : example_hid_enumerate 0x054c 0x03d5 =
          [psmove_col02, psmove_col01, psmove_col03] := by decide
      rw [h]
      exact List.Perm.swap psmove_col01 psmove_col02 [psmove_col03])
    (by decide) (by decide) (by decide)).1

/-- C7: for an enumerator constructed at type t0, the devices it is positioned on after
construction and after each `next()` that returns true are exactly, for t = t0 up to the last
type in the order PSMove (054c:03d5), PSNavi (054c:042F), PSDualShock4 (054c:05C4), the
entries of the list `hid_enumerate` returns for t that satisfy the validity predicate for t,
in list order (a null list is the empty list). -/
theorem C7_enumerated_sequence (win32 : Bool)
    (hid_enumerate : Nat → Nat → List hid_device_info) :
    enumerated win32 hid_enumerate CommonDeviceState.PSMove =
      some (
        ((hid_enumerate 0x054c 0x03d5).filter (valid_entry win32 CommonDeviceState.PSMove)).map
            (fun d => (CommonDeviceState.PSMove, d)) ++
        ((hid_enumerate 0x054c 0x042F).filter (valid_entry win32 CommonDeviceState.PSNavi)).map
            (fun d => (CommonDeviceState.PSNavi, d)) ++
        ((hid_enumerate 0x054c 0x05C4).filter
            (valid_entry win32 CommonDeviceState.PSDualShock4)).map
            (fun d => (CommonDeviceState.PSDualShock4, d))) ∧
    enumerated win32 hid_enumerate CommonDeviceState.PSNavi =
      some (
        ((hid_enumerate 0x054c 0x042F).filter (valid_entry win32 CommonDeviceState.PSNavi)).map
            (fun d => (CommonDeviceState.PSNavi, d)) ++
        ((hid_enumerate 0x054c 0x05C4).filter
            (valid_entry win32 CommonDeviceState.PSDualShock4)).map
            (fun d => (CommonDeviceState.PSDualShock4, d))) ∧
    enumerated win32 hid_enumerate CommonDeviceState.PSDualShock4 =
      some (
        ((hid_enumerate 0x054c 0x05C4).filter
            (valid_entry win32 CommonDeviceState.PSDualShock4)).map
            (fun d => (CommonDeviceState.PSDualShock4, d))) := by
  refine ⟨?_, ?_, ?_⟩
  · rw [enumerated_eq win32 hid_enumerate CommonDeviceState.PSMove (by decide)]
    simp [CommonDeviceState.SUPPORTED_CONTROLLER_TYPE_COUNT, CommonDeviceState.PSMove,
      CommonDeviceState.PSNavi, CommonDeviceState.PSDualShock4, valid_entries_from,
      valid_entries, os_list, g_supported_controller_infos, GET_DEVICE_TYPE_INDEX]
  · rw [enumerated_eq win32 hid_enumerate CommonDeviceState.PSNavi (by decide)]
    simp [CommonDeviceState.SUPPORTED_CONTROLLER_TYPE_COUNT,
      CommonDeviceState.PSNavi, CommonDeviceState.PSDualShock4, valid_entries_from,
      valid_entries, os_list, g_supported_controller_infos, GET_DEVICE_TYPE_INDEX]
  · rw [enumerated_eq win32 hid_enumerate CommonDeviceState.PSDualShock4 (by decide)]
    simp [CommonDeviceState.SUPPORTED_CONTROLLER_TYPE_COUNT,
      CommonDeviceState.PSDualShock4, valid_entries_from,
      valid_entries, os_list, g_supported_controller_infos, GET_DEVICE_TYPE_INDEX]

/-- C8: on every enumerator state reached by construction and any number of `next()` calls,
`next()` returns true iff afterwards `is_valid()` holds; it returns false exactly when no
valid device is left in the rest of the current list or in the list of any later type, and
then `m_deviceType` is `SUPPORTED_CONTROLLER_TYPE_COUNT`, `get_path()` is null, and every
later `next()` returns false and leaves the enumerator unchanged. -/
theorem C8_next_result (win32 : Bool) (hid_enumerate : Nat → Nat → List hid_device_info)
    (deviceType calls : Nat)
    (ht : deviceType < CommonDeviceState.SUPPORTED_CONTROLLER_TYPE_COUNT) :
    ∃ e, after_calls win32 hid_enumerate deviceType calls = some e ∧
      ((next win32 hid_enumerate e).1 = true ↔
        is_valid win32 (next win32 hid_enumerate e).2 = true) ∧
      ((next win32 hid_enumerate e).1 = false ↔
        ((∀ d ∈ e.cur_dev.tail, valid_entry win32 e.m_deviceType d = false) ∧
         (∀ t, e.m_deviceType < t → t < CommonDeviceState.SUPPORTED_CONTROLLER_TYPE_COUNT →
            ∀ d ∈ os_list hid_enumerate t, valid_entry win32 t d = false))) ∧
      ((next win32 hid_enumerate e).1 = false →
        (next win32 hid_enumerate e).2.m_deviceType =
            CommonDeviceState.SUPPORTED_CONTROLLER_TYPE_COUNT ∧
        get_path (next win32 hid_enumerate e).2 = none ∧
        ∀ k, next win32 hid_enumerate
            (Nat.iterate (fun x => (next win32 hid_enumerate x).2) k
              (next win32 hid_enumerate e).2) =
          (false, (next win32 hid_enumerate e).2)) := by
  obtain ⟨e, he, hinv⟩ := after_calls_some win32 hid_enumerate deviceType calls ht
  obtain ⟨n1, n2, n3, n4⟩ := next_pending win32 hid_enumerate e hinv
  refine ⟨e, he, by rw [n1], ?_, ?_⟩
  · rw [← pending_eq_nil_iff, n4]
    cases hres : (next win32 hid_enumerate e).1 with
    | false => simp
    | true =>
      have hv : is_valid win32 (next win32 hid_enumerate e).2 = true := by rw [← n1, hres]
      have hne : (current (next win32 hid_enumerate e).2).toList ≠ [] := by
        unfold current
        rw [is_valid_eq] at hv
        cases hc : (next win32 hid_enumerate e).2.cur_dev with
        | nil => rw [hc] at hv; exact absurd hv (by simp)
        | cons d rest => simp
      simp [hne]
  · intro hres
    have htc := n3 hres
    have hcur : (next win32 hid_enumerate e).2.cur_dev = [] := (n2.2 htc).1
    refine ⟨htc, by unfold get_path; rw [hcur], fun k => ?_⟩
    have hiter : Nat.iterate (fun x => (next win32 hid_enumerate x).2) k
        (next win32 hid_enumerate e).2 = (next win32 hid_enumerate e).2 := by
      induction k with
      | zero => rfl
      | succ n ih =>
        rw [Function.iterate_succ_apply, next_of_exhausted win32 hid_enumerate _ htc]
        exact ih
    rw [hiter]
    exact next_of_exhausted win32 hid_enumerate _ htc

/-- Witness for C8: the synthetic Windows host, constructed at PSMove, after one `next()`. -/
theorem C8_next_result_witness :
    ∃ e, after_calls true example_hid_enumerate CommonDeviceState.PSMove 1 = some e ∧
      ((next true example_hid_enumerate e).1 = true ↔
        is_valid true (next true example_hid_enumerate e).2 = true) :=
  have h := C8_next_result true example_hid_enumerate CommonDeviceState.PSMove 1 (by decide)
  h.elim fun e he => ⟨e, he.1, he.2.1⟩

/-- C9: on the Windows build with device type PSMove, `is_valid()` holds iff there is a
current device and its path contains `&col01#` (an entry whose marker is `&col02#` is
rejected); for every other device type, and on other builds, it holds iff there is a
current device. -/
theorem C9_is_valid_predicate (win32 : Bool) (e : ControllerHidDeviceEnumerator) :
    ((win32 = true ∧ e.m_deviceType = CommonDeviceState.PSMove) →
      (is_valid win32 e = true ↔
        ∃ d rest, e.cur_dev = d :: rest ∧ "&col01#".toList <:+: d.path.toList)) ∧
    (¬ (win32 = true ∧ e.m_deviceType = CommonDeviceState.PSMove) →
      (is_valid win32 e = true ↔ e.cur_dev ≠ [])) ∧
    (∀ rest devs calls, is_valid true
      { m_deviceType := CommonDeviceState.PSMove, devs := devs,
        cur_dev := psmove_col02 :: rest, hid_calls := calls } = false) := by
  refine ⟨fun hw => ?_, fun hw => ?_, fun rest devs calls => ?_⟩
  · rw [is_valid_eq]
    cases hc : e.cur_dev with
    | nil => simp
    | cons d rest =>
      simp only [valid_entry_eq, hw, and_self, if_true, has_col01_marker_iff]
      constructor
      · intro h
        exact ⟨d, rest, rfl, h⟩
      · rintro ⟨d2, rest2, heq, h⟩
        cases heq
        exact h
  · rw [is_valid_eq]
    cases hc : e.cur_dev with
    | nil => simp
    | cons d rest => simp [valid_entry_eq, hw]
  · rw [is_valid_cons true _ psmove_col02 rest rfl]
    have h : valid_entry true CommonDeviceState.PSMove psmove_col02 = false := by decide
    exact h

/-- Witness for C9: a Windows PSMove enumerator positioned on the `&col01#` entry. -/
theorem C9_is_valid_predicate_witness :
    is_valid true { m_deviceType := CommonDeviceState.PSMove,
                    devs := [psmove_col01, psmove_col02],
                    cur_dev := [psmove_col01, psmove_col02], hid_calls := [] } = true :=
  ((C9_is_valid_predicate true
      { m_deviceType := CommonDeviceState.PSMove, devs := [psmove_col01, psmove_col02],
        cur_dev := [psmove_col01, psmove_col02], hid_calls := [] }).1 ⟨rfl, rfl⟩).mpr
    ⟨psmove_col01, [psmove_col02], rfl,
      (has_col01_marker_iff psmove_col01).mp (by decide)⟩

end ControllerHidDeviceEnumerator

/-! ## Properties of the bring-up stage -/

namespace AppStage_ComputeTrackerPoses

open eMenuState eClientPSMoveResultCode

theorem map_find_isSome_iff {V : Type} (m : List (Int × V)) (key : Int) :
    (map_find m key).isSome = true ↔ key ∈ m.map Prod.fst := by
  induction m with
  | nil => simp [map_find]
  | cons kv rest ih =>
    obtain ⟨k, v⟩ := kv
    unfold map_find
    by_cases h : k = key
    · simp [h]
    · rw [if_neg h, ih]
      simp only [List.map_cons, List.mem_cons]
      constructor
      · intro hm
        exact Or.inr hm
      · rintro (hm | hm)
        · exact absurd hm.symm h
        · exact hm

theorem map_find_eq_none_iff {V : Type} (m : List (Int × V)) (key : Int) :
    map_find m key = none ↔ key ∉ m.map Prod.fst := by
  rw [← map_find_isSome_iff]
  cases map_find m key <;> simp

theorem map_insert_length_of_absent {V : Type} (m : List (Int × V)) (key : Int) (value : V)
    (h : map_find m key = none) : (map_insert m key value).length = m.length + 1 := by
  unfold map_insert
  rw [h]
  simp only [List.length_append, List.length_cons]
  have := congrArg List.length (List.takeWhile_append_dropWhile (fun kv : Int × V => decide (kv.1 < key)) m)
  rw [List.length_append] at this
  omega

theorem map_insert_keys {V : Type} (m : List (Int × V)) (key key2 : Int) (value : V) :
    key2 ∈ (map_insert m key value).map Prod.fst ↔ key2 = key ∨ key2 ∈ m.map Prod.fst := by
  unfold map_insert
  cases h : map_find m key with
  | some v =>
    simp only
    have hk : key ∈ m.map Prod.fst := (map_find_isSome_iff m key).mp (by rw [h]; rfl)
    constructor
    · intro hm
      exact Or.inr hm
    · rintro (hm | hm)
      · rw [hm]
        exact hk
      · exact hm
  | none =>
    simp only [List.map_append, List.map_cons, List.mem_append, List.mem_cons]
    have hsplit : m.map Prod.fst =
        (m.takeWhile (fun kv => decide (kv.1 < key))).map Prod.fst ++
          (m.dropWhile (fun kv => decide (kv.1 < key))).map Prod.fst := by
      rw [← List.map_append, List.takeWhile_append_dropWhile]
    rw [hsplit, List.mem_append]
    tauto

theorem onExitState_fields (s : AppStage_ComputeTrackerPoses) (newState : eMenuState) :
    (onExitState s newState).m_menuState = s.m_menuState ∧
    (onExitState s newState).m_trackerViews = s.m_trackerViews ∧
    (onExitState s newState).m_pendingTrackerStartCount = s.m_pendingTrackerStartCount ∧
    (onExitState s newState).m_controllerViews = s.m_controllerViews ∧
    (onExitState s newState).m_pendingControllerStartCount = s.m_pendingControllerStartCount ∧
    (onExitState s newState).m_renderTrackerIndex = s.m_renderTrackerIndex ∧
    (onExitState s newState).m_renderTrackerIter = s.m_renderTrackerIter ∧
    (onExitState s newState).m_bSkipCalibration = s.m_bSkipCalibration ∧
    (onExitState s newState).m_overrideControllerId = s.m_overrideControllerId := by
  unfold onExitState
  split <;> simp [record]

/-- Leaving one of the pending or failed states, or `inactive`, runs no teardown action. -/
theorem onExitState_of_quiet (s : AppStage_ComputeTrackerPoses) (newState : eMenuState)
    (h : s.m_menuState = inactive ∨ s.m_menuState = pendingControllerListRequest ∨
      s.m_menuState = pendingControllerStartRequest ∨
      s.m_menuState = failedControllerStartRequest ∨
      s.m_menuState = failedControllerListRequest) :
    onExitState s newState = s := by
  unfold onExitState
  rcases h with h | h | h | h | h <;> rw [h]

theorem setState_same (s : AppStage_ComputeTrackerPoses) : setState s s.m_menuState = s := by
  unfold setState
  simp

theorem setState_menuState (s : AppStage_ComputeTrackerPoses) (newState : eMenuState) :
    (setState s newState).m_menuState = newState := by
  unfold setState
  by_cases h : newState = s.m_menuState
  · simp [h]
  · simp [h]

/-- The three target states of the controller stage that have no entry action: `setState`
from a state without teardown only writes `m_menuState`. -/
theorem setState_quiet (s : AppStage_ComputeTrackerPoses) (newState : eMenuState)
    (hsrc : s.m_menuState = inactive ∨ s.m_menuState = pendingControllerListRequest ∨
      s.m_menuState = pendingControllerStartRequest ∨
      s.m_menuState = failedControllerStartRequest ∨
      s.m_menuState = failedControllerListRequest)
    (hdst : newState = failedControllerListRequest ∨ newState = failedControllerStartRequest ∨
      newState = pendingTrackerListRequest ∨ newState = inactive) :
    setState s newState = { s with m_menuState := newState } := by
  unfold setState
  by_cases h : newState = s.m_menuState
  · simp only [h, ne_eq, not_true_eq_false, if_false]
  · rw [if_pos h, onExitState_of_quiet s _ hsrc]
    rcases hdst with h2 | h2 | h2 | h2 <;> subst h2 <;> rfl

/-- What `setState(pendingControllerStartRequest)` leaves in the controller fields. -/
theorem setState_pendingControllerStart (s : AppStage_ComputeTrackerPoses) :
    (setState s pendingControllerStartRequest).m_menuState = pendingControllerStartRequest ∧
    (setState s pendingControllerStartRequest).m_controllerViews =
      (if s.m_menuState = pendingControllerStartRequest then s.m_controllerViews else []) ∧
    (setState s pendingControllerStartRequest).m_pendingControllerStartCount =
      (if s.m_menuState = pendingControllerStartRequest then s.m_pendingControllerStartCount
        else 0) ∧
    (setState s pendingControllerStartRequest).m_bSkipCalibration = s.m_bSkipCalibration ∧
    (setState s pendingControllerStartRequest).m_overrideControllerId =
      s.m_overrideControllerId ∧
    (setState s pendingControllerStartRequest).calls =
      (onExitState s s.m_menuState).calls := by
  unfold setState
  by_cases h : s.m_menuState = pendingControllerStartRequest
  · have h2 : ¬ (pendingControllerStartRequest ≠ s.m_menuState) := by simp [h]
    rw [if_neg h2, onExitState_of_quiet s _ (Or.inr (Or.inr (Or.inl h)))]
    simp [h]
  · have h2 : pendingControllerStartRequest ≠ s.m_menuState := fun e => h e.symm
    rw [if_pos h2]
    obtain ⟨_, _, _, _, _, _, _, e8, e9⟩ := onExitState_fields s s.m_menuState
    simp [onEnterState, h, e8, e9]

/-- The effect of one `request_start_controller_stream` call that returns. -/
theorem request_start_controller_stream_some (ndebug : Bool)
    (allocate_controller_view : Int → StageControllerView)
    (s s1 : AppStage_ComputeTrackerPoses) (ControllerID listIndex trackingColorType : Int)
    (h : request_start_controller_stream ndebug allocate_controller_view s ControllerID
      listIndex trackingColorType = some s1) :
    s1.m_menuState = pendingControllerStartRequest ∧
    s1.m_pendingControllerStartCount =
      (if s.m_menuState = pendingControllerStartRequest then s.m_pendingControllerStartCount
        else 0) + 1 ∧
    s1.m_controllerViews =
      map_insert
        (if s.m_menuState = pendingControllerStartRequest then s.m_controllerViews else [])
        ControllerID
        { listIndex := listIndex, controllerView := allocate_controller_view ControllerID,
          trackingColorType := trackingColorType } ∧
    s1.m_bSkipCalibration = s.m_bSkipCalibration ∧
    s1.m_overrideControllerId = s.m_overrideControllerId ∧
    s1.calls = (onExitState s s.m_menuState).calls ++
      [ApiCall.allocate_controller_view ControllerID,
       ApiCall.start_controller_data_stream (allocate_controller_view ControllerID).ControllerID
        (start_controller_flags s.m_bSkipCalibration)] := by
  obtain ⟨e1, e2, e3, e4, e5, e6⟩ := setState_pendingControllerStart s
  unfold request_start_controller_stream at h
  simp only [record] at h
  split at h
  · exact absurd h (by simp)
  · simp only [Option.some.injEq] at h
    subst h
    simp [e1, e2, e3, e4, e5, e6]

/-- A `request_start_controller_stream` call returns when the id has no session yet. -/
theorem request_start_controller_stream_isSome (ndebug : Bool)
    (allocate_controller_view : Int → StageControllerView)
    (s : AppStage_ComputeTrackerPoses) (ControllerID listIndex trackingColorType : Int)
    (h : map_find
      (if s.m_menuState = pendingControllerStartRequest then s.m_controllerViews else [])
      ControllerID = none) :
    ∃ s1, request_start_controller_stream ndebug allocate_controller_view s ControllerID
      listIndex trackingColorType = some s1 := by
  obtain ⟨e1, e2, e3, e4, e5, e6⟩ := setState_pendingControllerStart s
  unfold request_start_controller_stream
  simp only [record, e2, h]
  simp

/-- A run of requests that starts in `pendingControllerStartRequest` and returns adds one to
the pending count per request and records the calls of each request. -/
theorem start_requests_from_pending (ndebug : Bool)
    (allocate_controller_view : Int → StageControllerView)
    (requests : List (Int × Int × Int)) (s s1 : AppStage_ComputeTrackerPoses)
    (hs : s.m_menuState = pendingControllerStartRequest)
    (h : start_requests ndebug allocate_controller_view requests s = some s1) :
    s1.m_menuState = pendingControllerStartRequest ∧
    s1.m_pendingControllerStartCount = s.m_pendingControllerStartCount + requests.length ∧
    s1.m_bSkipCalibration = s.m_bSkipCalibration ∧
    s1.m_overrideControllerId = s.m_overrideControllerId ∧
    s1.calls = s.calls ++
      start_request_calls allocate_controller_view s.m_bSkipCalibration requests := by
  induction requests generalizing s with
  | nil =>
    simp only [start_requests, Option.some.injEq] at h
    subst h
    simp [hs, start_request_calls]
  | cons r rest ih =>
    rw [start_requests] at h
    cases hr : request_start_controller_stream ndebug allocate_controller_view s r.1 r.2.1
        r.2.2 with
    | none => rw [hr] at h; exact absurd h (by simp)
    | some s2 =>
      rw [hr] at h
      obtain ⟨a1, a2, _, a4, a5, a6⟩ :=
        request_start_controller_stream_some ndebug allocate_controller_view s s2 _ _ _ hr
      obtain ⟨b1, b2, b4, b5, b6⟩ := ih s2 a1 h
      rw [if_pos hs] at a2
      rw [onExitState_of_quiet s _ (Or.inr (Or.inr (Or.inl hs)))] at a6
      refine ⟨b1, ?_, by rw [b4, a4], by rw [b5, a5], ?_⟩
      · rw [b2, a2, List.length_cons]
        push_cast
        ring
      · rw [b6, a6, a4]
        simp [start_request_calls]

/-- A non-empty run of requests that starts outside `pendingControllerStartRequest` and
returns leaves the pending count equal to the number of requests. -/
theorem start_requests_count (ndebug : Bool)
    (allocate_controller_view : Int → StageControllerView)
    (requests : List (Int × Int × Int)) (s s1 : AppStage_ComputeTrackerPoses)
    (hs : s.m_menuState ≠ pendingControllerStartRequest) (hne : requests ≠ [])
    (h : start_requests ndebug allocate_controller_view requests s = some s1) :
    s1.m_menuState = pendingControllerStartRequest ∧
    s1.m_pendingControllerStartCount = requests.length ∧
    s1.m_bSkipCalibration = s.m_bSkipCalibration ∧
    s1.m_overrideControllerId = s.m_overrideControllerId ∧
    s1.calls = (onExitState s s.m_menuState).calls ++
      start_request_calls allocate_controller_view s.m_bSkipCalibration requests := by
  cases requests with
  | nil => exact absurd rfl hne
  | cons r rest =>
    rw [start_requests] at h
    cases hr : request_start_controller_stream ndebug allocate_controller_view s r.1 r.2.1
        r.2.2 with
    | none => rw [hr] at h; exact absurd h (by simp)
    | some s2 =>
      rw [hr] at h
      obtain ⟨a1, a2, _, a4, a5, a6⟩ :=
        request_start_controller_stream_some ndebug allocate_controller_view s s2 _ _ _ hr
      obtain ⟨b1, b2, b4, b5, b6⟩ :=
        start_requests_from_pending ndebug allocate_controller_view rest s2 s1 a1 h
      rw [if_neg hs] at a2
      refine ⟨b1, ?_, by rw [b4, a4], by rw [b5, a5], ?_⟩
      · rw [b2, a2, List.length_cons]
        push_cast
        ring
      · rw [b6, a6, a4]
        simp [start_request_calls]

/-- With pairwise distinct ids that have no session yet, a run of requests from
`pendingControllerStartRequest` returns and adds one session per request. -/
theorem start_requests_sessions_from_pending (ndebug : Bool)
    (allocate_controller_view : Int → StageControllerView)
    (requests : List (Int × Int × Int)) (s : AppStage_ComputeTrackerPoses)
    (hs : s.m_menuState = pendingControllerStartRequest)
    (hnodup : (requests.map (fun r => r.1)).Nodup)
    (hfresh : ∀ r ∈ requests, r.1 ∉ s.m_controllerViews.map Prod.fst) :
    ∃ s1, start_requests ndebug allocate_controller_view requests s = some s1 ∧
      s1.m_controllerViews.length = s.m_controllerViews.length + requests.length ∧
      (∀ k, k ∈ s1.m_controllerViews.map Prod.fst ↔
        (k ∈ s.m_controllerViews.map Prod.fst ∨ k ∈ requests.map (fun r => r.1))) := by
  induction requests generalizing s with
  | nil => exact ⟨s, rfl, by simp, by simp⟩
  | cons r rest ih =>
    have hfind : map_find
        (if s.m_menuState = pendingControllerStartRequest then s.m_controllerViews else [])
        r.1 = none := by
      rw [if_pos hs, map_find_eq_none_iff]
      exact hfresh r (List.mem_cons_self r rest)
    obtain ⟨s2, hr⟩ := request_start_controller_stream_isSome ndebug allocate_controller_view
      s r.1 r.2.1 r.2.2 hfind
    obtain ⟨a1, _, a3, _, _, _⟩ :=
      request_start_controller_stream_some ndebug allocate_controller_view s s2 _ _ _ hr
    rw [if_pos hs] at a3 hfind
    rw [List.map_cons, List.nodup_cons] at hnodup
    have hfresh2 : ∀ q ∈ rest, q.1 ∉ s2.m_controllerViews.map Prod.fst := by
      intro q hq hmem
      rw [a3, map_insert_keys] at hmem
      rcases hmem with hmem | hmem
      · apply hnodup.1
        rw [← hmem]
        exact List.mem_map_of_mem (fun r : Int × Int × Int => r.1) hq
      · exact hfresh q (List.mem_cons_of_mem r hq) hmem
    obtain ⟨s1, c1, c2, c3⟩ := ih s2 a1 hnodup.2 hfresh2
    refine ⟨s1, ?_, ?_, ?_⟩
    · rw [start_requests, hr]
      exact c1
    · rw [c2, a3, map_insert_length_of_absent _ _ _ hfind, List.length_cons]
      omega
    · intro k
      rw [c3, a3, map_insert_keys, List.map_cons, List.mem_cons]
      tauto

/-- With pairwise distinct ids, a non-empty run of requests that starts outside
`pendingControllerStartRequest` returns and leaves exactly one session per request. -/
theorem start_requests_sessions (ndebug : Bool)
    (allocate_controller_view : Int → StageControllerView)
    (requests : List (Int × Int × Int)) (s : AppStage_ComputeTrackerPoses)
    (hs : s.m_menuState ≠ pendingControllerStartRequest) (hne : requests ≠ [])
    (hnodup : (requests.map (fun r => r.1)).Nodup) :
    ∃ s1, start_requests ndebug allocate_controller_view requests s = some s1 ∧
      s1.m_controllerViews.length = requests.length ∧
      (∀ k, k ∈ s1.m_controllerViews.map Prod.fst ↔ k ∈ requests.map (fun r => r.1)) := by
  cases requests with
  | nil => exact absurd rfl hne
  | cons r rest =>
    have hfind : map_find
        (if s.m_menuState = pendingControllerStartRequest then s.m_controllerViews else [])
        r.1 = none := by
      rw [if_neg hs]
      rfl
    obtain ⟨s2, hr⟩ := request_start_controller_stream_isSome ndebug allocate_controller_view
      s r.1 r.2.1 r.2.2 hfind
    obtain ⟨a1, _, a3, _, _, _⟩ :=
      request_start_controller_stream_some ndebug allocate_controller_view s s2 _ _ _ hr
    rw [if_neg hs] at a3 hfind
    rw [List.map_cons, List.nodup_cons] at hnodup
    have hfresh2 : ∀ q ∈ rest, q.1 ∉ s2.m_controllerViews.map Prod.fst := by
      intro q hq hmem
      rw [a3, map_insert_keys] at hmem
      rcases hmem with hmem | hmem
      · apply hnodup.1
        rw [← hmem]
        exact List.mem_map_of_mem (fun r : Int × Int × Int => r.1) hq
      · simp at hmem
    obtain ⟨s1, c1, c2, c3⟩ := start_requests_sessions_from_pending ndebug
      allocate_controller_view rest s2 a1 hnodup.2 hfresh2
    refine ⟨s1, ?_, ?_, ?_⟩
    · rw [start_requests, hr]
      exact c1
    · rw [c2, a3, map_insert_length_of_absent _ _ _ hfind, List.length_cons]
      simp only [List.length_nil]
      omega
    · intro k
      rw [c3, a3, map_insert_keys, List.map_cons, List.mem_cons]
      simp

/-- The first loop of `handle_controller_list_response` is the run of requests listed by
`listed_start_requests`; `bStartedAnyControllers` ends true iff it was true or a request was
made. -/
theorem start_listed_controllers_eq (ndebug : Bool)
    (allocate_controller_view : Int → StageControllerView)
    (controller_list : List ControllerListEntry) (list_index : Int) (started : Bool)
    (s : AppStage_ComputeTrackerPoses) :
    start_listed_controllers ndebug allocate_controller_view controller_list list_index
        started s =
      (start_requests ndebug allocate_controller_view
          (listed_start_requests controller_list list_index) s).map
        (fun s1 => (s1, started || !(listed_start_requests controller_list list_index).isEmpty)) := by
  induction controller_list generalizing list_index started s with
  | nil => simp [start_listed_controllers, listed_start_requests, start_requests]
  | cons c rest ih =>
    rw [start_listed_controllers, listed_start_requests]
    by_cases hc : c.controller_type = eControllerType.PSMove ∨
        c.controller_type = eControllerType.PSDualShock4
    · rw [if_pos hc, if_pos hc, start_requests]
      cases request_start_controller_stream ndebug allocate_controller_view s c.controller_id
          list_index c.tracking_color_type with
      | none => rfl
      | some s1 =>
        simp only
        rw [ih]
        simp
    · rw [if_neg hc, if_neg hc, ih]

/-- An Ok controller-list response is the run of the requests listed by
`controller_start_requests`; when that list is empty the state becomes
`failedControllerListRequest`. -/
theorem handle_controller_list_response_ok (ndebug : Bool)
    (allocate_controller_view : Int → StageControllerView)
    (s : AppStage_ComputeTrackerPoses) (controller_list : List ControllerListEntry) :
    handle_controller_list_response ndebug allocate_controller_view s
        _clientPSMoveResultCode_ok
        (ResponsePayload._responsePayloadType_ControllerList controller_list) =
      if controller_start_requests s.m_overrideControllerId controller_list = [] then
        some (setState s failedControllerListRequest)
      else
        start_requests ndebug allocate_controller_view
          (controller_start_requests s.m_overrideControllerId controller_list) s := by
  unfold handle_controller_list_response controller_start_requests
  simp only
  by_cases ho : s.m_overrideControllerId = -1
  · rw [if_pos ho, if_pos ho, start_listed_controllers_eq]
    cases hl : listed_start_requests controller_list 0 with
    | nil => simp [start_requests]
    | cons r rest =>
      cases start_requests ndebug allocate_controller_view (r :: rest) s with
      | none => simp
      | some s1 => simp
  · rw [if_neg ho, if_neg ho]
    by_cases hf : (find_override_controller s.m_overrideControllerId controller_list 0).1 ≠ -1
    · rw [if_pos hf, if_pos hf]
      simp only [List.cons_ne_self, if_false, start_requests, reduceCtorEq]
      cases request_start_controller_stream ndebug allocate_controller_view s
        (find_override_controller s.m_overrideControllerId controller_list 0).1
        (find_override_controller s.m_overrideControllerId controller_list 0).2.1
        (find_override_controller s.m_overrideControllerId controller_list 0).2.2 <;> rfl
    · rw [if_neg hf, if_neg hf]
      simp

/-- An Ok start response that leaves the count positive only decrements the count. -/
theorem handle_start_controller_response_ok_pending (s : AppStage_ComputeTrackerPoses)
    (h : 1 < s.m_pendingControllerStartCount) :
    handle_start_controller_response s _clientPSMoveResultCode_ok =
      { s with m_pendingControllerStartCount := s.m_pendingControllerStartCount - 1 } := by
  unfold handle_start_controller_response
  simp only
  rw [if_neg (by omega)]

/-- An Ok start response that brings the count to zero or below, outside
`pendingTrackerListRequest`, requests the tracker list. -/
theorem handle_start_controller_response_ok_last (s : AppStage_ComputeTrackerPoses)
    (h : s.m_pendingControllerStartCount ≤ 1)
    (hs : s.m_menuState = inactive ∨ s.m_menuState = pendingControllerListRequest ∨
      s.m_menuState = pendingControllerStartRequest ∨
      s.m_menuState = failedControllerStartRequest ∨
      s.m_menuState = failedControllerListRequest) :
    handle_start_controller_response s _clientPSMoveResultCode_ok =
      { s with m_pendingControllerStartCount := s.m_pendingControllerStartCount - 1,
               m_menuState := pendingTrackerListRequest,
               calls := s.calls ++ [ApiCall.get_tracker_list] } := by
  unfold handle_start_controller_response
  simp only
  rw [if_pos (by omega)]
  unfold request_tracker_list
  have hne : ({ s with m_pendingControllerStartCount := s.m_pendingControllerStartCount - 1 } :
      AppStage_ComputeTrackerPoses).m_menuState ≠ pendingTrackerListRequest := by
    rcases hs with h1 | h1 | h1 | h1 | h1 <;> simp [h1]
  rw [if_pos hne, setState_quiet
    { s with m_pendingControllerStartCount := s.m_pendingControllerStartCount - 1 } _ hs
    (Or.inr (Or.inr (Or.inl rfl)))]
  rfl

/-- An Error or Canceled start response in the controller stage only sets the state to
`failedControllerStartRequest`. -/
theorem handle_start_controller_response_failed (s : AppStage_ComputeTrackerPoses)
    (r : eClientPSMoveResultCode) (hr : r ≠ _clientPSMoveResultCode_ok)
    (hs : s.m_menuState = pendingControllerStartRequest ∨
      s.m_menuState = failedControllerStartRequest) :
    handle_start_controller_response s r =
      { s with m_menuState := failedControllerStartRequest } := by
  have hq : s.m_menuState = inactive ∨ s.m_menuState = pendingControllerListRequest ∨
      s.m_menuState = pendingControllerStartRequest ∨
      s.m_menuState = failedControllerStartRequest ∨
      s.m_menuState = failedControllerListRequest := by
    rcases hs with h | h
    · exact Or.inr (Or.inr (Or.inl h))
    · exact Or.inr (Or.inr (Or.inr (Or.inl h)))
  cases r with
  | _clientPSMoveResultCode_ok => exact absurd rfl hr
  | _clientPSMoveResultCode_error =>
    unfold handle_start_controller_response
    exact setState_quiet s _ hq (Or.inr (Or.inl rfl))
  | _clientPSMoveResultCode_canceled =>
    unfold handle_start_controller_response
    exact setState_quiet s _ hq (Or.inr (Or.inl rfl))

/-- Delivery of responses of which fewer are Ok than requests are pending: the count drops
by the number of Ok responses, the state is `failedControllerStartRequest` as soon as one
response is not Ok, and nothing else changes. -/
theorem deliver_fewer_ok_than_pending (responses : List eClientPSMoveResultCode)
    (s : AppStage_ComputeTrackerPoses)
    (hs : s.m_menuState = pendingControllerStartRequest ∨
      s.m_menuState = failedControllerStartRequest)
    (hcount : (responses.count _clientPSMoveResultCode_ok : Int) <
      s.m_pendingControllerStartCount) :
    deliver_start_controller_responses s responses =
      { s with
        m_menuState :=
          if responses.all (fun r => decide (r = _clientPSMoveResultCode_ok)) then s.m_menuState
          else failedControllerStartRequest
        m_pendingControllerStartCount :=
          s.m_pendingControllerStartCount - responses.count _clientPSMoveResultCode_ok } := by
  induction responses generalizing s with
  | nil => simp [deliver_start_controller_responses]
  | cons r rest ih =>
    unfold deliver_start_controller_responses at ih ⊢
    rw [List.foldl_cons]
    by_cases hr : r = _clientPSMoveResultCode_ok
    · subst hr
      rw [List.count_cons_self] at hcount
      push_cast at hcount
      rw [handle_start_controller_response_ok_pending s (by omega)]
      have hrest := ih
        { s with m_pendingControllerStartCount := s.m_pendingControllerStartCount - 1 } hs
        (by simp only; omega)
      rw [hrest]
      simp only [List.all_cons, decide_True, Bool.true_and, List.count_cons_self]
      congr 1
      push_cast
      ring
    · rw [List.count_cons_of_ne (fun h => hr h.symm)] at hcount
      rw [handle_start_controller_response_failed s r hr hs]
      have hrest := ih { s with m_menuState := failedControllerStartRequest } (Or.inr rfl)
        hcount
      rw [hrest]
      simp [hr, List.count_cons_of_ne (fun h => hr h.symm)]

theorem setState_pendingTrackerList_count (s : AppStage_ComputeTrackerPoses) :
    (setState s pendingTrackerListRequest).m_pendingControllerStartCount =
      s.m_pendingControllerStartCount := by
  unfold setState
  by_cases h : pendingTrackerListRequest = s.m_menuState
  · simp [h]
  · rw [if_pos h]
    exact (onExitState_fields s s.m_menuState).2.2.2.2.1

/-- Every Ok start response lowers the pending count by exactly one. -/
theorem handle_start_controller_response_ok_count (s : AppStage_ComputeTrackerPoses) :
    (handle_start_controller_response s _clientPSMoveResultCode_ok).m_pendingControllerStartCount =
      s.m_pendingControllerStartCount - 1 := by
  unfold handle_start_controller_response
  simp only
  split
  · unfold request_tracker_list
    split
    · simp only [record]
      rw [setState_pendingTrackerList_count]
    · rfl
  · rfl

/-- A late Ok start response, delivered after `release_devices()` from any state: the count
goes to -1 and the machine ends in `pendingTrackerListRequest`. -/
theorem late_start_controller_response_after_release (s : AppStage_ComputeTrackerPoses) :
    (handle_start_controller_response (release_devices s)
        _clientPSMoveResultCode_ok).m_pendingControllerStartCount = -1 ∧
    (handle_start_controller_response (release_devices s)
        _clientPSMoveResultCode_ok).m_menuState = pendingTrackerListRequest := by
  constructor
  · rw [handle_start_controller_response_ok_count]
    rfl
  · unfold handle_start_controller_response
    simp only
    rw [if_pos (by simp [release_devices])]
    unfold request_tracker_list
    split
    · simp only [record]
      exact setState_menuState _ _
    · rename_i h
      simp only [ne_eq, not_not] at h
      exact h

/-- C3: after an Ok controller-list response has issued N >= 1 start-stream requests in one
pass, for every order of N responses of which at least one is Error or Canceled, the machine
ends in `failedControllerStartRequest`, it is never in `pendingTrackerListRequest` after any
of the responses, and no call at all (so no tracker-list request) is made while they are
handled. -/
theorem C3_any_start_failure_fails_stage (ndebug : Bool)
    (allocate_controller_view : Int → StageControllerView)
    (s0 s1 : AppStage_ComputeTrackerPoses) (controller_list : List ControllerListEntry)
    (responses : List eClientPSMoveResultCode)
    (hstate : s0.m_menuState ≠ pendingControllerStartRequest)
    (hissued : handle_controller_list_response ndebug allocate_controller_view s0
      _clientPSMoveResultCode_ok
      (ResponsePayload._responsePayloadType_ControllerList controller_list) = some s1)
    (hN : 1 ≤ (controller_start_requests s0.m_overrideControllerId controller_list).length)
    (hlen : responses.length =
      (controller_start_requests s0.m_overrideControllerId controller_list).length)
    (hfail : ∃ r ∈ responses,
      r = _clientPSMoveResultCode_error ∨ r = _clientPSMoveResultCode_canceled) :
    s1.m_menuState = pendingControllerStartRequest ∧
    s1.m_pendingControllerStartCount = responses.length ∧
    (deliver_start_controller_responses s1 responses).m_menuState =
      failedControllerStartRequest ∧
    (∀ k, (deliver_start_controller_responses s1 (responses.take k)).m_menuState ≠
      pendingTrackerListRequest) ∧
    (∀ k, (deliver_start_controller_responses s1 (responses.take k)).calls = s1.calls) ∧
    (deliver_start_controller_responses s1 responses).calls = s1.calls := by
  have hne : controller_start_requests s0.m_overrideControllerId controller_list ≠ [] := by
    intro h
    rw [h] at hN
    simp at hN
  rw [handle_controller_list_response_ok, if_neg hne] at hissued
  obtain ⟨a1, a2, _, _, _⟩ := start_requests_count ndebug allocate_controller_view _ s0 s1
    hstate hne hissued
  obtain ⟨r, hr, hrne⟩ := hfail
  have hrok : r ≠ _clientPSMoveResultCode_ok := by
    rcases hrne with h | h <;> rw [h] <;> simp
  -- fewer Ok responses than requests, in the whole sequence and in each of its prefixes
  have hcount : responses.count _clientPSMoveResultCode_ok < responses.length := by
    have hle := List.count_le_length _clientPSMoveResultCode_ok responses
    rcases Nat.lt_or_ge (responses.count _clientPSMoveResultCode_ok) responses.length with
      h | h
    · exact h
    · have heq : responses.count _clientPSMoveResultCode_ok = responses.length :=
        Nat.le_antisymm hle h
      have hall := List.count_eq_length.mp heq r hr
      exact absurd hall.symm hrok
  have hshort : ∀ k, ((responses.take k).count _clientPSMoveResultCode_ok : Int) <
      s1.m_pendingControllerStartCount := by
    intro k
    have hsub : (responses.take k).count _clientPSMoveResultCode_ok ≤
        responses.count _clientPSMoveResultCode_ok :=
      (List.take_sublist k responses).count_le _
    rw [a2, ← hlen]
    exact_mod_cast Nat.lt_of_le_of_lt hsub hcount
  have hwhole : ((responses.count _clientPSMoveResultCode_ok : Nat) : Int) <
      s1.m_pendingControllerStartCount := by
    rw [a2, ← hlen]
    exact_mod_cast hcount
  refine ⟨a1, by rw [a2, hlen], ?_, ?_, ?_, ?_⟩
  · rw [deliver_fewer_ok_than_pending responses s1 (Or.inl a1) hwhole]
    have hall : responses.all (fun r => decide (r = _clientPSMoveResultCode_ok)) = false := by
      rw [Bool.eq_false_iff]
      intro h
      rw [List.all_eq_true] at h
      exact hrok (by simpa using h r hr)
    simp [hall]
  · intro k
    rw [deliver_fewer_ok_than_pending (responses.take k) s1 (Or.inl a1) (hshort k)]
    simp only
    split
    · rw [a1]
      simp
    · simp
  · intro k
    rw [deliver_fewer_ok_than_pending (responses.take k) s1 (Or.inl a1) (hshort k)]
  · rw [deliver_fewer_ok_than_pending responses s1 (Or.inl a1) hwhole]

/-- Witness for C3: two requests in flight, answered Ok then Error. -/
theorem C3_any_start_failure_fails_stage_witness :
    ∃ s1, example_two_requests_in_flight = some s1 ∧
      (deliver_start_controller_responses s1
        [_clientPSMoveResultCode_ok, _clientPSMoveResultCode_error]).m_menuState =
        failedControllerStartRequest := by
  have hsome : example_two_requests_in_flight.isSome = true := by decide
  obtain ⟨s1, h1⟩ := Option.isSome_iff_exists.mp hsome
  exact ⟨s1, h1, (C3_any_start_failure_fails_stage false example_allocate_controller_view
    example_entered_stage s1 example_controller_list
    [_clientPSMoveResultCode_ok, _clientPSMoveResultCode_error]
    (by decide) h1 (by decide) (by decide)
    ⟨_clientPSMoveResultCode_error, by simp, Or.inl rfl⟩).2.2.1⟩

/-- C4 (amended): after an Ok controller-list response has made N >= 1 calls of
`request_start_controller_stream` for pairwise distinct controller ids (starting outside
`pendingControllerStartRequest`, so that the first call changes the state),
`m_pendingControllerStartCount` is N and `m_controllerViews` holds N sessions. Each Ok start
response lowers the count by exactly one; the state stays `pendingControllerStartRequest`
after each of the first N-1 Ok responses, and on the N-th a tracker-list request is issued
and the state becomes `pendingTrackerListRequest`. -/
theorem C4_pending_count_protocol (ndebug : Bool)
    (allocate_controller_view : Int → StageControllerView)
    (s0 : AppStage_ComputeTrackerPoses) (controller_list : List ControllerListEntry)
    (hstate : s0.m_menuState ≠ pendingControllerStartRequest)
    (hN : 1 ≤ (controller_start_requests s0.m_overrideControllerId controller_list).length)
    (hids : ((controller_start_requests s0.m_overrideControllerId controller_list).map
      (fun r => r.1)).Nodup) :
    ∃ s1, handle_controller_list_response ndebug allocate_controller_view s0
        _clientPSMoveResultCode_ok
        (ResponsePayload._responsePayloadType_ControllerList controller_list) = some s1 ∧
      s1.calls = (onExitState s0 s0.m_menuState).calls ++
        start_request_calls allocate_controller_view s0.m_bSkipCalibration
          (controller_start_requests s0.m_overrideControllerId controller_list) ∧
      s1.m_menuState = pendingControllerStartRequest ∧
      s1.m_pendingControllerStartCount =
        (controller_start_requests s0.m_overrideControllerId controller_list).length ∧
      s1.m_controllerViews.length =
        (controller_start_requests s0.m_overrideControllerId controller_list).length ∧
      (∀ s, (handle_start_controller_response s
          _clientPSMoveResultCode_ok).m_pendingControllerStartCount =
        s.m_pendingControllerStartCount - 1) ∧
      (∀ k, k < (controller_start_requests s0.m_overrideControllerId controller_list).length →
        (deliver_start_controller_responses s1
            (List.replicate k _clientPSMoveResultCode_ok)).m_menuState =
          pendingControllerStartRequest ∧
        (deliver_start_controller_responses s1
            (List.replicate k _clientPSMoveResultCode_ok)).m_pendingControllerStartCount =
          (controller_start_requests s0.m_overrideControllerId controller_list).length - k ∧
        (deliver_start_controller_responses s1
            (List.replicate k _clientPSMoveResultCode_ok)).calls = s1.calls) ∧
      (deliver_start_controller_responses s1
          (List.replicate
            (controller_start_requests s0.m_overrideControllerId controller_list).length
            _clientPSMoveResultCode_ok)).m_menuState = pendingTrackerListRequest ∧
      (deliver_start_controller_responses s1
          (List.replicate
            (controller_start_requests s0.m_overrideControllerId controller_list).length
            _clientPSMoveResultCode_ok)).m_pendingControllerStartCount = 0 ∧
      (deliver_start_controller_responses s1
          (List.replicate
            (controller_start_requests s0.m_overrideControllerId controller_list).length
            _clientPSMoveResultCode_ok)).calls = s1.calls ++ [ApiCall.get_tracker_list] := by
  have hne : controller_start_requests s0.m_overrideControllerId controller_list ≠ [] := by
    intro h
    rw [h] at hN
    simp at hN
  obtain ⟨s1, hs1, hlen, _⟩ := start_requests_sessions ndebug allocate_controller_view _ s0
    hstate hne hids
  obtain ⟨a1, a2, _, _, a5⟩ := start_requests_count ndebug allocate_controller_view _ s0 s1
    hstate hne hs1
  generalize hreq : controller_start_requests s0.m_overrideControllerId controller_list = reqs
    at *
  have hbefore : ∀ k, k < reqs.length →
      deliver_start_controller_responses s1 (List.replicate k _clientPSMoveResultCode_ok) =
        { s1 with m_pendingControllerStartCount := (reqs.length : Int) - k } := by
    intro k hk
    rw [deliver_fewer_ok_than_pending _ s1 (Or.inl a1)
      (by rw [List.count_replicate_self, a2]; exact_mod_cast hk)]
    simp [List.count_replicate_self, a2]
  refine ⟨s1, ?_, a5, a1, a2, hlen, handle_start_controller_response_ok_count, ?_, ?_⟩
  · rw [handle_controller_list_response_ok, hreq, if_neg hne]
    exact hs1
  · intro k hk
    rw [hbefore k hk]
    exact ⟨a1, rfl, rfl⟩
  · obtain ⟨n, hn⟩ : ∃ n, reqs.length = n + 1 := ⟨reqs.length - 1, by omega⟩
    have hlast : deliver_start_controller_responses s1
        (List.replicate reqs.length _clientPSMoveResultCode_ok) =
        handle_start_controller_response
          (deliver_start_controller_responses s1
            (List.replicate n _clientPSMoveResultCode_ok)) _clientPSMoveResultCode_ok := by
      unfold deliver_start_controller_responses
      rw [hn, List.replicate_succ', List.foldl_append]
      rfl
    rw [hlast, hbefore n (by omega)]
    have hfin := handle_start_controller_response_ok_last
      { s1 with m_pendingControllerStartCount := (reqs.length : Int) - n }
      (by simp only; omega) (Or.inr (Or.inr (Or.inl a1)))
    rw [hfin]
    refine ⟨rfl, ?_, rfl⟩
    simp only
    omega

/-- Witness for C4: the two-controller list delivered to the freshly entered stage. -/
theorem C4_pending_count_protocol_witness :
    ∃ s1, example_two_requests_in_flight = some s1 ∧
      s1.m_pendingControllerStartCount = 2 ∧ s1.m_controllerViews.length = 2 ∧
      (deliver_start_controller_responses s1
        [_clientPSMoveResultCode_ok, _clientPSMoveResultCode_ok]).m_menuState =
        pendingTrackerListRequest := by
  obtain ⟨s1, h1, _, _, h4, h5, _, _, h8, _⟩ := C4_pending_count_protocol false
    example_allocate_controller_view example_entered_stage example_controller_list
    (by decide) (by decide) (by decide)
  exact ⟨s1, h1, h4, h5, h8⟩

/-- C5, behaviour of the code on a late response: with one start-stream request in flight,
after `release_devices()` (and also after `exit()`) the Ok response does not leave the
machine as the teardown left it. The pending count goes from 0 to -1, the menu state
becomes `pendingTrackerListRequest`, a tracker-list request is issued, and the Ok answer to
that request opens a tracker session again. -/
theorem C5_late_controller_response_restarts_chain :
    ∃ s1, example_one_request_in_flight = some s1 ∧
      s1.m_menuState = pendingControllerStartRequest ∧
      s1.m_pendingControllerStartCount = 1 ∧
      (release_devices s1).m_menuState = pendingControllerStartRequest ∧
      (release_devices s1).m_pendingControllerStartCount = 0 ∧
      (release_devices s1).m_controllerViews = [] ∧
      (release_devices s1).m_trackerViews = [] ∧
      (handle_start_controller_response (release_devices s1)
        _clientPSMoveResultCode_ok).m_menuState = pendingTrackerListRequest ∧
      (handle_start_controller_response (release_devices s1)
        _clientPSMoveResultCode_ok).m_pendingControllerStartCount = -1 ∧
      (handle_start_controller_response (release_devices s1)
        _clientPSMoveResultCode_ok).calls =
          (release_devices s1).calls ++ [ApiCall.get_tracker_list] ∧
      (exit s1).m_menuState = inactive ∧
      (handle_start_controller_response (exit s1)
        _clientPSMoveResultCode_ok).m_menuState = pendingTrackerListRequest ∧
      (handle_start_controller_response (exit s1)
        _clientPSMoveResultCode_ok).m_pendingControllerStartCount = -1 ∧
      (handle_start_controller_response (exit s1)
        _clientPSMoveResultCode_ok).calls = (exit s1).calls ++ [ApiCall.get_tracker_list] ∧
      ∃ s3, handle_tracker_list_response false
          (handle_start_controller_response (exit s1) _clientPSMoveResultCode_ok)
          _clientPSMoveResultCode_ok
          (ResponsePayload._responsePayloadType_TrackerList [{ tracker_id := 0 }]) = some s3 ∧
        s3.m_trackerViews.length = 1 ∧ s3.m_pendingTrackerStartCount = 1 := by
  decide

/-- C10: from `inactive`, `enter()` puts the machine in `pendingControllerListRequest`; a
controller-list response with result Error or Canceled then sets the state to
`failedControllerListRequest`, creates no controller session, issues no request, and does
not enter `pendingTrackerListRequest`. -/
theorem C10_controller_list_failure (ndebug : Bool)
    (allocate_controller_view : Int → StageControllerView)
    (s : AppStage_ComputeTrackerPoses) (r : eClientPSMoveResultCode)
    (payload : ResponsePayload)
    (hs : s.m_menuState = inactive)
    (hr : r = _clientPSMoveResultCode_error ∨ r = _clientPSMoveResultCode_canceled) :
    (enter s).m_menuState = pendingControllerListRequest ∧
    (enter s).calls = s.calls ++
      [ApiCall.get_controller_list, ApiCall.setCameraType eCameraType._cameraFixed] ∧
    handle_controller_list_response ndebug allocate_controller_view (enter s) r payload =
      some { enter s with m_menuState := failedControllerListRequest } ∧
    ({ enter s with m_menuState := failedControllerListRequest } :
      AppStage_ComputeTrackerPoses).m_controllerViews = s.m_controllerViews ∧
    ({ enter s with m_menuState := failedControllerListRequest } :
      AppStage_ComputeTrackerPoses).m_pendingControllerStartCount =
        s.m_pendingControllerStartCount ∧
    ({ enter s with m_menuState := failedControllerListRequest } :
      AppStage_ComputeTrackerPoses).calls = (enter s).calls ∧
    ({ enter s with m_menuState := failedControllerListRequest } :
      AppStage_ComputeTrackerPoses).m_menuState ≠ pendingTrackerListRequest := by
  have hne : s.m_menuState ≠ pendingControllerListRequest := by rw [hs]; simp
  have hent : enter s =
      { s with m_menuState := pendingControllerListRequest,
               calls := s.calls ++ [ApiCall.get_controller_list,
                 ApiCall.setCameraType eCameraType._cameraFixed] } := by
    unfold enter request_controller_list
    rw [if_pos hne]
    simp [record]
  have hst : (enter s).m_menuState = pendingControllerListRequest := by rw [hent]
  have hset : setState (enter s) failedControllerListRequest =
      { enter s with m_menuState := failedControllerListRequest } :=
    setState_quiet (enter s) _ (Or.inr (Or.inl hst)) (Or.inl rfl)
  refine ⟨hst, by rw [hent], ?_, by rw [hent], by rw [hent], rfl, by simp⟩
  rcases hr with h | h
  · rw [h]
    unfold handle_controller_list_response
    rw [hset]
  · rw [h]
    unfold handle_controller_list_response
    rw [hset]

/-- Witness for C10: the freshly constructed stage and a Canceled response. -/
theorem C10_controller_list_failure_witness :
    handle_controller_list_response false example_allocate_controller_view
        (enter create) _clientPSMoveResultCode_canceled
        ResponsePayload._responsePayloadType_Empty =
      some { enter create with m_menuState := failedControllerListRequest } :=
  (C10_controller_list_failure false example_allocate_controller_view create
    _clientPSMoveResultCode_canceled ResponsePayload._responsePayloadType_Empty rfl
    (Or.inr rfl)).2.2.1

/-- Fields that `onEnterState` never touches. -/
theorem onEnterState_fields (s : AppStage_ComputeTrackerPoses) (newState : eMenuState) :
    (onEnterState s newState).m_menuState = s.m_menuState ∧
    (onEnterState s newState).m_renderTrackerIndex = s.m_renderTrackerIndex ∧
    (onEnterState s newState).m_bSkipCalibration = s.m_bSkipCalibration ∧
    (onEnterState s newState).m_overrideControllerId = s.m_overrideControllerId := by
  unfold onEnterState
  split <;> simp [record]

/-- The tracker fields survive `onEnterState` for every target but
`pendingTrackerStartRequest`. -/
theorem onEnterState_tracker_fields (s : AppStage_ComputeTrackerPoses) (newState : eMenuState)
    (h : newState ≠ pendingTrackerStartRequest) :
    (onEnterState s newState).m_trackerViews = s.m_trackerViews ∧
    (onEnterState s newState).m_pendingTrackerStartCount = s.m_pendingTrackerStartCount := by
  unfold onEnterState
  split <;> simp_all [record]

/-- The controller map survives `onEnterState` for every target but
`pendingControllerStartRequest` and `testTracking`. -/
theorem onEnterState_controllerViews (s : AppStage_ComputeTrackerPoses) (newState : eMenuState)
    (h1 : newState ≠ pendingControllerStartRequest) (h2 : newState ≠ testTracking) :
    (onEnterState s newState).m_controllerViews = s.m_controllerViews := by
  unfold onEnterState
  split <;> simp_all [record]

theorem setState_bSkipCalibration (s : AppStage_ComputeTrackerPoses) (newState : eMenuState) :
    (setState s newState).m_bSkipCalibration = s.m_bSkipCalibration := by
  unfold setState
  split
  · simp only
    rw [(onEnterState_fields _ _).2.2.1]
    exact (onExitState_fields s s.m_menuState).2.2.2.2.2.2.2.1
  · rfl

theorem setState_tracker_fields (s : AppStage_ComputeTrackerPoses) (newState : eMenuState)
    (h : newState ≠ pendingTrackerStartRequest) :
    (setState s newState).m_trackerViews = s.m_trackerViews ∧
    (setState s newState).m_pendingTrackerStartCount = s.m_pendingTrackerStartCount := by
  unfold setState
  split
  · simp only
    obtain ⟨a, b⟩ := onEnterState_tracker_fields (onExitState s s.m_menuState) newState h
    rw [a, b]
    exact ⟨(onExitState_fields s s.m_menuState).2.1, (onExitState_fields s s.m_menuState).2.2.1⟩
  · exact ⟨rfl, rfl⟩

theorem setState_controllerViews (s : AppStage_ComputeTrackerPoses) (newState : eMenuState)
    (h1 : newState ≠ pendingControllerStartRequest) (h2 : newState ≠ testTracking) :
    (setState s newState).m_controllerViews = s.m_controllerViews := by
  unfold setState
  split
  · simp only
    rw [onEnterState_controllerViews _ _ h1 h2]
    exact (onExitState_fields s s.m_menuState).2.2.2.1
  · rfl

/-- The stop requests among the calls made for the controller sessions: one per session. -/
theorem release_controller_calls_stops (views : List (Int × ControllerState)) :
    (release_controller_calls views).filter
        (fun c => match c with
          | ApiCall.stop_controller_data_stream _ => true
          | _ => false) =
      views.map (fun kv => ApiCall.stop_controller_data_stream kv.2.controllerView.ControllerID) := by
  induction views with
  | nil => rfl
  | cons kv rest ih =>
    obtain ⟨k, c⟩ := kv
    simp [release_controller_calls, List.filter_cons, ih]

/-- The stop requests among the calls made for the tracker sessions: one per session. -/
theorem release_tracker_calls_stops (views : List (Int × TrackerState)) :
    (release_tracker_calls views).filter
        (fun c => match c with
          | ApiCall.stop_tracker_data_stream _ => true
          | _ => false) =
      views.map (fun kv => ApiCall.stop_tracker_data_stream kv.2.trackerView.tracker_id) := by
  induction views with
  | nil => rfl
  | cons kv rest ih =>
    obtain ⟨k, t⟩ := kv
    cases ht : t.textureAsset <;>
      simp [release_tracker_calls, List.filter_cons, List.filter_append, ih, ht]

/-- The video channels closed among the calls made for the tracker sessions: one per
session. -/
theorem release_tracker_calls_closes (views : List (Int × TrackerState)) :
    (release_tracker_calls views).filter
        (fun c => match c with
          | ApiCall.closeVideoStream _ => true
          | _ => false) =
      views.map (fun kv => ApiCall.closeVideoStream kv.2.trackerView.tracker_id) := by
  induction views with
  | nil => rfl
  | cons kv rest ih =>
    obtain ⟨k, t⟩ := kv
    cases ht : t.textureAsset <;>
      simp [release_tracker_calls, List.filter_cons, List.filter_append, ih, ht]

/-- C15: from every menu state and every content of the session maps, `release_devices()`
issues one stop-stream request for each controller session and each tracker session, closes
the video channel of each tracker session, and leaves both maps empty, both pending counts
zero and `m_renderTrackerIndex` zero; the menu state is not changed. -/
theorem C15_release_devices_effect (s : AppStage_ComputeTrackerPoses) :
    (release_devices s).m_controllerViews = [] ∧
    (release_devices s).m_trackerViews = [] ∧
    (release_devices s).m_pendingControllerStartCount = 0 ∧
    (release_devices s).m_pendingTrackerStartCount = 0 ∧
    (release_devices s).m_renderTrackerIndex = 0 ∧
    (release_devices s).m_menuState = s.m_menuState ∧
    (release_devices s).calls =
      s.calls ++ release_controller_calls s.m_controllerViews ++
        release_tracker_calls s.m_trackerViews ∧
    (release_controller_calls s.m_controllerViews).filter
        (fun c => match c with
          | ApiCall.stop_controller_data_stream _ => true
          | _ => false) =
      s.m_controllerViews.map
        (fun kv => ApiCall.stop_controller_data_stream kv.2.controllerView.ControllerID) ∧
    (release_tracker_calls s.m_trackerViews).filter
        (fun c => match c with
          | ApiCall.stop_tracker_data_stream _ => true
          | _ => false) =
      s.m_trackerViews.map
        (fun kv => ApiCall.stop_tracker_data_stream kv.2.trackerView.tracker_id) ∧
    (release_tracker_calls s.m_trackerViews).filter
        (fun c => match c with
          | ApiCall.closeVideoStream _ => true
          | _ => false) =
      s.m_trackerViews.map
        (fun kv => ApiCall.closeVideoStream kv.2.trackerView.tracker_id) :=
  ⟨rfl, rfl, rfl, rfl, rfl, rfl, rfl, release_controller_calls_stops _,
    release_tracker_calls_stops _, release_tracker_calls_closes _⟩

/-- C16: `release_devices()` is idempotent. Calling it twice yields the same machine state as
calling it once; the second call adds no call to the trace (no stop request, nothing freed),
it cannot fail, and both pending counts are zero after it. The same holds for the second
release made by `exit()` after `request_exit_to_app_stage`. -/
theorem C16_release_devices_idempotent (s : AppStage_ComputeTrackerPoses)
    (app_stage_name : String) :
    release_devices (release_devices s) = release_devices s ∧
    (release_devices (release_devices s)).calls = (release_devices s).calls ∧
    (release_devices (release_devices s)).m_pendingControllerStartCount = 0 ∧
    (release_devices (release_devices s)).m_pendingTrackerStartCount = 0 ∧
    release_devices (request_exit_to_app_stage s app_stage_name) =
      request_exit_to_app_stage s app_stage_name := by
  have h : release_devices (release_devices s) = release_devices s := by
    simp [release_devices, release_controller_calls, release_tracker_calls]
  refine ⟨h, by rw [h], rfl, rfl, ?_⟩
  simp [request_exit_to_app_stage, release_devices, release_controller_calls,
    release_tracker_calls, record]

theorem go_next_tracker_fields (s : AppStage_ComputeTrackerPoses) :
    (go_next_tracker s).m_menuState = s.m_menuState ∧
    (go_next_tracker s).m_trackerViews = s.m_trackerViews := by
  unfold go_next_tracker
  simp only
  split <;> exact ⟨rfl, rfl⟩

theorem go_previous_tracker_fields (s : AppStage_ComputeTrackerPoses) :
    (go_previous_tracker s).m_menuState = s.m_menuState ∧
    (go_previous_tracker s).m_trackerViews = s.m_trackerViews := by
  unfold go_previous_tracker
  simp only
  split <;> exact ⟨rfl, rfl⟩

theorem request_exit_to_app_stage_menuState (s : AppStage_ComputeTrackerPoses)
    (app_stage_name : String) :
    (request_exit_to_app_stage s app_stage_name).m_menuState = s.m_menuState := rfl

/-- The "Looks Good!" action ends in `selectCalibrationMethod` for two trackers and in
`calibrateWithMat` otherwise. -/
theorem verifyTrackers_accept_menuState (s : AppStage_ComputeTrackerPoses) :
    (verifyTrackers_accept s).m_menuState =
      if s.m_trackerViews.length = 2 then selectCalibrationMethod else calibrateWithMat := by
  unfold verifyTrackers_accept
  split <;> exact setState_menuState _ _

/-- C13: in `verifyTrackers`, a frame in which "Looks Good!" is pressed leaves the machine in
`selectCalibrationMethod` if and only if exactly two tracker sessions are open and in
`calibrateWithMat` for every other count, whatever else is pressed in the frame; in
`selectCalibrationMethod` a frame leaves the machine in `stereoCalibrate` when
"Stereo Camera" is pressed, in `calibrateWithMat` when only "Calibration Mat" is pressed,
and where it is when neither is pressed. -/
theorem C13_verify_accept_by_tracker_count (ui : ImGuiFrame) (isLocalServer : Bool)
    (s : AppStage_ComputeTrackerPoses) :
    (s.m_menuState = verifyTrackers → ui.Button "Looks Good!" = true →
      (renderUI ui isLocalServer s).m_menuState =
          (if s.m_trackerViews.length = 2 then selectCalibrationMethod else calibrateWithMat) ∧
      ((renderUI ui isLocalServer s).m_menuState = selectCalibrationMethod ↔
        s.m_trackerViews.length = 2) ∧
      ((renderUI ui isLocalServer s).m_menuState = calibrateWithMat ↔
        s.m_trackerViews.length ≠ 2)) ∧
    (s.m_menuState = verifyTrackers → ui.Button "Looks Good!" = false →
      (renderUI ui isLocalServer s).m_menuState = verifyTrackers) ∧
    (s.m_menuState = selectCalibrationMethod →
      (renderUI ui isLocalServer s).m_menuState =
        (if ui.Button "Stereo Camera" = true then stereoCalibrate
         else if ui.Button "Calibration Mat" = true then calibrateWithMat
         else selectCalibrationMethod)) := by
  refine ⟨fun hs hb => ?_, fun hs hb => ?_, fun hs => ?_⟩
  · have key : (renderUI ui isLocalServer s).m_menuState =
        (if s.m_trackerViews.length = 2 then selectCalibrationMethod
          else calibrateWithMat) := by
      unfold renderUI
      rw [hs]
      simp only [hb, if_true]
      have hacc : ∀ t : AppStage_ComputeTrackerPoses,
          t.m_trackerViews = s.m_trackerViews →
          (if ui.Button "Hmm... Something is wrong." = true then
              request_exit_to_app_stage (verifyTrackers_accept t)
                AppStage_TrackerSettings_APP_STAGE_NAME
            else verifyTrackers_accept t).m_menuState =
            (if s.m_trackerViews.length = 2 then selectCalibrationMethod
              else calibrateWithMat) := by
        intro t ht
        split
        · rw [request_exit_to_app_stage_menuState, verifyTrackers_accept_menuState, ht]
        · rw [verifyTrackers_accept_menuState, ht]
      apply hacc
      split
      · split <;> split <;>
          simp [(go_next_tracker_fields _).2, (go_previous_tracker_fields _).2]
      · rfl
    refine ⟨key, ?_, ?_⟩
    · rw [key]
      split <;> simp_all
    · rw [key]
      split <;> simp_all
  · unfold renderUI
    rw [hs]
    simp only [hb, Bool.false_eq_true, if_false]
    have hkeep : ∀ t : AppStage_ComputeTrackerPoses, t.m_menuState = verifyTrackers →
        (if ui.Button "Hmm... Something is wrong." = true then
            request_exit_to_app_stage t AppStage_TrackerSettings_APP_STAGE_NAME
          else t).m_menuState = verifyTrackers := by
      intro t ht
      split
      · rw [request_exit_to_app_stage_menuState, ht]
      · exact ht
    apply hkeep
    split
    · split <;> split <;>
        simp [(go_next_tracker_fields _).1, (go_previous_tracker_fields _).1, hs]
    · exact hs
  · unfold renderUI
    rw [hs]
    simp only
    by_cases h1 : ui.Button "Stereo Camera" = true
    · rw [if_pos h1, if_pos h1]
      exact setState_menuState _ _
    · rw [if_neg h1, if_neg h1]
      by_cases h2 : ui.Button "Calibration Mat" = true
      · rw [if_pos h2, if_pos h2]
        exact setState_menuState _ _
      · rw [if_neg h2, if_neg h2]
        exact hs

/-- C14: in `calibrateWithMat` or `stereoCalibrate`, one `update()` tick returns and moves
the machine to `testTracking` if the active sub-stage reports `calibrateStepSuccess`, to
`calibrateStepFailed` if it reports `calibrateStepFailed`, and leaves the menu state
unchanged for every other status. -/
theorem C14_update_calibration_outcome (ndebug : Bool) (s : AppStage_ComputeTrackerPoses)
    (calibrateWithMatState stereoCalibrateState : eCalibrationMenuState)
    (pollVideoStream : Bool)
    (hs : s.m_menuState = calibrateWithMat ∨ s.m_menuState = stereoCalibrate) :
    ∃ s1, update ndebug s calibrateWithMatState stereoCalibrateState pollVideoStream =
        some s1 ∧
      s1.m_menuState =
        (match (if s.m_menuState = calibrateWithMat then calibrateWithMatState
            else stereoCalibrateState) with
          | eCalibrationMenuState.calibrateStepSuccess => testTracking
          | eCalibrationMenuState.calibrateStepFailed => calibrateStepFailed
          | eCalibrationMenuState.otherStep _ => s.m_menuState) ∧
      (s1.m_menuState = testTracking ∨ s1.m_menuState = calibrateStepFailed ∨
        s1.m_menuState = s.m_menuState) := by
  rcases hs with hs | hs
  · unfold update
    rw [hs]
    simp only [if_true]
    cases calibrateWithMatState with
    | calibrateStepSuccess =>
      exact ⟨_, rfl, setState_menuState _ _, Or.inl (setState_menuState _ _)⟩
    | calibrateStepFailed =>
      exact ⟨setState (s.record ApiCall.calibrateWithMat_update) calibrateStepFailed,
        by simp, setState_menuState _ _, Or.inr (Or.inl (setState_menuState _ _))⟩
    | otherStep n =>
      exact ⟨s.record ApiCall.calibrateWithMat_update, by simp, hs, Or.inr (Or.inr hs)⟩
  · unfold update
    rw [hs]
    simp only [reduceCtorEq, if_false]
    cases stereoCalibrateState with
    | calibrateStepSuccess =>
      exact ⟨_, rfl, setState_menuState _ _, Or.inl (setState_menuState _ _)⟩
    | calibrateStepFailed =>
      exact ⟨setState (s.record ApiCall.stereoCalibrate_update) calibrateStepFailed,
        by simp, setState_menuState _ _, Or.inr (Or.inl (setState_menuState _ _))⟩
    | otherStep n =>
      exact ⟨s.record ApiCall.stereoCalibrate_update, by simp, hs, Or.inr (Or.inr hs)⟩

theorem C13_verify_accept_by_tracker_count_witness :
    (example_verifying.getD create).m_menuState = verifyTrackers ∧
    (example_verifying.getD create).m_trackerViews.length = 1 ∧
    (renderUI (example_click "Looks Good!") true (example_verifying.getD create)).m_menuState =
      calibrateWithMat := by
  refine ⟨by decide, by decide, ?_⟩
  have h := ((C13_verify_accept_by_tracker_count (example_click "Looks Good!") true
    (example_verifying.getD create)).1 (by decide) (by decide)).1
  rw [h]
  decide

theorem C14_update_calibration_outcome_witness :
    (renderUI (example_click "Looks Good!") true (example_verifying.getD create)).m_menuState =
      calibrateWithMat ∧
    ∃ s1, update false
        (renderUI (example_click "Looks Good!") true (example_verifying.getD create))
        eCalibrationMenuState.calibrateStepSuccess (eCalibrationMenuState.otherStep 0) false =
          some s1 ∧
      s1.m_menuState = testTracking := by
  have hs : (renderUI (example_click "Looks Good!") true
      (example_verifying.getD create)).m_menuState = calibrateWithMat := by decide
  obtain ⟨s1, h1, h2, _⟩ := C14_update_calibration_outcome false
    (renderUI (example_click "Looks Good!") true (example_verifying.getD create))
    eCalibrationMenuState.calibrateStepSuccess (eCalibrationMenuState.otherStep 0) false
    (Or.inl hs)
  refine ⟨hs, s1, h1, ?_⟩
  rw [h2, if_pos hs]

/-- The flag word carries the four data flags, and `disableROI` exactly when calibration is
not skipped. -/
theorem start_controller_flags_mem (bSkipCalibration : Bool) :
    eControllerDataStreamFlags.includePositionData ∈ start_controller_flags bSkipCalibration ∧
    eControllerDataStreamFlags.includeCalibratedSensorData ∈
      start_controller_flags bSkipCalibration ∧
    eControllerDataStreamFlags.includeRawTrackerData ∈ start_controller_flags bSkipCalibration ∧
    eControllerDataStreamFlags.includePhysicsData ∈ start_controller_flags bSkipCalibration ∧
    (eControllerDataStreamFlags.disableROI ∈ start_controller_flags bSkipCalibration ↔
      bSkipCalibration = false) := by
  cases bSkipCalibration <;> simp [start_controller_flags]

/-- Every start-stream call among the calls of a run of requests carries the flag word of the
run. -/
theorem start_request_calls_flags (allocate_controller_view : Int → StageControllerView)
    (bSkipCalibration : Bool) (requests : List (Int × Int × Int)) (ControllerID : Int)
    (flags : List eControllerDataStreamFlags)
    (h : ApiCall.start_controller_data_stream ControllerID flags ∈
      start_request_calls allocate_controller_view bSkipCalibration requests) :
    flags = start_controller_flags bSkipCalibration := by
  induction requests with
  | nil => simp [start_request_calls] at h
  | cons r rest ih =>
    simp only [start_request_calls, List.cons_append, List.nil_append, List.mem_cons,
      reduceCtorEq, false_or, ApiCall.start_controller_data_stream.injEq] at h
    rcases h with h | h
    · exact h.2
    · exact ih h

theorem enter_after_skip_fields (s0 : AppStage_ComputeTrackerPoses) (k : Int) :
    (enter (enterStageAndSkipCalibration s0 k)).m_menuState = pendingControllerListRequest ∧
    (enter (enterStageAndSkipCalibration s0 k)).m_bSkipCalibration = true ∧
    (enter (enterStageAndSkipCalibration s0 k)).m_overrideControllerId = k := by
  unfold enter request_controller_list enterStageAndSkipCalibration
  simp only [record]
  split
  · exact ⟨rfl, rfl, rfl⟩
  · rename_i h
    exact ⟨not_not.mp h, rfl, rfl⟩

/-- C20: a `request_start_controller_stream` call whose id has no session yet (or which runs
in a build without asserts) returns and records, after the allocation of the view, one
start-stream request whose flag word holds `includePositionData`,
`includeCalibratedSensorData`, `includeRawTrackerData` and `includePhysicsData`, and holds
`disableROI` if and only if `m_bSkipCalibration` is false; and after the stage is entered
through `enterStageAndSkipCalibration`, every start-stream request that an Ok controller-list
response adds to the trace lacks `disableROI` and holds the four data flags. -/
theorem C20_start_request_flags (ndebug : Bool)
    (allocate_controller_view : Int → StageControllerView)
    (s : AppStage_ComputeTrackerPoses) (ControllerID listIndex trackingColorType : Int)
    (h : ndebug = true ∨ map_find
      (if s.m_menuState = pendingControllerStartRequest then s.m_controllerViews else [])
      ControllerID = none) :
    (∃ s1 flags, request_start_controller_stream ndebug allocate_controller_view s
        ControllerID listIndex trackingColorType = some s1 ∧
      s1.calls = (onExitState s s.m_menuState).calls ++
        [ApiCall.allocate_controller_view ControllerID,
         ApiCall.start_controller_data_stream
          (allocate_controller_view ControllerID).ControllerID flags] ∧
      eControllerDataStreamFlags.includePositionData ∈ flags ∧
      eControllerDataStreamFlags.includeCalibratedSensorData ∈ flags ∧
      eControllerDataStreamFlags.includeRawTrackerData ∈ flags ∧
      eControllerDataStreamFlags.includePhysicsData ∈ flags ∧
      (eControllerDataStreamFlags.disableROI ∈ flags ↔ s.m_bSkipCalibration = false) ∧
      s1.m_bSkipCalibration = s.m_bSkipCalibration) ∧
    (∀ (s0 : AppStage_ComputeTrackerPoses) (k : Int) (controller_list : List ControllerListEntry)
        (s2 : AppStage_ComputeTrackerPoses),
      (enter (enterStageAndSkipCalibration s0 k)).m_bSkipCalibration = true ∧
      (handle_controller_list_response ndebug allocate_controller_view
          (enter (enterStageAndSkipCalibration s0 k)) _clientPSMoveResultCode_ok
          (ResponsePayload._responsePayloadType_ControllerList controller_list) = some s2 →
        s2.calls = (enter (enterStageAndSkipCalibration s0 k)).calls ++
          start_request_calls allocate_controller_view true
            (controller_start_requests k controller_list) ∧
        ∀ id flags, ApiCall.start_controller_data_stream id flags ∈
            start_request_calls allocate_controller_view true
              (controller_start_requests k controller_list) →
          eControllerDataStreamFlags.disableROI ∉ flags ∧
          eControllerDataStreamFlags.includePositionData ∈ flags ∧
          eControllerDataStreamFlags.includeCalibratedSensorData ∈ flags ∧
          eControllerDataStreamFlags.includeRawTrackerData ∈ flags ∧
          eControllerDataStreamFlags.includePhysicsData ∈ flags)) := by
  constructor
  · have hsome : ∃ s1, request_start_controller_stream ndebug allocate_controller_view s
        ControllerID listIndex trackingColorType = some s1 := by
      rcases h with h | h
      · subst h
        simp [request_start_controller_stream]
      · exact request_start_controller_stream_isSome ndebug allocate_controller_view s
          ControllerID listIndex trackingColorType h
    obtain ⟨s1, hs1⟩ := hsome
    obtain ⟨_, _, _, e4, _, e6⟩ := request_start_controller_stream_some ndebug
      allocate_controller_view s s1 ControllerID listIndex trackingColorType hs1
    obtain ⟨f1, f2, f3, f4, f5⟩ := start_controller_flags_mem s.m_bSkipCalibration
    exact ⟨s1, start_controller_flags s.m_bSkipCalibration, hs1, e6, f1, f2, f3, f4, f5, e4⟩
  · intro s0 k controller_list s2
    obtain ⟨g1, g2, g3⟩ := enter_after_skip_fields s0 k
    refine ⟨g2, fun h2 => ?_⟩
    have hflags : ∀ id flags, ApiCall.start_controller_data_stream id flags ∈
          start_request_calls allocate_controller_view true
            (controller_start_requests k controller_list) →
        eControllerDataStreamFlags.disableROI ∉ flags ∧
        eControllerDataStreamFlags.includePositionData ∈ flags ∧
        eControllerDataStreamFlags.includeCalibratedSensorData ∈ flags ∧
        eControllerDataStreamFlags.includeRawTrackerData ∈ flags ∧
        eControllerDataStreamFlags.includePhysicsData ∈ flags := by
      intro id flags hmem
      rw [start_request_calls_flags _ _ _ _ _ hmem]
      simp [start_controller_flags]
    refine ⟨?_, hflags⟩
    rw [handle_controller_list_response_ok, g3] at h2
    by_cases hreq : controller_start_requests k controller_list = []
    · rw [if_pos hreq] at h2
      rw [setState_quiet _ _ (Or.inr (Or.inl g1)) (Or.inl rfl)] at h2
      rw [← Option.some.inj h2, hreq]
      simp [start_request_calls]
    · rw [if_neg hreq] at h2
      obtain ⟨_, _, _, _, e5⟩ := start_requests_count ndebug allocate_controller_view _ _ s2
        (by rw [g1]; decide) hreq h2
      rw [e5, g2, onExitState_of_quiet _ _ (Or.inr (Or.inl g1))]

theorem C20_start_request_flags_witness :
    ∃ s1 flags, request_start_controller_stream false example_allocate_controller_view
        example_entered_stage 0 0 0 = some s1 ∧
      ApiCall.start_controller_data_stream 0 flags ∈ s1.calls ∧
      eControllerDataStreamFlags.disableROI ∈ flags := by
  obtain ⟨s1, flags, h1, h2, _, _, _, _, h7, _⟩ := (C20_start_request_flags false
    example_allocate_controller_view example_entered_stage 0 0 0 (Or.inr (by decide))).1
  refine ⟨s1, flags, h1, ?_, h7.mpr (by decide)⟩
  rw [h2]
  simp [example_allocate_controller_view]

/-- After `release_devices()` no tracker id has a session, so an Ok tracker start-stream
response finds `end()` at its lookup, whatever the state the teardown ran in. -/
theorem late_tracker_start_response_after_release (s : AppStage_ComputeTrackerPoses)
    (tracker_id : Int) (openVideoStream : Bool) (width height : Int) :
    map_find (release_devices s).m_trackerViews tracker_id = none ∧
    handle_tracker_start_stream_response (release_devices s) _clientPSMoveResultCode_ok
      tracker_id openVideoStream width height = none :=
  ⟨rfl, rfl⟩

/-- C17: the stage of `example_tracker_request_in_flight` has issued one tracker start-stream
request (state `pendingTrackerStartRequest`, count 1, a session for tracker id 0), and the Ok
response to it is handled when it arrives in time; once `release_devices()` has run, the same
response finds no entry for tracker id 0 in `m_trackerViews`, so the handler does not complete:
the assertion on the lookup fails (and without asserts `end()` is dereferenced). -/
theorem C17_late_tracker_response_fails_lookup :
    (example_tracker_request_in_flight.map (fun s =>
      (s.m_menuState, s.m_pendingTrackerStartCount, s.m_trackerViews.map Prod.fst))) =
        some (pendingTrackerStartRequest, 1, [0]) ∧
    (example_tracker_request_in_flight.bind (fun s =>
      handle_tracker_start_stream_response s _clientPSMoveResultCode_ok 0 true 640 480)).isSome
        = true ∧
    (example_tracker_request_in_flight.map (fun s =>
      map_find (release_devices s).m_trackerViews 0)) = some none ∧
    (example_tracker_request_in_flight.map (fun s =>
      handle_tracker_start_stream_response (release_devices s) _clientPSMoveResultCode_ok
        0 true 640 480)) = some none := by
  decide

/-- C18 as stated fails: in the stage of `example_test_tracking` both controller sessions have
the pose-reset button enabled, and after `setState(verifyTrackers)` (the "Redo Calibration"
button) the machine has left `testTracking` with the button still enabled on both. -/
theorem C18_pose_reset_stays_enabled_after_leaving :
    (example_test_tracking.map (fun s =>
      (s.m_menuState,
        s.m_controllerViews.map (fun kv => kv.2.controllerView.PoseResetButtonEnabled)))) =
        some (testTracking, [true, true]) ∧
    (example_test_tracking.map (fun s =>
      ((setState s verifyTrackers).m_menuState,
        (setState s verifyTrackers).m_controllerViews.map
          (fun kv => kv.2.controllerView.PoseResetButtonEnabled)))) =
        some (verifyTrackers, [true, true]) ∧
    (example_test_tracking.map (fun s =>
      ((renderUI (example_click "Redo Calibration") true s).m_menuState,
        (renderUI (example_click "Redo Calibration") true s).m_controllerViews.map
          (fun kv => kv.2.controllerView.PoseResetButtonEnabled)))) =
        some (verifyTrackers, [true, true]) := by
  decide

/-- C18 (amended): every `setState` call that leaves `testTracking` runs that state's
teardown, which is the single call `setCameraType(_cameraFixed)`, before the entry action of
the new state; the teardown leaves every controller session as it was, and after the
transition the sessions, with their pose-reset flags, are those held before, unless the new
state is `pendingControllerStartRequest`, whose entry action discards all sessions. -/
theorem C18_leaving_testTracking_resets_camera_only (s : AppStage_ComputeTrackerPoses)
    (newState : eMenuState) (hs : s.m_menuState = testTracking)
    (hnew : newState ≠ testTracking) :
    onExitState s s.m_menuState =
      s.record (ApiCall.setCameraType eCameraType._cameraFixed) ∧
    (onExitState s s.m_menuState).m_controllerViews = s.m_controllerViews ∧
    setState s newState =
      { onEnterState (s.record (ApiCall.setCameraType eCameraType._cameraFixed)) newState with
        m_menuState := newState } ∧
    (newState ≠ pendingControllerStartRequest →
      (setState s newState).m_controllerViews = s.m_controllerViews) ∧
    (newState = pendingControllerStartRequest →
      (setState s newState).m_controllerViews = []) := by
  have hexit : onExitState s s.m_menuState =
      s.record (ApiCall.setCameraType eCameraType._cameraFixed) := by
    unfold onExitState
    rw [hs]
  have hne : newState ≠ s.m_menuState := by rw [hs]; exact hnew
  have hset : setState s newState =
      { onEnterState (s.record (ApiCall.setCameraType eCameraType._cameraFixed)) newState with
        m_menuState := newState } := by
    unfold setState
    rw [if_pos hne, hexit]
  refine ⟨hexit, (onExitState_fields s s.m_menuState).2.2.2.1, hset, ?_, ?_⟩
  · intro hp
    exact setState_controllerViews s newState hp hnew
  · intro hp
    rw [hset, hp]
    rfl

theorem C18_leaving_testTracking_resets_camera_only_witness :
    (example_test_tracking.getD create).m_menuState = testTracking ∧
    (setState (example_test_tracking.getD create) verifyTrackers).m_controllerViews =
      (example_test_tracking.getD create).m_controllerViews :=
  ⟨by decide,
    (C18_leaving_testTracking_resets_camera_only (example_test_tracking.getD create)
      verifyTrackers (by decide) (by decide)).2.2.2.1 (by decide)⟩

/-- C19 as stated fails: the stage of `example_override_navi_tracker_request_in_flight` was
entered with the override id 1 and holds one controller session, for id 1, of type PSNavi;
`setState(testTracking)` from its state `pendingTrackerStartRequest`, directly or through the
Ok answer of the last tracker, leaves the pose-reset button of that session disabled. -/
theorem C19_navi_session_not_enabled :
    (example_override_navi_tracker_request_in_flight.map (fun s =>
      (s.m_menuState, s.m_overrideControllerId))) = some (pendingTrackerStartRequest, 1) ∧
    (example_override_navi_tracker_request_in_flight.map (fun s =>
      s.m_controllerViews.map (fun kv =>
        (kv.1, kv.2.controllerView.ControllerViewType)))) =
        some [(1, eControllerType.PSNavi)] ∧
    (example_override_navi_tracker_request_in_flight.map (fun s =>
      ((setState s testTracking).m_menuState,
        (setState s testTracking).m_controllerViews.map (fun kv =>
          (kv.1, kv.2.controllerView.PoseResetButtonEnabled))))) =
        some (testTracking, [(1, false)]) ∧
    ((example_override_navi_tracker_request_in_flight.bind (fun s =>
      handle_tracker_start_stream_response s _clientPSMoveResultCode_ok 0 true 640 480)).map
        (fun s => (s.m_menuState,
          s.m_controllerViews.map (fun kv =>
            (kv.1, kv.2.controllerView.PoseResetButtonEnabled))))) =
        some (testTracking, [(1, false)]) := by
  decide

theorem enablePoseReset_spec (c : ControllerState) :
    (enablePoseReset c).listIndex = c.listIndex ∧
    (enablePoseReset c).trackingColorType = c.trackingColorType ∧
    (enablePoseReset c).controllerView.ControllerID = c.controllerView.ControllerID ∧
    (enablePoseReset c).controllerView.ControllerViewType =
      c.controllerView.ControllerViewType ∧
    (enablePoseReset c).controllerView.PoseResetButtonEnabled =
      (if c.controllerView.ControllerViewType = eControllerType.PSNavi then
        c.controllerView.PoseResetButtonEnabled else true) := by
  unfold enablePoseReset
  split <;> simp_all

/-- C19 (amended): a `setState(testTracking)` call from a different state keeps the keys of
`m_controllerViews` and applies the entry action to every session: the pose-reset button is
enabled on every session whose view is of type PSMove or PSDualShock4, and a session of type
PSNavi (which the override id can start) keeps the value it had; nothing else in a session
changes. -/
theorem C19_entering_testTracking_enables_move_and_ds4 (s : AppStage_ComputeTrackerPoses)
    (hs : s.m_menuState ≠ testTracking) :
    (setState s testTracking).m_controllerViews =
      s.m_controllerViews.map (fun kv => (kv.1, enablePoseReset kv.2)) ∧
    (setState s testTracking).m_controllerViews.map Prod.fst =
      s.m_controllerViews.map Prod.fst ∧
    (∀ kv ∈ (setState s testTracking).m_controllerViews,
      kv.2.controllerView.ControllerViewType ≠ eControllerType.PSNavi →
        kv.2.controllerView.PoseResetButtonEnabled = true) ∧
    (∀ kv ∈ s.m_controllerViews,
      kv.2.controllerView.ControllerViewType = eControllerType.PSNavi →
        kv ∈ (setState s testTracking).m_controllerViews) ∧
    (∀ c : ControllerState,
      (enablePoseReset c).listIndex = c.listIndex ∧
      (enablePoseReset c).trackingColorType = c.trackingColorType ∧
      (enablePoseReset c).controllerView.ControllerID = c.controllerView.ControllerID ∧
      (enablePoseReset c).controllerView.ControllerViewType =
        c.controllerView.ControllerViewType ∧
      (enablePoseReset c).controllerView.PoseResetButtonEnabled =
        (if c.controllerView.ControllerViewType = eControllerType.PSNavi then
          c.controllerView.PoseResetButtonEnabled else true)) := by
  have hviews : (setState s testTracking).m_controllerViews =
      s.m_controllerViews.map (fun kv => (kv.1, enablePoseReset kv.2)) := by
    unfold setState
    rw [if_pos (fun h => hs h.symm)]
    simp only [onEnterState, record]
    rw [(onExitState_fields s s.m_menuState).2.2.2.1]
  refine ⟨hviews, ?_, ?_, ?_, enablePoseReset_spec⟩
  · rw [hviews, List.map_map]
    rfl
  · intro kv hkv hty
    rw [hviews, List.mem_map] at hkv
    obtain ⟨kv0, _, rfl⟩ := hkv
    obtain ⟨_, _, _, e4, e5⟩ := enablePoseReset_spec kv0.2
    simp only at hty ⊢
    rw [e4] at hty
    rw [e5, if_neg hty]
  · intro kv hkv hty
    rw [hviews, List.mem_map]
    refine ⟨kv, hkv, ?_⟩
    have : enablePoseReset kv.2 = kv.2 := by
      unfold enablePoseReset
      rw [hty]
    rw [this]

theorem C19_entering_testTracking_enables_move_and_ds4_witness :
    (example_verifying.getD create).m_menuState ≠ testTracking ∧
    ((setState (example_verifying.getD create) testTracking).m_controllerViews.map
      (fun kv => kv.2.controllerView.PoseResetButtonEnabled)) = [true, true] := by
  refine ⟨by decide, ?_⟩
  rw [(C19_entering_testTracking_enables_move_and_ds4 (example_verifying.getD create)
    (by decide)).1]
  decide

theorem map_find_middle_ne {V : Type} (a b : List (Int × V)) (key key2 : Int) (value : V)
    (hne : key ≠ key2) :
    map_find (a ++ (key, value) :: b) key2 = map_find (a ++ b) key2 := by
  induction a with
  | nil => simp [map_find, hne]
  | cons kv rest ih =>
    obtain ⟨k, v⟩ := kv
    rw [List.cons_append, List.cons_append, map_find, map_find, ih]

theorem map_find_middle_eq {V : Type} (a b : List (Int × V)) (key : Int) (value : V)
    (h : key ∉ a.map Prod.fst) :
    map_find (a ++ (key, value) :: b) key = some value := by
  induction a with
  | nil => simp [map_find]
  | cons kv rest ih =>
    obtain ⟨k, v⟩ := kv
    simp only [List.map_cons, List.mem_cons, not_or] at h
    rw [List.cons_append, map_find, if_neg (fun e => h.1 e.symm)]
    exact ih h.2

/-- The lookup after the insertion of a key that was absent. -/
theorem map_find_map_insert_of_absent {V : Type} (m : List (Int × V)) (key key2 : Int)
    (value : V) (h : map_find m key = none) :
    map_find (map_insert m key value) key2 =
      if key = key2 then some value else map_find m key2 := by
  unfold map_insert
  rw [h]
  simp only
  by_cases hk : key = key2
  · rw [if_pos hk, ← hk]
    apply map_find_middle_eq
    intro hmem
    rw [map_find_eq_none_iff] at h
    apply h
    have hsub := List.takeWhile_sublist (fun kv : Int × V => decide (kv.1 < key)) (l := m)
    exact (hsub.map Prod.fst).subset hmem
  · rw [if_neg hk, map_find_middle_ne _ _ _ _ _ hk, List.takeWhile_append_dropWhile]

/-- A run of requests from `pendingControllerStartRequest` with pairwise distinct ids that
have no session yet stores, under each requested id, the list index, the allocated view and
the colour of its request, and leaves every other key as it was. -/
theorem start_requests_find_from_pending (ndebug : Bool)
    (allocate_controller_view : Int → StageControllerView)
    (requests : List (Int × Int × Int)) (s s1 : AppStage_ComputeTrackerPoses)
    (hs : s.m_menuState = pendingControllerStartRequest)
    (hnodup : (requests.map (fun r => r.1)).Nodup)
    (hfresh : ∀ r ∈ requests, r.1 ∉ s.m_controllerViews.map Prod.fst)
    (h : start_requests ndebug allocate_controller_view requests s = some s1) :
    (∀ r ∈ requests, map_find s1.m_controllerViews r.1 =
      some { listIndex := r.2.1, controllerView := allocate_controller_view r.1,
             trackingColorType := r.2.2 }) ∧
    (∀ k, k ∉ requests.map (fun r => r.1) →
      map_find s1.m_controllerViews k = map_find s.m_controllerViews k) := by
  induction requests generalizing s with
  | nil =>
    rw [start_requests] at h
    rw [← Option.some.inj h]
    exact ⟨by simp, fun _ _ => rfl⟩
  | cons r rest ih =>
    rw [start_requests] at h
    cases hr : request_start_controller_stream ndebug allocate_controller_view s
        r.1 r.2.1 r.2.2 with
    | none => rw [hr] at h; exact absurd h (by simp)
    | some s2 =>
      rw [hr] at h
      obtain ⟨a1, _, a3, _, _, _⟩ :=
        request_start_controller_stream_some ndebug allocate_controller_view s s2 _ _ _ hr
      rw [if_pos hs] at a3
      have habs : map_find s.m_controllerViews r.1 = none := by
        rw [map_find_eq_none_iff]
        exact hfresh r (List.mem_cons_self r rest)
      rw [List.map_cons, List.nodup_cons] at hnodup
      have hfresh2 : ∀ q ∈ rest, q.1 ∉ s2.m_controllerViews.map Prod.fst := by
        intro q hq hmem
        rw [a3, map_insert_keys] at hmem
        rcases hmem with hmem | hmem
        · apply hnodup.1
          rw [← hmem]
          exact List.mem_map_of_mem (fun r : Int × Int × Int => r.1) hq
        · exact hfresh q (List.mem_cons_of_mem r hq) hmem
      obtain ⟨c1, c2⟩ := ih s2 a1 hnodup.2 hfresh2 h
      constructor
      · intro q hq
        rcases List.mem_cons.mp hq with hq | hq
        · rw [hq, c2 r.1 hnodup.1, a3, map_find_map_insert_of_absent _ _ _ _ habs, if_pos rfl]
        · exact c1 q hq
      · intro k hk
        rw [List.map_cons, List.mem_cons, not_or] at hk
        rw [c2 k hk.2, a3, map_find_map_insert_of_absent _ _ _ _ habs,
          if_neg (fun e => hk.1 e.symm)]

/-- A non-empty run of requests with pairwise distinct ids that starts outside
`pendingControllerStartRequest` stores, under each requested id, the list index, the
allocated view and the colour of its request. -/
theorem start_requests_find (ndebug : Bool)
    (allocate_controller_view : Int → StageControllerView)
    (requests : List (Int × Int × Int)) (s s1 : AppStage_ComputeTrackerPoses)
    (hs : s.m_menuState ≠ pendingControllerStartRequest)
    (hnodup : (requests.map (fun r => r.1)).Nodup)
    (h : start_requests ndebug allocate_controller_view requests s = some s1) :
    ∀ r ∈ requests, map_find s1.m_controllerViews r.1 =
      some { listIndex := r.2.1, controllerView := allocate_controller_view r.1,
             trackingColorType := r.2.2 } := by
  cases requests with
  | nil => simp
  | cons r rest =>
    rw [start_requests] at h
    cases hr : request_start_controller_stream ndebug allocate_controller_view s
        r.1 r.2.1 r.2.2 with
    | none => rw [hr] at h; exact absurd h (by simp)
    | some s2 =>
      rw [hr] at h
      obtain ⟨a1, _, a3, _, _, _⟩ :=
        request_start_controller_stream_some ndebug allocate_controller_view s s2 _ _ _ hr
      rw [if_neg hs] at a3
      rw [List.map_cons, List.nodup_cons] at hnodup
      have hfresh2 : ∀ q ∈ rest, q.1 ∉ s2.m_controllerViews.map Prod.fst := by
        intro q hq hmem
        rw [a3, map_insert_keys] at hmem
        rcases hmem with hmem | hmem
        · apply hnodup.1
          rw [← hmem]
          exact List.mem_map_of_mem (fun r : Int × Int × Int => r.1) hq
        · simp at hmem
      obtain ⟨c1, c2⟩ := start_requests_find_from_pending ndebug allocate_controller_view
        rest s2 s1 a1 hnodup.2 hfresh2 h
      intro q hq
      rcases List.mem_cons.mp hq with hq | hq
      · rw [hq, c2 r.1 hnodup.1, a3, map_find_map_insert_of_absent _ _ _ _
          (show map_find ([] : List (Int × ControllerState)) r.1 = none from rfl), if_pos rfl]
      · exact c1 q hq

/-- The first loop makes one request per row of type PSMove or PSDualShock4. -/
theorem listed_start_requests_length (controller_list : List ControllerListEntry)
    (list_index : Int) :
    (listed_start_requests controller_list list_index).length =
      controller_list.countP (fun c => decide (c.controller_type = eControllerType.PSMove ∨
        c.controller_type = eControllerType.PSDualShock4)) := by
  induction controller_list generalizing list_index with
  | nil => rfl
  | cons c rest ih =>
    rw [listed_start_requests]
    by_cases hc : c.controller_type = eControllerType.PSMove ∨
        c.controller_type = eControllerType.PSDualShock4
    · rw [if_pos hc, List.length_cons, ih, List.countP_cons_of_pos _ _ (by simpa using hc)]
    · rw [if_neg hc, ih, List.countP_cons_of_neg _ _ (by simpa using hc)]

/-- The requests of the first loop are those of the rows of type PSMove or PSDualShock4, each
with the id, the list index and the colour of its row. -/
theorem listed_start_requests_mem (controller_list : List ControllerListEntry)
    (list_index : Int) (r : Int × Int × Int) :
    r ∈ listed_start_requests controller_list list_index ↔
      ∃ (j : Nat) (c : ControllerListEntry), controller_list[j]? = some c ∧
        (c.controller_type = eControllerType.PSMove ∨
          c.controller_type = eControllerType.PSDualShock4) ∧
        r = (c.controller_id, list_index + j, c.tracking_color_type) := by
  induction controller_list generalizing list_index with
  | nil => simp [listed_start_requests]
  | cons c rest ih =>
    have hstep : (∃ (j : Nat) (c1 : ControllerListEntry), (c :: rest)[j]? = some c1 ∧
          (c1.controller_type = eControllerType.PSMove ∨
            c1.controller_type = eControllerType.PSDualShock4) ∧
          r = (c1.controller_id, list_index + j, c1.tracking_color_type)) ↔
        (((c.controller_type = eControllerType.PSMove ∨
            c.controller_type = eControllerType.PSDualShock4) ∧
          r = (c.controller_id, list_index, c.tracking_color_type)) ∨
        r ∈ listed_start_requests rest (list_index + 1)) := by
      rw [ih]
      constructor
      · rintro ⟨j, c1, h1, h2, h3⟩
        cases j with
        | zero =>
          simp only [List.getElem?_cons_zero, Option.some.injEq] at h1
          subst h1
          left
          exact ⟨h2, by simpa using h3⟩
        | succ j =>
          simp only [List.getElem?_cons_succ] at h1
          right
          refine ⟨j, c1, h1, h2, ?_⟩
          rw [h3]
          push_cast
          congr 2
          ring
      · rintro (⟨h2, h3⟩ | ⟨j, c1, h1, h2, h3⟩)
        · exact ⟨0, c, by simp, h2, by simpa using h3⟩
        · refine ⟨j + 1, c1, by simpa using h1, h2, ?_⟩
          rw [h3]
          push_cast
          congr 2
          ring
    rw [hstep, listed_start_requests]
    by_cases hc : c.controller_type = eControllerType.PSMove ∨
        c.controller_type = eControllerType.PSDualShock4
    · rw [if_pos hc, List.mem_cons]
      simp [hc]
    · rw [if_neg hc]
      simp [hc]

/-- The second loop stops at the first row whose id is the override id. -/
theorem find_override_controller_first (overrideControllerId : Int)
    (controller_list : List ControllerListEntry) (list_index : Int) (j : Nat)
    (c : ControllerListEntry) (hj : controller_list[j]? = some c)
    (hc : c.controller_id = overrideControllerId)
    (hfirst : ∀ (i : Nat) (c1 : ControllerListEntry), i < j → controller_list[i]? = some c1 →
      c1.controller_id ≠ overrideControllerId) :
    find_override_controller overrideControllerId controller_list list_index =
      (overrideControllerId, list_index + j, c.tracking_color_type) := by
  induction controller_list generalizing list_index j with
  | nil => simp at hj
  | cons c0 rest ih =>
    rw [find_override_controller]
    cases j with
    | zero =>
      simp only [List.getElem?_cons_zero, Option.some.injEq] at hj
      subst hj
      rw [if_pos hc, hc]
      simp
    | succ j =>
      simp only [List.getElem?_cons_succ] at hj
      have h0 : c0.controller_id ≠ overrideControllerId :=
        hfirst 0 c0 (Nat.succ_pos j) (by simp)
      rw [if_neg h0, ih (list_index + 1) j hj]
      · push_cast
        congr 2
        ring
      · intro i c1 hi hc1
        exact hfirst (i + 1) c1 (Nat.succ_lt_succ hi) (by simpa using hc1)

/-- The second loop finds nothing exactly when no row has the override id. -/
theorem find_override_controller_none (overrideControllerId : Int)
    (controller_list : List ControllerListEntry) (list_index : Int)
    (hk : overrideControllerId ≠ -1) :
    (find_override_controller overrideControllerId controller_list list_index).1 = -1 ↔
      ∀ c ∈ controller_list, c.controller_id ≠ overrideControllerId := by
  induction controller_list generalizing list_index with
  | nil => simp [find_override_controller]
  | cons c0 rest ih =>
    rw [find_override_controller]
    by_cases h0 : c0.controller_id = overrideControllerId
    · rw [if_pos h0]
      simp [h0, hk]
    · rw [if_neg h0, ih]
      simp [h0]

theorem listed_start_requests_eq_nil (controller_list : List ControllerListEntry)
    (list_index : Int) :
    listed_start_requests controller_list list_index = [] ↔
      ∀ c ∈ controller_list, ¬ (c.controller_type = eControllerType.PSMove ∨
        c.controller_type = eControllerType.PSDualShock4) := by
  induction controller_list generalizing list_index with
  | nil => simp [listed_start_requests]
  | cons c0 rest ih =>
    rw [listed_start_requests]
    by_cases h0 : c0.controller_type = eControllerType.PSMove ∨
        c0.controller_type = eControllerType.PSDualShock4
    · rw [if_pos h0]
      constructor
      · intro h
        exact absurd h (List.cons_ne_nil _ _)
      · intro h
        exact absurd h0 (h c0 (List.mem_cons_self _ _))
    · rw [if_neg h0, ih]
      constructor
      · intro h c hc
        rcases List.mem_cons.mp hc with hc | hc
        · rw [hc]
          exact h0
        · exact h c hc
      · intro h c hc
        exact h c (List.mem_cons_of_mem _ hc)

theorem listed_start_requests_ids (controller_list : List ControllerListEntry)
    (list_index : Int) :
    (listed_start_requests controller_list list_index).map (fun r => r.1) =
      (controller_list.filter (fun c => decide (c.controller_type = eControllerType.PSMove ∨
        c.controller_type = eControllerType.PSDualShock4))).map (fun c => c.controller_id) := by
  induction controller_list generalizing list_index with
  | nil => rfl
  | cons c rest ih =>
    rw [listed_start_requests]
    by_cases hc : c.controller_type = eControllerType.PSMove ∨
        c.controller_type = eControllerType.PSDualShock4
    · rw [if_pos hc, List.map_cons, ih, List.filter_cons_of_pos (by simpa using hc),
        List.map_cons]
    · rw [if_neg hc, ih, List.filter_cons_of_neg (by simpa using hc)]

/-- C11 as stated fails: after `enter()` no override id is set, and the Ok controller-list
response with the two rows of `example_mixed_controller_list` (a PSMove with id 0, a PSNavi
with id 1) issues one start-stream request and opens one session, for id 0 only. -/
theorem C11_navi_row_is_not_started :
    example_entered_stage.m_overrideControllerId = -1 ∧
    example_mixed_controller_list.length = 2 ∧
    ((handle_controller_list_response false example_allocate_mixed_view example_entered_stage
        _clientPSMoveResultCode_ok
        (ResponsePayload._responsePayloadType_ControllerList
          example_mixed_controller_list)).map
      (fun s => (s.m_pendingControllerStartCount, s.m_controllerViews.map Prod.fst))) =
        some (1, [0]) ∧
    ((handle_controller_list_response false example_allocate_mixed_view example_entered_stage
        _clientPSMoveResultCode_ok
        (ResponsePayload._responsePayloadType_ControllerList
          example_mixed_controller_list)).map
      (fun s => s.calls.filterMap (fun c =>
        match c with
        | ApiCall.start_controller_data_stream ControllerID _ => some ControllerID
        | _ => none))) = some [0] := by
  decide

/-- C11 (amended): an Ok controller-list response that arrives outside
`pendingControllerStartRequest`, with pairwise distinct ids on the rows of type PSMove or
PSDualShock4, acts as follows. Without override id (-1) and with at least one such row, it
returns in `pendingControllerStartRequest` with exactly one start request and one session
per row of type PSMove or PSDualShock4 (each session under the id of its row, holding the
list index and colour of the row), sessions of a previous pass being gone; rows of any other
type are not started. With an override id that occurs in the list, it issues exactly one
start request, for that id with the list index of its first occurrence, and holds that one
session. When nothing is started (no row of the two types, or the override id not in the
list) the state becomes `failedControllerListRequest`. -/
theorem C11_controller_list_response_requests (ndebug : Bool)
    (allocate_controller_view : Int → StageControllerView)
    (s : AppStage_ComputeTrackerPoses) (controller_list : List ControllerListEntry)
    (hs : s.m_menuState ≠ pendingControllerStartRequest)
    (hnodup : ((controller_list.filter (fun c =>
      decide (c.controller_type = eControllerType.PSMove ∨
        c.controller_type = eControllerType.PSDualShock4))).map
          (fun c => c.controller_id)).Nodup) :
    (s.m_overrideControllerId = -1 →
      (∃ c ∈ controller_list, c.controller_type = eControllerType.PSMove ∨
        c.controller_type = eControllerType.PSDualShock4) →
      ∃ s1, handle_controller_list_response ndebug allocate_controller_view s
          _clientPSMoveResultCode_ok
          (ResponsePayload._responsePayloadType_ControllerList controller_list) = some s1 ∧
        s1.m_menuState = pendingControllerStartRequest ∧
        s1.m_pendingControllerStartCount =
          controller_list.countP (fun c => decide (c.controller_type = eControllerType.PSMove ∨
            c.controller_type = eControllerType.PSDualShock4)) ∧
        s1.m_controllerViews.length =
          controller_list.countP (fun c => decide (c.controller_type = eControllerType.PSMove ∨
            c.controller_type = eControllerType.PSDualShock4)) ∧
        (∀ k, k ∈ s1.m_controllerViews.map Prod.fst ↔
          ∃ c ∈ controller_list, (c.controller_type = eControllerType.PSMove ∨
            c.controller_type = eControllerType.PSDualShock4) ∧ c.controller_id = k) ∧
        (∀ (j : Nat) (c : ControllerListEntry), controller_list[j]? = some c →
          (c.controller_type = eControllerType.PSMove ∨
            c.controller_type = eControllerType.PSDualShock4) →
          map_find s1.m_controllerViews c.controller_id =
            some { listIndex := j, controllerView := allocate_controller_view c.controller_id,
                   trackingColorType := c.tracking_color_type }) ∧
        s1.calls = (onExitState s s.m_menuState).calls ++
          start_request_calls allocate_controller_view s.m_bSkipCalibration
            (listed_start_requests controller_list 0) ∧
        (listed_start_requests controller_list 0).length =
          controller_list.countP (fun c => decide (c.controller_type = eControllerType.PSMove ∨
            c.controller_type = eControllerType.PSDualShock4))) ∧
    (s.m_overrideControllerId ≠ -1 →
      ∀ (j : Nat) (c : ControllerListEntry), controller_list[j]? = some c →
        c.controller_id = s.m_overrideControllerId →
        (∀ (i : Nat) (c1 : ControllerListEntry), i < j → controller_list[i]? = some c1 →
          c1.controller_id ≠ s.m_overrideControllerId) →
        ∃ s1, handle_controller_list_response ndebug allocate_controller_view s
            _clientPSMoveResultCode_ok
            (ResponsePayload._responsePayloadType_ControllerList controller_list) = some s1 ∧
          s1.m_menuState = pendingControllerStartRequest ∧
          s1.m_pendingControllerStartCount = 1 ∧
          s1.m_controllerViews =
            [(s.m_overrideControllerId,
              { listIndex := j,
                controllerView := allocate_controller_view s.m_overrideControllerId,
                trackingColorType := c.tracking_color_type })] ∧
          s1.calls = (onExitState s s.m_menuState).calls ++
            [ApiCall.allocate_controller_view s.m_overrideControllerId,
             ApiCall.start_controller_data_stream
              (allocate_controller_view s.m_overrideControllerId).ControllerID
              (start_controller_flags s.m_bSkipCalibration)]) ∧
    (((s.m_overrideControllerId = -1 ∧
        ∀ c ∈ controller_list, ¬ (c.controller_type = eControllerType.PSMove ∨
          c.controller_type = eControllerType.PSDualShock4)) ∨
      (s.m_overrideControllerId ≠ -1 ∧
        ∀ c ∈ controller_list, c.controller_id ≠ s.m_overrideControllerId)) →
      handle_controller_list_response ndebug allocate_controller_view s
          _clientPSMoveResultCode_ok
          (ResponsePayload._responsePayloadType_ControllerList controller_list) =
        some (setState s failedControllerListRequest) ∧
      (setState s failedControllerListRequest).m_menuState = failedControllerListRequest) := by
  refine ⟨fun hov hex => ?_, fun hov j c hj hc hfirst => ?_, fun hnone => ?_⟩
  · have hreq : controller_start_requests s.m_overrideControllerId controller_list =
        listed_start_requests controller_list 0 := by
      unfold controller_start_requests
      rw [if_pos hov]
    have hne : listed_start_requests controller_list 0 ≠ [] := by
      intro hnil
      obtain ⟨c, hc, hty⟩ := hex
      exact (listed_start_requests_eq_nil controller_list 0).mp hnil c hc hty
    have hnd : ((listed_start_requests controller_list 0).map (fun r => r.1)).Nodup := by
      rw [listed_start_requests_ids]
      exact hnodup
    obtain ⟨s1, h1, h2, h3⟩ := start_requests_sessions ndebug allocate_controller_view
      (listed_start_requests controller_list 0) s hs hne hnd
    obtain ⟨d1, d2, _, _, d5⟩ := start_requests_count ndebug allocate_controller_view
      (listed_start_requests controller_list 0) s s1 hs hne h1
    have hfind := start_requests_find ndebug allocate_controller_view
      (listed_start_requests controller_list 0) s s1 hs hnd h1
    have hlen := listed_start_requests_length controller_list 0
    refine ⟨s1, ?_, d1, ?_, ?_, ?_, ?_, d5, hlen⟩
    · rw [handle_controller_list_response_ok, hreq, if_neg hne]
      exact h1
    · rw [d2, hlen]
    · rw [h2, hlen]
    · intro k
      rw [h3, listed_start_requests_ids, List.mem_map]
      constructor
      · rintro ⟨c, hc, rfl⟩
        rw [List.mem_filter] at hc
        exact ⟨c, hc.1, by simpa using hc.2, rfl⟩
      · rintro ⟨c, hc, hty, rfl⟩
        exact ⟨c, List.mem_filter.mpr ⟨hc, by simpa using hty⟩, rfl⟩
    · intro j c hj hty
      have hmem : (c.controller_id, (0 : Int) + j, c.tracking_color_type) ∈
          listed_start_requests controller_list 0 :=
        (listed_start_requests_mem controller_list 0 _).mpr ⟨j, c, hj, hty, rfl⟩
      have := hfind _ hmem
      simpa using this
  · have hfound := find_override_controller_first s.m_overrideControllerId controller_list 0
      j c hj hc hfirst
    have hreq : controller_start_requests s.m_overrideControllerId controller_list =
        [(s.m_overrideControllerId, (0 : Int) + j, c.tracking_color_type)] := by
      unfold controller_start_requests
      rw [if_neg hov, hfound, if_pos hov]
    have habs : map_find
        (if s.m_menuState = pendingControllerStartRequest then s.m_controllerViews else [])
        s.m_overrideControllerId = none := by
      rw [if_neg hs]
      rfl
    obtain ⟨s1, h1⟩ := request_start_controller_stream_isSome ndebug allocate_controller_view
      s s.m_overrideControllerId ((0 : Int) + j) c.tracking_color_type habs
    obtain ⟨a1, a2, a3, _, _, a6⟩ := request_start_controller_stream_some ndebug
      allocate_controller_view s s1 _ _ _ h1
    rw [if_neg hs] at a2 a3
    refine ⟨s1, ?_, a1, by rw [a2]; rfl, ?_, a6⟩
    · rw [handle_controller_list_response_ok, hreq, if_neg (List.cons_ne_nil _ _)]
      simp only [start_requests]
      rw [h1]
    · rw [a3]
      simp [map_insert, map_find]
  · have hreq : controller_start_requests s.m_overrideControllerId controller_list = [] := by
      unfold controller_start_requests
      rcases hnone with ⟨hov, hall⟩ | ⟨hov, hall⟩
      · rw [if_pos hov]
        exact (listed_start_requests_eq_nil controller_list 0).mpr hall
      · rw [if_neg hov]
        have := (find_override_controller_none s.m_overrideControllerId controller_list 0
          hov).mpr hall
        rw [if_neg (not_not.mpr this)]
    refine ⟨?_, setState_menuState _ _⟩
    rw [handle_controller_list_response_ok, if_pos hreq]

theorem C11_controller_list_response_requests_witness :
    example_entered_stage.m_overrideControllerId = -1 ∧
    ∃ s1, handle_controller_list_response false example_allocate_mixed_view
        example_entered_stage _clientPSMoveResultCode_ok
        (ResponsePayload._responsePayloadType_ControllerList example_mixed_controller_list) =
          some s1 ∧
      s1.m_pendingControllerStartCount = 1 ∧ s1.m_controllerViews.length = 1 := by
  obtain ⟨s1, h1, _, h3, h4, _⟩ := (C11_controller_list_response_requests false
    example_allocate_mixed_view example_entered_stage example_mixed_controller_list
    (by decide) (by decide)).1 (by decide) ⟨_, List.mem_cons_self _ _, Or.inl rfl⟩
  refine ⟨by decide, s1, h1, ?_, ?_⟩
  · rw [h3]
    decide
  · rw [h4]
    decide

theorem map_assign_keys {V : Type} (m : List (Int × V)) (key : Int) (value : V) :
    (map_assign m key value).map Prod.fst = m.map Prod.fst := by
  induction m with
  | nil => rfl
  | cons kv rest ih =>
    obtain ⟨k, v⟩ := kv
    rw [map_assign]
    by_cases hk : k = key
    · rw [if_pos hk]
      rfl
    · rw [if_neg hk, List.map_cons, List.map_cons, ih]

theorem map_find_map_assign_self {V : Type} (m : List (Int × V)) (key : Int) (value v0 : V)
    (h : map_find m key = some v0) : map_find (map_assign m key value) key = some value := by
  induction m with
  | nil => simp [map_find] at h
  | cons kv rest ih =>
    obtain ⟨k, v⟩ := kv
    rw [map_assign]
    rw [map_find] at h
    by_cases hk : k = key
    · rw [if_pos hk, map_find, if_pos hk]
    · rw [if_neg hk] at h
      rw [if_neg hk, map_find, if_neg hk]
      exact ih h

theorem map_find_map_assign_ne {V : Type} (m : List (Int × V)) (key key2 : Int) (value : V)
    (hne : key ≠ key2) : map_find (map_assign m key value) key2 = map_find m key2 := by
  induction m with
  | nil => rfl
  | cons kv rest ih =>
    obtain ⟨k, v⟩ := kv
    rw [map_assign]
    by_cases hk : k = key
    · rw [if_pos hk, map_find, map_find, if_neg (by rw [hk]; exact hne),
        if_neg (by rw [hk]; exact hne)]
    · rw [if_neg hk, map_find, map_find, ih]

theorem handle_all_devices_ready_fields (s : AppStage_ComputeTrackerPoses) :
    (handle_all_devices_ready s).m_menuState =
      (if s.m_bSkipCalibration = true then testTracking else verifyTrackers) ∧
    (handle_all_devices_ready s).m_trackerViews = s.m_trackerViews ∧
    (handle_all_devices_ready s).m_pendingTrackerStartCount = s.m_pendingTrackerStartCount ∧
    (handle_all_devices_ready s).m_bSkipCalibration = s.m_bSkipCalibration := by
  unfold handle_all_devices_ready
  cases hb : s.m_bSkipCalibration
  · simp only [Bool.not_false, if_true, Bool.false_eq_true, if_false]
    exact ⟨setState_menuState _ _, (setState_tracker_fields _ _ (by decide)).1,
      (setState_tracker_fields _ _ (by decide)).2, by rw [setState_bSkipCalibration, hb]⟩
  · simp only [Bool.not_true, Bool.false_eq_true, if_false, if_true]
    exact ⟨setState_menuState _ _, (setState_tracker_fields _ _ (by decide)).1,
      (setState_tracker_fields _ _ (by decide)).2, by rw [setState_bSkipCalibration, hb]⟩

/-- An Ok tracker start-stream response for a tracker id that has a session: the handler
returns, the count goes down by one, the session of that id gets the texture if the video
stream opens, and the machine moves on when the count has reached zero. -/
theorem handle_tracker_start_stream_response_ok (s : AppStage_ComputeTrackerPoses)
    (tracker_id : Int) (openVideoStream : Bool) (width height : Int)
    (trackerState : TrackerState)
    (hfind : map_find s.m_trackerViews tracker_id = some trackerState) :
    ∃ s1, handle_tracker_start_stream_response s _clientPSMoveResultCode_ok tracker_id
        openVideoStream width height = some s1 ∧
      s1.m_pendingTrackerStartCount = s.m_pendingTrackerStartCount - 1 ∧
      s1.m_trackerViews = map_assign s.m_trackerViews tracker_id
        (if openVideoStream = true then
          { trackerState with
            trackerView := { trackerState.trackerView with videoStreamOpen := true }
            textureAsset := some { width := width, height := height } }
        else trackerState) ∧
      s1.m_bSkipCalibration = s.m_bSkipCalibration ∧
      s1.m_menuState =
        (if s.m_pendingTrackerStartCount - 1 ≤ 0 then
          (if s.m_bSkipCalibration = true then testTracking else verifyTrackers)
        else s.m_menuState) := by
  unfold handle_tracker_start_stream_response
  simp only [hfind, record]
  by_cases hc : s.m_pendingTrackerStartCount - 1 ≤ 0
  · rw [if_pos hc, if_pos hc]
    obtain ⟨f1, f2, f3, f4⟩ := handle_all_devices_ready_fields
      { s with
        calls := s.calls ++ [ApiCall.openVideoStream trackerState.trackerView.tracker_id]
        m_trackerViews := map_assign s.m_trackerViews tracker_id
          (if openVideoStream = true then
            { trackerState with
              trackerView := { trackerState.trackerView with videoStreamOpen := true }
              textureAsset := some { width := width, height := height } }
          else trackerState)
        m_pendingTrackerStartCount := s.m_pendingTrackerStartCount - 1 }
    exact ⟨_, rfl, f3, f2, f4, f1⟩
  · rw [if_neg hc, if_neg hc]
    exact ⟨_, rfl, rfl, rfl, rfl, rfl⟩

/-- A run of Ok tracker start-stream responses, no longer than the pending count, for
tracker ids that have sessions: every response takes one off the count, the machine stays in
`pendingTrackerStartRequest` until the count is zero and then moves on. -/
theorem deliver_tracker_start_responses_ok (responses : List TrackerStartResponse)
    (s : AppStage_ComputeTrackerPoses)
    (hs : s.m_menuState = pendingTrackerStartRequest)
    (hne : responses ≠ [])
    (hlen : (responses.length : Int) ≤ s.m_pendingTrackerStartCount)
    (hok : ∀ r ∈ responses, r.result_code = _clientPSMoveResultCode_ok ∧
      r.tracker_id ∈ s.m_trackerViews.map Prod.fst) :
    ∃ s1, deliver_tracker_start_responses responses s = some s1 ∧
      s1.m_pendingTrackerStartCount = s.m_pendingTrackerStartCount - responses.length ∧
      s1.m_trackerViews.map Prod.fst = s.m_trackerViews.map Prod.fst ∧
      s1.m_menuState =
        (if (responses.length : Int) = s.m_pendingTrackerStartCount then
          (if s.m_bSkipCalibration = true then testTracking else verifyTrackers)
        else pendingTrackerStartRequest) := by
  induction responses generalizing s with
  | nil => exact absurd rfl hne
  | cons r rest ih =>
    obtain ⟨hrc, hid⟩ := hok r (List.mem_cons_self r rest)
    have hsome : (map_find s.m_trackerViews r.tracker_id).isSome = true :=
      (map_find_isSome_iff _ _).mpr hid
    obtain ⟨ts, hts⟩ := Option.isSome_iff_exists.mp hsome
    obtain ⟨s2, e1, e2, e3, e4, e5⟩ := handle_tracker_start_stream_response_ok s r.tracker_id
      r.openVideoStream r.width r.height ts hts
    rw [List.length_cons] at hlen
    push_cast at hlen
    rw [deliver_tracker_start_responses, hrc, e1]
    simp only
    cases rest with
    | nil =>
      refine ⟨s2, rfl, ?_, ?_, ?_⟩
      · rw [e2]
        simp
      · rw [e3, map_assign_keys]
      · rw [e5]
        simp only [List.length_cons, List.length_nil, Nat.zero_add, Nat.cast_one]
        simp only [List.length_nil, Nat.cast_zero, zero_add] at hlen
        by_cases h1 : s.m_pendingTrackerStartCount = 1
        · rw [h1]
          simp
        · rw [if_neg (by omega), if_neg (fun h => h1 h.symm), hs]
    | cons r2 rest2 =>
      have hcount : ¬ s.m_pendingTrackerStartCount - 1 ≤ 0 := by
        rw [List.length_cons] at hlen
        push_cast at hlen
        omega
      rw [if_neg hcount, hs] at e5
      have hok2 : ∀ q ∈ r2 :: rest2, q.result_code = _clientPSMoveResultCode_ok ∧
          q.tracker_id ∈ s2.m_trackerViews.map Prod.fst := by
        intro q hq
        rw [e3, map_assign_keys]
        exact hok q (List.mem_cons_of_mem r hq)
      obtain ⟨s1, c1, c2, c3, c4⟩ := ih s2 e5 (List.cons_ne_nil _ _)
        (by rw [e2]; omega) hok2
      refine ⟨s1, c1, ?_, ?_, ?_⟩
      · rw [c2, e2]
        simp only [List.length_cons]
        push_cast
        ring
      · rw [c3, e3, map_assign_keys]
      · rw [c4, e2, e4]
        simp only [List.length_cons]
        push_cast
        by_cases hfin : (rest2.length : Int) + 1 + 1 = s.m_pendingTrackerStartCount
        · rw [if_pos (by omega), if_pos hfin]
        · rw [if_neg (by omega), if_neg hfin]

/-- C12: in `pendingTrackerStartRequest` with at least one start request outstanding, an Ok
tracker start-stream response for a tracker id that has a session returns and takes one off
`m_pendingTrackerStartCount` whether or not the video stream opens; the session of that id
gets a texture of the reported size if and only if it opens and keeps its (null) texture
otherwise, and the state is never a failure state; the response that brings the count to
zero moves the machine to `verifyTrackers` when calibration is not skipped and to
`testTracking` when it is, every earlier one leaves it in `pendingTrackerStartRequest`; a
run of as many Ok responses as the count ends with count zero in that state; and an Error or
Canceled response sets `failedTrackerStartRequest`. -/
theorem C12_tracker_start_responses (s : AppStage_ComputeTrackerPoses)
    (hs : s.m_menuState = pendingTrackerStartRequest)
    (hcount : 1 ≤ s.m_pendingTrackerStartCount) :
    (∀ (tracker_id : Int) (openVideoStream : Bool) (width height : Int)
        (trackerState : TrackerState),
      map_find s.m_trackerViews tracker_id = some trackerState →
      ∃ s1 trackerState1, handle_tracker_start_stream_response s _clientPSMoveResultCode_ok
          tracker_id openVideoStream width height = some s1 ∧
        s1.m_pendingTrackerStartCount = s.m_pendingTrackerStartCount - 1 ∧
        map_find s1.m_trackerViews tracker_id = some trackerState1 ∧
        trackerState1.textureAsset =
          (if openVideoStream = true then some { width := width, height := height }
            else trackerState.textureAsset) ∧
        (∀ k, k ≠ tracker_id → map_find s1.m_trackerViews k = map_find s.m_trackerViews k) ∧
        s1.m_menuState =
          (if s.m_pendingTrackerStartCount = 1 then
            (if s.m_bSkipCalibration = true then testTracking else verifyTrackers)
          else pendingTrackerStartRequest) ∧
        s1.m_menuState ≠ failedTrackerStartRequest) ∧
    (∀ responses : List TrackerStartResponse,
      (responses.length : Int) = s.m_pendingTrackerStartCount →
      (∀ r ∈ responses, r.result_code = _clientPSMoveResultCode_ok ∧
        r.tracker_id ∈ s.m_trackerViews.map Prod.fst) →
      ∃ s1, deliver_tracker_start_responses responses s = some s1 ∧
        s1.m_pendingTrackerStartCount = 0 ∧
        s1.m_menuState =
          (if s.m_bSkipCalibration = true then testTracking else verifyTrackers)) ∧
    (∀ (result_code : eClientPSMoveResultCode) (tracker_id : Int) (openVideoStream : Bool)
        (width height : Int),
      result_code ≠ _clientPSMoveResultCode_ok →
      handle_tracker_start_stream_response s result_code tracker_id openVideoStream width
          height = some (setState s failedTrackerStartRequest) ∧
        (setState s failedTrackerStartRequest).m_menuState = failedTrackerStartRequest) := by
  refine ⟨?_, ?_, ?_⟩
  · intro tracker_id openVideoStream width height trackerState hfind
    obtain ⟨s1, e1, e2, e3, _, e5⟩ := handle_tracker_start_stream_response_ok s tracker_id
      openVideoStream width height trackerState hfind
    have hstate : s1.m_menuState =
        (if s.m_pendingTrackerStartCount = 1 then
          (if s.m_bSkipCalibration = true then testTracking else verifyTrackers)
        else pendingTrackerStartRequest) := by
      rw [e5]
      by_cases h1 : s.m_pendingTrackerStartCount = 1
      · rw [if_pos (by omega), if_pos h1]
      · rw [if_neg (by omega), if_neg h1, hs]
    refine ⟨s1,
      (if openVideoStream = true then
        { trackerState with
          trackerView := { trackerState.trackerView with videoStreamOpen := true }
          textureAsset := some { width := width, height := height } }
      else trackerState), e1, e2, ?_, ?_, ?_, hstate, ?_⟩
    · rw [e3]
      exact map_find_map_assign_self _ _ _ _ hfind
    · cases openVideoStream <;> simp
    · intro k hk
      rw [e3]
      exact map_find_map_assign_ne _ _ _ _ (fun h => hk h.symm)
    · rw [hstate]
      split
      · split <;> decide
      · decide
  · intro responses hlen hok
    have hne : responses ≠ [] := by
      intro hnil
      rw [hnil] at hlen
      simp only [List.length_nil, Nat.cast_zero] at hlen
      omega
    obtain ⟨s1, c1, c2, _, c4⟩ := deliver_tracker_start_responses_ok responses s hs hne
      (le_of_eq hlen) hok
    refine ⟨s1, c1, ?_, ?_⟩
    · rw [c2, hlen]
      ring
    · rw [c4, if_pos hlen]
  · intro result_code tracker_id openVideoStream width height hrc
    refine ⟨?_, setState_menuState _ _⟩
    cases result_code with
    | _clientPSMoveResultCode_ok => exact absurd rfl hrc
    | _clientPSMoveResultCode_error => rfl
    | _clientPSMoveResultCode_canceled => rfl

theorem C12_tracker_start_responses_witness :
    (example_tracker_request_in_flight.getD create).m_pendingTrackerStartCount = 1 ∧
    ∃ s1, handle_tracker_start_stream_response (example_tracker_request_in_flight.getD create)
        _clientPSMoveResultCode_ok 0 false 0 0 = some s1 ∧
      s1.m_pendingTrackerStartCount = 0 ∧ s1.m_menuState = verifyTrackers := by
  have hcount : (example_tracker_request_in_flight.getD create).m_pendingTrackerStartCount = 1 :=
    by decide
  have hskip : (example_tracker_request_in_flight.getD create).m_bSkipCalibration = false :=
    by decide
  have hfind : map_find (example_tracker_request_in_flight.getD create).m_trackerViews 0 =
      some { listIndex := 0, trackerView := { tracker_id := 0, videoStreamOpen := false },
             textureAsset := none } := by decide
  obtain ⟨s1, _, h1, h2, _, _, _, h6, _⟩ := (C12_tracker_start_responses
    (example_tracker_request_in_flight.getD create) (by decide) (by decide)).1
    0 false 0 0 _ hfind
  refine ⟨hcount, s1, h1, ?_, ?_⟩
  · rw [h2, hcount]
    rfl
  · rw [h6, if_pos hcount, hskip]
    rfl

end AppStage_ComputeTrackerPoses

/-! ## Further properties of the controller view -/

section ControllerViewTrigger

open ClientControllerView

/-- C22: for every view, `GetTriggerValue()` is `TriggerValue / 255` over the 8-bit raw value
when `GetIsConnected()` holds and 0 otherwise; it always lies in `[0, 1]`, it is 1 exactly
when the view is connected and the raw value is 255, and it is 0 exactly when the view is
not connected or the raw value is 0. -/
theorem C22_trigger_value_range (v : ClientControllerView) :
    v.GetTriggerValue =
      (if v.GetIsConnected = true then (v.TriggerValue.val : ℚ) / 255 else 0) ∧
    0 ≤ v.GetTriggerValue ∧ v.GetTriggerValue ≤ 1 ∧
    (v.GetTriggerValue = 1 ↔ v.GetIsConnected = true ∧ v.TriggerValue = 255) ∧
    (v.GetTriggerValue = 0 ↔ v.GetIsConnected = false ∨ v.TriggerValue = 0) := by
  have hlt : v.TriggerValue.val < 256 := v.TriggerValue.isLt
  have hq : ((v.TriggerValue.val : ℕ) : ℚ) ≤ 255 := by
    have : v.TriggerValue.val ≤ 255 := by omega
    exact_mod_cast this
  have h0 : (0 : ℚ) ≤ (v.TriggerValue.val : ℚ) := Nat.cast_nonneg _
  have hval255 : v.TriggerValue = 255 ↔ v.TriggerValue.val = 255 := by
    rw [Fin.ext_iff]
    rfl
  have hval0 : v.TriggerValue = 0 ↔ v.TriggerValue.val = 0 := by
    rw [Fin.ext_iff]
    rfl
  unfold GetTriggerValue
  cases hc : v.GetIsConnected
  · simp
  · simp only [if_true, true_and, Bool.true_eq_false, false_or]
    refine ⟨by positivity, ?_, ?_, ?_⟩
    · rw [div_le_one (by norm_num)]
      exact hq
    · rw [div_eq_one_iff_eq (by norm_num), hval255]
      exact_mod_cast Iff.rfl
    · rw [div_eq_zero_iff, hval0]
      constructor
      · rintro (h | h)
        · exact_mod_cast h
        · norm_num at h
      · intro h
        left
        exact_mod_cast h

end ControllerViewTrigger

/-! ## Properties of the math utilities -/

namespace MathUtility

/-- For a non-negative dividend and the divisor 360, `fmodf` is 360 times the fractional part
of the quotient. -/
theorem fmodf_360_of_nonneg (x : ℚ) (hx : 0 ≤ x) :
    fmodf x 360 = 360 * Int.fract (x / 360) := by
  unfold fmodf
  rw [if_pos (div_nonneg hx (by norm_num))]
  unfold Int.fract
  field_simp
  ring

/-- For a negative dividend and the divisor 360, `fmodf` rounds the quotient up. -/
theorem fmodf_360_of_neg (x : ℚ) (hx : x < 0) :
    fmodf x 360 = x - ⌈x / 360⌉ * 360 := by
  unfold fmodf
  rw [if_neg (not_le.mpr (div_neg_of_neg_of_pos hx (by norm_num)))]

theorem wrap_degrees_of_ge (angle : ℚ) (h : -360 ≤ angle) :
    wrap_degrees angle = 360 * Int.fract ((angle + 360) / 360) := by
  unfold wrap_degrees
  exact fmodf_360_of_nonneg _ (by linarith)

theorem wrap_degrees_range_of_ge (angle : ℚ) (h : -360 ≤ angle) :
    0 ≤ wrap_degrees angle ∧ wrap_degrees angle < 360 := by
  rw [wrap_degrees_of_ge angle h]
  have h0 := Int.fract_nonneg ((angle + 360) / 360)
  have h1 := Int.fract_lt_one ((angle + 360) / 360)
  constructor
  · positivity
  · linarith

theorem wrap_degrees_of_mem (y : ℚ) (h0 : 0 ≤ y) (h1 : y < 360) : wrap_degrees y = y := by
  rw [wrap_degrees_of_ge y (by linarith)]
  have hfloor : ⌊(y + 360) / 360⌋ = 1 := by
    rw [Int.floor_eq_iff]
    constructor
    · rw [le_div_iff₀ (by norm_num)]
      push_cast
      linarith
    · rw [div_lt_iff₀ (by norm_num)]
      push_cast
      linarith
  unfold Int.fract
  rw [hfloor]
  push_cast
  field_simp

/-- C29 as stated fails: `wrap_degrees(-400)` is `fmod(-40, 360) = -40`, which is negative;
wrapping it again gives 320, and `wrap_degrees(-400 + 360)` is 320 as well. -/
theorem C29_wrap_degrees_below_range :
    wrap_degrees (-400) = -40 ∧ ¬ (0 ≤ wrap_degrees (-400)) ∧
    wrap_degrees (wrap_degrees (-400)) = 320 ∧
    wrap_degrees (wrap_degrees (-400)) ≠ wrap_degrees (-400) ∧
    wrap_degrees (-400 + 360) = 320 ∧
    wrap_degrees (-400 + 360) ≠ wrap_degrees (-400) := by
  have h1 : wrap_degrees (-400) = -40 := by norm_num [wrap_degrees, fmodf]
  have h2 : wrap_degrees (-40) = 320 := by norm_num [wrap_degrees, fmodf]
  have h3 : wrap_degrees (-400 + 360) = 320 := by norm_num [wrap_degrees, fmodf]
  refine ⟨h1, ?_, ?_, ?_, h3, ?_⟩
  · rw [h1]
    norm_num
  · rw [h1, h2]
  · rw [h1, h2]
    norm_num
  · rw [h1, h3]
    norm_num

/-- C29 (amended): in exact arithmetic with `fmod` the truncated remainder, for every angle
`wrap_degrees(angle)` differs from the angle by an integer multiple of 360; for every angle
of at least -360 it lies in `[0, 360)`, wrapping it again returns the same value, and
`wrap_degrees(angle + 360)` equals `wrap_degrees(angle)`; for an angle below -360 the
result is negative or zero and above -360. -/
theorem C29_wrap_degrees_from_minus_360 (angle : ℚ) :
    (∃ k : ℤ, wrap_degrees angle = angle + k * 360) ∧
    (-360 ≤ angle →
      0 ≤ wrap_degrees angle ∧ wrap_degrees angle < 360 ∧
      wrap_degrees (wrap_degrees angle) = wrap_degrees angle ∧
      wrap_degrees (angle + 360) = wrap_degrees angle) ∧
    (angle < -360 → -360 < wrap_degrees angle ∧ wrap_degrees angle ≤ 0) := by
  refine ⟨?_, fun h => ?_, fun h => ?_⟩
  · unfold wrap_degrees fmodf
    refine ⟨1 - (if 0 ≤ (angle + 360) / 360 then ⌊(angle + 360) / 360⌋
      else ⌈(angle + 360) / 360⌉), ?_⟩
    push_cast
    ring
  · obtain ⟨h0, h1⟩ := wrap_degrees_range_of_ge angle h
    refine ⟨h0, h1, wrap_degrees_of_mem _ h0 h1, ?_⟩
    rw [wrap_degrees_of_ge angle h, wrap_degrees_of_ge (angle + 360) (by linarith)]
    have : (angle + 360 + 360) / 360 = (angle + 360) / 360 + 1 := by
      field_simp
    rw [this, Int.fract_add_one]
  · unfold wrap_degrees
    rw [fmodf_360_of_neg _ (by linarith)]
    have hc1 := Int.ceil_lt_add_one ((angle + 360) / 360)
    have hc2 := Int.le_ceil ((angle + 360) / 360)
    rw [div_le_iff₀ (by norm_num)] at hc2
    have hc3 : (angle + 360) / 360 + 1 = (angle + 360 + 360) / 360 := by
      field_simp
    rw [hc3, lt_div_iff₀ (by norm_num)] at hc1
    constructor <;> linarith

/-- C30 as stated fails: with `a = 1 > b = 0`, `lerp_clampf(1, 0, 0)` is 0 although
`lerpf(1, 0, clampf01(0))` is `a = 1`, and `lerp_clampf(1, 0, 1/2)` is 0 although the
interpolant is 1/2. -/
theorem C30_lerp_clampf_descending :
    lerp_clampf 1 0 0 = 0 ∧ lerpf 1 0 (clampf01 0) = 1 ∧
    lerp_clampf 1 0 (1 / 2) = 0 ∧ lerpf 1 0 (clampf01 (1 / 2)) = 1 / 2 := by
  norm_num [lerp_clampf, lerpf, clampf01, clampf, fminf, fmaxf]

theorem clampf01_eq (u : ℚ) :
    clampf01 u = if u < 0 then 0 else if 1 < u then 1 else u := by
  unfold clampf01 clampf fminf fmaxf
  by_cases h0 : u < 0
  · rw [if_pos h0, if_pos h0, if_neg (by norm_num)]
  · rw [if_neg h0, if_neg h0]

/-- C30 (amended): in exact arithmetic, for `a <= b` and every `u`,
`lerp_clampf(a, b, u) = lerpf(a, b, clampf01(u))`: the interpolant `a*(1-u) + b*u` for `u`
in `[0, 1]` (so `a` at 0 and `b` at 1), `a` for `u < 0` and `b` for `u > 1`; for `a > b` it
is `b` for every `u`. -/
theorem C30_lerp_clampf_ascending (a b u : ℚ) :
    (a ≤ b →
      lerp_clampf a b u = lerpf a b (clampf01 u) ∧
      (0 ≤ u → u ≤ 1 → lerp_clampf a b u = a * (1 - u) + b * u) ∧
      lerp_clampf a b 0 = a ∧ lerp_clampf a b 1 = b ∧
      (u < 0 → lerp_clampf a b u = a) ∧
      (1 < u → lerp_clampf a b u = b)) ∧
    (b < a → lerp_clampf a b u = b) := by
  have key : ∀ v : ℚ, a ≤ b → lerp_clampf a b v = lerpf a b (clampf01 v) := by
    intro v hab
    rw [clampf01_eq]
    unfold lerp_clampf clampf fminf fmaxf lerpf
    have hba : 0 ≤ b - a := by linarith
    by_cases h0 : v < 0
    · rw [if_pos h0]
      have hlt : a * (1 - v) + b * v ≤ a := by nlinarith
      by_cases heq : a * (1 - v) + b * v < a
      · rw [if_pos heq]
        by_cases hb : b < a
        · exact absurd hab (not_le.mpr hb)
        · rw [if_neg hb]
          ring
      · rw [if_neg heq]
        have he : a * (1 - v) + b * v = a := le_antisymm hlt (not_lt.mp heq)
        rw [he, if_neg (not_lt.mpr hab)]
        ring
    · rw [if_neg h0]
      have hge : a ≤ a * (1 - v) + b * v := by nlinarith [not_lt.mp h0]
      rw [if_neg (not_lt.mpr hge)]
      by_cases h1 : 1 < v
      · rw [if_pos h1]
        by_cases hb : b < a * (1 - v) + b * v
        · rw [if_pos hb]
          ring
        · rw [if_neg hb]
          have : a * (1 - v) + b * v = b := by nlinarith [not_lt.mp hb]
          rw [this]
          ring
      · rw [if_neg h1]
        have hle : a * (1 - v) + b * v ≤ b := by nlinarith [not_lt.mp h1]
        rw [if_neg (not_lt.mpr hle)]
  refine ⟨fun hab => ⟨key u hab, ?_, ?_, ?_, ?_, ?_⟩, fun hba => ?_⟩
  · intro h0 h1
    rw [key u hab, clampf01_eq, if_neg (not_lt.mpr h0), if_neg (not_lt.mpr h1)]
    rfl
  · rw [key 0 hab, clampf01_eq]
    norm_num [lerpf]
  · rw [key 1 hab, clampf01_eq]
    norm_num [lerpf]
  · intro h0
    rw [key u hab, clampf01_eq, if_pos h0]
    norm_num [lerpf]
  · intro h1
    rw [key u hab, clampf01_eq, if_neg (by linarith), if_pos h1]
    norm_num [lerpf]
  · unfold lerp_clampf clampf fminf fmaxf
    by_cases h : lerpf a b u < a
    · rw [if_pos h, if_pos hba]
    · rw [if_neg h, if_pos (lt_of_lt_of_le hba (not_lt.mp h))]

theorem C30_lerp_clampf_ascending_witness :
    lerp_clampf 0 10 (1 / 2) = 5 ∧ lerp_clampf 0 10 (-3) = 0 ∧ lerp_clampf 0 10 7 = 10 := by
  obtain ⟨_, h2, _, _, h5, h6⟩ := (C30_lerp_clampf_ascending 0 10 (1 / 2)).1 (by norm_num)
  have h3 := ((C30_lerp_clampf_ascending 0 10 (-3)).1 (by norm_num)).2.2.2.2.1 (by norm_num)
  have h4 := ((C30_lerp_clampf_ascending 0 10 7).1 (by norm_num)).2.2.2.2.2 (by norm_num)
  refine ⟨?_, h3, h4⟩
  rw [h2 (by norm_num) (by norm_num)]
  norm_num

theorem C29_wrap_degrees_from_minus_360_witness :
    wrap_degrees (-90) = 270 ∧ wrap_degrees (wrap_degrees (-90)) = wrap_degrees (-90) := by
  have h := (C29_wrap_degrees_from_minus_360 (-90)).2.1 (by norm_num)
  refine ⟨?_, h.2.2.1⟩
  norm_num [wrap_degrees, fmodf]

end MathUtility

/-! ## Loop passes and handle lifetime of the HID controller enumerator -/

namespace ControllerHidDeviceEnumerator

theorem advance_cur_dev_fields (win32 : Bool) (e : ControllerHidDeviceEnumerator) :
    (advance_cur_dev win32 e).2.m_deviceType = e.m_deviceType ∧
    (advance_cur_dev win32 e).2.devs = e.devs ∧
    (advance_cur_dev win32 e).2.hid_calls = e.hid_calls ∧
    (advance_cur_dev win32 e).2.cur_dev = e.cur_dev.tail := by
  unfold advance_cur_dev
  cases h : e.cur_dev with
  | nil => exact ⟨rfl, rfl, rfl, h⟩
  | cons d rest => exact ⟨rfl, rfl, rfl, rfl⟩

/-- A device reported under a type other than PSMove is valid. -/
theorem is_valid_of_later_type (win32 : Bool) (e : ControllerHidDeviceEnumerator)
    (ht : e.m_deviceType ≠ CommonDeviceState.PSMove) (hc : e.cur_dev ≠ []) :
    is_valid win32 e = true := by
  unfold is_valid
  cases hcur : e.cur_dev with
  | nil => exact absurd hcur hc
  | cons d rest => simp [ht]

/-- What `open_next_type` leaves when it does not find a valid device: the next type and no
current device. -/
theorem open_next_type_not_found (win32 : Bool)
    (hid_enumerate : Nat → Nat → List hid_device_info) (e : ControllerHidDeviceEnumerator)
    (hcur : e.cur_dev = [])
    (h : (open_next_type win32 hid_enumerate e).1 = false) :
    (open_next_type win32 hid_enumerate e).2.m_deviceType = e.m_deviceType + 1 ∧
    (open_next_type win32 hid_enumerate e).2.cur_dev = [] := by
  obtain ⟨r1, r2, _, _, _⟩ := open_next_type_spec win32 hid_enumerate e hcur
  refine ⟨r2, ?_⟩
  by_contra hne
  have hv := is_valid_of_later_type win32 (open_next_type win32 hid_enumerate e).2
    (by rw [r2]; simp [CommonDeviceState.PSMove]) hne
  rw [← r1, h] at hv
  exact absurd hv (by simp)

/-- One pass of the loop of `next()` either finds a valid device, or moves `cur_dev` one node
along a non-empty list without changing the type, or ends with the next type and no current
device. -/
theorem next_iteration_progress (win32 : Bool)
    (hid_enumerate : Nat → Nat → List hid_device_info) (e : ControllerHidDeviceEnumerator) :
    (next_iteration win32 hid_enumerate e).1 = true ∨
    ((next_iteration win32 hid_enumerate e).2.m_deviceType = e.m_deviceType ∧
      e.cur_dev ≠ [] ∧ (next_iteration win32 hid_enumerate e).2.cur_dev = e.cur_dev.tail ∧
      e.cur_dev.tail ≠ []) ∨
    ((next_iteration win32 hid_enumerate e).2.m_deviceType = e.m_deviceType + 1 ∧
      (next_iteration win32 hid_enumerate e).2.cur_dev = []) := by
  obtain ⟨a1, _, _, a4⟩ := advance_cur_dev_fields win32 e
  unfold next_iteration
  simp only
  by_cases hc : (!(advance_cur_dev win32 e).1 && (advance_cur_dev win32 e).2.cur_dev.isEmpty)
      = true
  · rw [if_pos hc]
    simp only [Bool.and_eq_true, Bool.not_eq_true', List.isEmpty_iff] at hc
    cases hf : (open_next_type win32 hid_enumerate (advance_cur_dev win32 e).2).1
    · right
      right
      obtain ⟨b1, b2⟩ := open_next_type_not_found win32 hid_enumerate _ hc.2 hf
      exact ⟨by rw [b1, a1], b2⟩
    · left
      rfl
  · rw [if_neg hc]
    cases hf : (advance_cur_dev win32 e).1
    · right
      left
      simp only [hf, Bool.not_false, Bool.true_and, List.isEmpty_iff] at hc
      refine ⟨a1, ?_, a4, by rw [← a4]; exact hc⟩
      intro hnil
      apply hc
      rw [a4, hnil]
      rfl
    · left
      rfl

/-- Every pass of the loop of `next()` either increments `m_deviceType` or keeps it and moves
`cur_dev` one node along a non-empty list. -/
theorem next_iteration_step (win32 : Bool)
    (hid_enumerate : Nat → Nat → List hid_device_info) (e : ControllerHidDeviceEnumerator) :
    (next_iteration win32 hid_enumerate e).2.m_deviceType = e.m_deviceType + 1 ∨
    ((next_iteration win32 hid_enumerate e).2.m_deviceType = e.m_deviceType ∧
      e.cur_dev ≠ [] ∧ (next_iteration win32 hid_enumerate e).2.cur_dev = e.cur_dev.tail) := by
  obtain ⟨a1, _, _, a4⟩ := advance_cur_dev_fields win32 e
  unfold next_iteration
  simp only
  by_cases hc : (!(advance_cur_dev win32 e).1 && (advance_cur_dev win32 e).2.cur_dev.isEmpty)
      = true
  · rw [if_pos hc]
    simp only [Bool.and_eq_true, Bool.not_eq_true', List.isEmpty_iff] at hc
    left
    rw [(open_next_type_spec win32 hid_enumerate _ hc.2).2.1, a1]
  · rw [if_neg hc]
    right
    refine ⟨a1, ?_, a4⟩
    intro hnil
    apply hc
    have h1 : (advance_cur_dev win32 e).1 = false := by
      unfold advance_cur_dev
      rw [hnil]
    rw [h1, a4, hnil]
    rfl

/-- The passes of the loop are bounded by the nodes left in the current list plus the types
left. -/
theorem next_loop_passes_le (win32 : Bool) (hid_enumerate : Nat → Nat → List hid_device_info)
    (foundValid : Bool) (e : ControllerHidDeviceEnumerator) :
    next_loop_passes win32 hid_enumerate foundValid e ≤
      e.cur_dev.length + (CommonDeviceState.SUPPORTED_CONTROLLER_TYPE_COUNT - e.m_deviceType) := by
  induction foundValid, e using next_loop_passes.induct win32 hid_enumerate with
  | case1 fv x hcond ih =>
    rw [next_loop_passes, if_pos hcond]
    simp only [Bool.and_eq_true, decide_eq_true_eq] at hcond
    rcases next_iteration_progress win32 hid_enumerate x with h | ⟨h1, h2, h3, _⟩ | ⟨h1, h2⟩
    · have hz : next_loop_passes win32 hid_enumerate (next_iteration win32 hid_enumerate x).1
          (next_iteration win32 hid_enumerate x).2 = 0 := by
        rw [next_loop_passes, h]
        simp
      rw [hz]
      omega
    · rw [h1, h3] at ih
      have hlen : x.cur_dev.tail.length + 1 = x.cur_dev.length := by
        cases hx : x.cur_dev with
        | nil => exact absurd hx h2
        | cons d rest => simp
      omega
    · rw [h1, h2] at ih
      simp only [List.length_nil] at ih
      omega
  | case2 fv x hcond =>
    rw [next_loop_passes, if_neg hcond]
    exact Nat.zero_le _

/-- C26: `next()` is a total function of the enumerator state (its loop is defined by
recursion on the pair of types left and nodes left, which every pass decreases), for every
device list, build mode and starting type; each pass of its loop either finds a valid
device, or advances `cur_dev` one node along its list, or increments `m_deviceType`; the
number of passes of one call is at most the number of nodes left in the current list plus
the number of types left, and the same bound, with the list the first enumeration returns,
holds for the call made by the constructor. -/
theorem C26_next_passes_bound (win32 : Bool)
    (hid_enumerate : Nat → Nat → List hid_device_info) (e : ControllerHidDeviceEnumerator)
    (deviceType : Nat) :
    (∃ r, next win32 hid_enumerate e = r ∧
      (e.m_deviceType < CommonDeviceState.SUPPORTED_CONTROLLER_TYPE_COUNT ∨ r = (false, e))) ∧
    ((next_iteration win32 hid_enumerate e).2.m_deviceType = e.m_deviceType + 1 ∨
      ((next_iteration win32 hid_enumerate e).2.m_deviceType = e.m_deviceType ∧
        e.cur_dev ≠ [] ∧
        (next_iteration win32 hid_enumerate e).2.cur_dev = e.cur_dev.tail)) ∧
    next_passes win32 hid_enumerate e ≤
      e.cur_dev.length + (CommonDeviceState.SUPPORTED_CONTROLLER_TYPE_COUNT - e.m_deviceType) ∧
    create_passes win32 hid_enumerate deviceType ≤
      (os_list hid_enumerate deviceType).length +
        (CommonDeviceState.SUPPORTED_CONTROLLER_TYPE_COUNT - deviceType) := by
  refine ⟨⟨_, rfl, ?_⟩, next_iteration_step win32 hid_enumerate e,
    next_loop_passes_le win32 hid_enumerate false e, ?_⟩
  · by_cases ht : e.m_deviceType < CommonDeviceState.SUPPORTED_CONTROLLER_TYPE_COUNT
    · exact Or.inl ht
    · right
      unfold next
      rw [next_loop, if_neg (by simp [ht])]
  · unfold create_passes constructed
    by_cases hidx : GET_DEVICE_TYPE_INDEX deviceType < MAX_CONTROLLER_TYPE_INDEX
    · rw [dif_pos hidx]
      simp only
      split
      · have hb := next_loop_passes_le win32 hid_enumerate false
          { m_deviceType := deviceType
            devs := hid_enumerate
              (g_supported_controller_infos.get ⟨GET_DEVICE_TYPE_INDEX deviceType, hidx⟩).vendor_id
              (g_supported_controller_infos.get ⟨GET_DEVICE_TYPE_INDEX deviceType, hidx⟩).product_id
            cur_dev := hid_enumerate
              (g_supported_controller_infos.get ⟨GET_DEVICE_TYPE_INDEX deviceType, hidx⟩).vendor_id
              (g_supported_controller_infos.get ⟨GET_DEVICE_TYPE_INDEX deviceType, hidx⟩).product_id
            hid_calls := [HidCall.hid_enumerate
              (g_supported_controller_infos.get ⟨GET_DEVICE_TYPE_INDEX deviceType, hidx⟩).vendor_id
              (g_supported_controller_infos.get
                ⟨GET_DEVICE_TYPE_INDEX deviceType, hidx⟩).product_id] }
        have hos : os_list hid_enumerate deviceType = hid_enumerate
            (g_supported_controller_infos.get ⟨GET_DEVICE_TYPE_INDEX deviceType, hidx⟩).vendor_id
            (g_supported_controller_infos.get
              ⟨GET_DEVICE_TYPE_INDEX deviceType, hidx⟩).product_id := by
          unfold os_list
          have hlen : GET_DEVICE_TYPE_INDEX deviceType < g_supported_controller_infos.length :=
            hidx
          rw [List.getElem?_eq_getElem hlen]
          rfl
        rw [hos]
        exact hb
      · exact Nat.zero_le _
    · rw [dif_neg hidx]
      exact Nat.zero_le _

end ControllerHidDeviceEnumerator

namespace ControllerHidDeviceEnumerator

theorem replay_hid_calls_append (hid_enumerate : Nat → Nat → List hid_device_info)
    (a b : List HidCall) (live : List hid_device_info) :
    replay_hid_calls hid_enumerate (a ++ b) live =
      (replay_hid_calls hid_enumerate a live).bind (replay_hid_calls hid_enumerate b) := by
  induction a generalizing live with
  | nil => rfl
  | cons c rest ih =>
    cases c with
    | hid_enumerate vendor_id product_id =>
      rw [List.cons_append, replay_hid_calls, replay_hid_calls]
      split
      · exact ih _
      · rfl
    | hid_free_enumeration devs =>
      rw [List.cons_append, replay_hid_calls, replay_hid_calls]
      split
      · exact ih _
      · rfl

/-- In a trace that replays without violation, the handles obtained are the handles freed
plus the one still live. -/
theorem replay_hid_calls_count (hid_enumerate : Nat → Nat → List hid_device_info)
    (trace : List HidCall) (live0 live : List hid_device_info)
    (h : replay_hid_calls hid_enumerate trace live0 = some live) :
    handles_obtained hid_enumerate trace + (if live0.isEmpty then 0 else 1) =
      handles_freed trace + (if live.isEmpty then 0 else 1) := by
  induction trace generalizing live0 with
  | nil =>
    rw [replay_hid_calls] at h
    rw [Option.some.inj h]
    rfl
  | cons c rest ih =>
    cases c with
    | hid_enumerate vendor_id product_id =>
      rw [replay_hid_calls] at h
      by_cases hl : live0.isEmpty = true
      · rw [if_pos hl] at h
        have := ih _ h
        rw [handles_obtained, handles_freed, if_pos hl]
        omega
      · rw [if_neg hl] at h
        exact absurd h (by simp)
    | hid_free_enumeration devs =>
      rw [replay_hid_calls] at h
      by_cases hc : (!devs.isEmpty && decide (devs = live0)) = true
      · rw [if_pos hc] at h
        have := ih _ h
        simp only [Bool.and_eq_true, Bool.not_eq_true', decide_eq_true_eq] at hc
        rw [handles_obtained, handles_freed, if_neg (by rw [← hc.2, hc.1]; simp)]
        simp only [List.isEmpty_nil, if_true] at this
        omega
      · rw [if_neg hc] at h
        exact absurd h (by simp)

/-- The handle invariant survives the move to the next device type: the previous handle, if
any, is freed before the next one is obtained. -/
theorem open_next_type_replay (win32 : Bool)
    (hid_enumerate : Nat → Nat → List hid_device_info) (e : ControllerHidDeviceEnumerator)
    (h : replay_hid_calls hid_enumerate e.hid_calls [] = some e.devs) :
    replay_hid_calls hid_enumerate (open_next_type win32 hid_enumerate e).2.hid_calls [] =
      some (open_next_type win32 hid_enumerate e).2.devs := by
  unfold open_next_type
  simp only
  by_cases hd : e.devs.isEmpty = true
  · have hdevs : e.devs = [] := List.isEmpty_iff.mp hd
    simp only [hd, Bool.not_true, Bool.false_eq_true, if_false]
    split
    · simp only
      rw [replay_hid_calls_append, h]
      simp [replay_hid_calls, hdevs]
    · exact h
  · simp only [hd, Bool.not_false, if_true]
    have hfree : replay_hid_calls hid_enumerate
        (e.hid_calls ++ [HidCall.hid_free_enumeration e.devs]) [] = some [] := by
      rw [replay_hid_calls_append, h]
      simp [replay_hid_calls, hd]
    split
    · simp only
      rw [replay_hid_calls_append, hfree]
      rfl
    · exact hfree

theorem next_iteration_replay (win32 : Bool)
    (hid_enumerate : Nat → Nat → List hid_device_info) (e : ControllerHidDeviceEnumerator)
    (h : replay_hid_calls hid_enumerate e.hid_calls [] = some e.devs) :
    replay_hid_calls hid_enumerate (next_iteration win32 hid_enumerate e).2.hid_calls [] =
      some (next_iteration win32 hid_enumerate e).2.devs := by
  obtain ⟨_, a2, a3, _⟩ := advance_cur_dev_fields win32 e
  unfold next_iteration
  simp only
  split
  · apply open_next_type_replay
    rw [a2, a3]
    exact h
  · rw [a2, a3]
    exact h

theorem next_loop_replay (win32 : Bool)
    (hid_enumerate : Nat → Nat → List hid_device_info) (foundValid : Bool)
    (e : ControllerHidDeviceEnumerator)
    (h : replay_hid_calls hid_enumerate e.hid_calls [] = some e.devs) :
    replay_hid_calls hid_enumerate
        (next_loop win32 hid_enumerate foundValid e).2.hid_calls [] =
      some (next_loop win32 hid_enumerate foundValid e).2.devs := by
  induction foundValid, e using next_loop.induct win32 hid_enumerate with
  | case1 fv x hcond ih =>
    rw [next_loop, if_pos hcond]
    exact ih (next_iteration_replay win32 hid_enumerate x h)
  | case2 fv x hcond =>
    rw [next_loop, if_neg hcond]
    exact h

theorem create_replay (win32 : Bool) (hid_enumerate : Nat → Nat → List hid_device_info)
    (deviceType : Nat) (e : ControllerHidDeviceEnumerator)
    (h : create win32 hid_enumerate deviceType = some e) :
    replay_hid_calls hid_enumerate e.hid_calls [] = some e.devs := by
  unfold create at h
  split at h
  · simp only at h
    split at h
    · rw [← Option.some.inj h]
      unfold next
      apply next_loop_replay
      rfl
    · rw [← Option.some.inj h]
      rfl
  · exact absurd h (by simp)

theorem destroy_replay (hid_enumerate : Nat → Nat → List hid_device_info)
    (e : ControllerHidDeviceEnumerator)
    (h : replay_hid_calls hid_enumerate e.hid_calls [] = some e.devs) :
    replay_hid_calls hid_enumerate (destroy e).hid_calls [] = some [] := by
  unfold destroy
  by_cases hd : e.devs.isEmpty = true
  · simp only [hd, Bool.not_true, Bool.false_eq_true, if_false]
    rw [h, List.isEmpty_iff.mp hd]
  · simp only [hd, Bool.not_false, if_true]
    rw [replay_hid_calls_append, h]
    simp [replay_hid_calls, hd]

/-- C23: for every build mode, host and supported starting type, after construction and any
number of `next()` calls the trace of hidapi calls replays without violation (no enumeration
while a handle is live, no free of anything but the live handle) and the live handle is the
one stored in `devs`; after the destructor no handle is live, and the number of handles
obtained equals the number of `hid_free_enumeration` calls, so every handle has been freed
exactly once. -/
theorem C23_hid_handles_freed_once (win32 : Bool)
    (hid_enumerate : Nat → Nat → List hid_device_info) (deviceType calls : Nat)
    (ht : deviceType < CommonDeviceState.SUPPORTED_CONTROLLER_TYPE_COUNT) :
    ∃ e, after_calls win32 hid_enumerate deviceType calls = some e ∧
      replay_hid_calls hid_enumerate e.hid_calls [] = some e.devs ∧
      handles_obtained hid_enumerate e.hid_calls =
        handles_freed e.hid_calls + (if e.devs.isEmpty then 0 else 1) ∧
      replay_hid_calls hid_enumerate (destroy e).hid_calls [] = some [] ∧
      handles_obtained hid_enumerate (destroy e).hid_calls =
        handles_freed (destroy e).hid_calls := by
  have hinv : ∀ n e, after_calls win32 hid_enumerate deviceType n = some e →
      replay_hid_calls hid_enumerate e.hid_calls [] = some e.devs := by
    intro n
    induction n with
    | zero =>
      intro e he
      exact create_replay win32 hid_enumerate deviceType e he
    | succ n ih =>
      intro e he
      rw [after_calls] at he
      cases hprev : after_calls win32 hid_enumerate deviceType n with
      | none => rw [hprev] at he; exact absurd he (by simp)
      | some e0 =>
        rw [hprev, Option.map_some'] at he
        rw [← Option.some.inj he]
        unfold next
        exact next_loop_replay win32 hid_enumerate false e0 (ih e0 hprev)
  obtain ⟨e, he, _⟩ := after_calls_some win32 hid_enumerate deviceType calls ht
  have h1 := hinv calls e he
  have h2 := destroy_replay hid_enumerate e h1
  have c1 := replay_hid_calls_count hid_enumerate _ _ _ h1
  have c2 := replay_hid_calls_count hid_enumerate _ _ _ h2
  simp only [List.isEmpty_nil, if_true, Nat.add_zero] at c1 c2
  exact ⟨e, he, h1, c1, h2, c2⟩

theorem C23_hid_handles_freed_once_witness :
    ∃ e, after_calls true example_hid_enumerate CommonDeviceState.PSMove 3 = some e ∧
      replay_hid_calls example_hid_enumerate (destroy e).hid_calls [] = some [] := by
  obtain ⟨e, he, _, _, h2, _⟩ := C23_hid_handles_freed_once true example_hid_enumerate
    CommonDeviceState.PSMove 3 (by decide)
  exact ⟨e, he, h2⟩

theorem C26_next_passes_bound_witness :
    next_passes true example_hid_enumerate
      { m_deviceType := CommonDeviceState.PSMove
        devs := [psmove_col02, psmove_col01, psmove_col03]
        cur_dev := [psmove_col02, psmove_col01, psmove_col03]
        hid_calls := [] } ≤ 3 + 3 :=
  (C26_next_passes_bound true example_hid_enumerate
    { m_deviceType := CommonDeviceState.PSMove
      devs := [psmove_col02, psmove_col01, psmove_col03]
      cur_dev := [psmove_col02, psmove_col01, psmove_col03]
      hid_calls := [] } CommonDeviceState.PSMove).2.2.1

end ControllerHidDeviceEnumerator

/-! ## Further properties of the bring-up stage -/

namespace AppStage_ComputeTrackerPoses

open eMenuState eClientPSMoveResultCode

/-- C24: the stage of `example_tracker_list_failed` is in `failedTrackerListRequest` (an
Error answer to the tracker list request puts it there from any other state), and
`update()` has no case for that state: with asserts it reaches
`default: assert(0 && "unreachable")` and fails, without asserts it does nothing. -/
theorem C24_update_misses_failedTrackerListRequest :
    example_waiting_for_tracker_list.m_menuState = pendingTrackerListRequest ∧
    (example_tracker_list_failed.map (fun s => s.m_menuState)) =
      some failedTrackerListRequest ∧
    (example_tracker_list_failed.map (fun s =>
      update false s (eCalibrationMenuState.otherStep 0) (eCalibrationMenuState.otherStep 0)
        false)) = some none ∧
    (∀ (s : AppStage_ComputeTrackerPoses)
        (calibrateWithMatState stereoCalibrateState : eCalibrationMenuState)
        (pollVideoStream : Bool),
      s.m_menuState = failedTrackerListRequest →
      update false s calibrateWithMatState stereoCalibrateState pollVideoStream = none ∧
      update true s calibrateWithMatState stereoCalibrateState pollVideoStream = some s) ∧
    (∀ (ndebug : Bool) (s : AppStage_ComputeTrackerPoses) (payload : ResponsePayload),
      (handle_tracker_list_response ndebug s _clientPSMoveResultCode_error payload).map
        (fun s1 => s1.m_menuState) = some failedTrackerListRequest) := by
  refine ⟨by decide, by decide, by decide, ?_, ?_⟩
  · intro s c1 c2 poll hs
    unfold update
    rw [hs]
    exact ⟨rfl, rfl⟩
  · intro ndebug s payload
    unfold handle_tracker_list_response
    simp only [Option.map_some']
    rw [setState_menuState]

end AppStage_ComputeTrackerPoses

namespace AppStage_ComputeTrackerPoses

open eMenuState eClientPSMoveResultCode

/-- An insertion keeps the keys of a map pairwise distinct. -/
theorem map_insert_nodup {V : Type} (m : List (Int × V)) (key : Int) (value : V)
    (h : (m.map Prod.fst).Nodup) : ((map_insert m key value).map Prod.fst).Nodup := by
  unfold map_insert
  cases hf : map_find m key with
  | some v => exact h
  | none =>
    simp only
    rw [List.map_append, List.map_cons, List.nodup_middle, ← List.map_append,
      List.takeWhile_append_dropWhile, List.nodup_cons]
    exact ⟨(map_find_eq_none_iff m key).mp hf, h⟩

theorem onEnterState_unique (s : AppStage_ComputeTrackerPoses) (newState : eMenuState)
    (h : UniqueSessions s) : UniqueSessions (onEnterState s newState) := by
  unfold UniqueSessions at h ⊢
  cases newState <;> first
    | exact h
    | exact ⟨List.nodup_nil, h.2⟩
    | exact ⟨h.1, List.nodup_nil⟩
    | (simp only [onEnterState, record, List.map_map]; exact h)

theorem setState_unique (s : AppStage_ComputeTrackerPoses) (newState : eMenuState)
    (h : UniqueSessions s) : UniqueSessions (setState s newState) := by
  unfold setState
  split
  · have h1 : UniqueSessions (onExitState s s.m_menuState) := by
      unfold UniqueSessions
      rw [(onExitState_fields s s.m_menuState).2.1, (onExitState_fields s s.m_menuState).2.2.2.1]
      exact h
    exact onEnterState_unique _ newState h1
  · exact h

theorem request_start_controller_stream_unique (ndebug : Bool)
    (allocate_controller_view : Int → StageControllerView)
    (s s1 : AppStage_ComputeTrackerPoses) (ControllerID listIndex trackingColorType : Int)
    (h : UniqueSessions s)
    (hr : request_start_controller_stream ndebug allocate_controller_view s ControllerID
      listIndex trackingColorType = some s1) : UniqueSessions s1 := by
  have h1 := setState_unique s pendingControllerStartRequest h
  unfold request_start_controller_stream at hr
  simp only [record] at hr
  split at hr
  · exact absurd hr (by simp)
  · rw [← Option.some.inj hr]
    exact ⟨map_insert_nodup _ _ _ h1.1, h1.2⟩

theorem request_tracker_start_stream_unique (ndebug : Bool)
    (s s1 : AppStage_ComputeTrackerPoses) (TrackerInfo : ClientTrackerInfo) (listIndex : Int)
    (h : UniqueSessions s)
    (hr : request_tracker_start_stream ndebug s TrackerInfo listIndex = some s1) :
    UniqueSessions s1 := by
  have h1 := setState_unique s pendingTrackerStartRequest h
  unfold request_tracker_start_stream at hr
  simp only [record] at hr
  split at hr
  · exact absurd hr (by simp)
  · rw [← Option.some.inj hr]
    exact ⟨h1.1, map_insert_nodup _ _ _ h1.2⟩

theorem start_requests_unique (ndebug : Bool)
    (allocate_controller_view : Int → StageControllerView)
    (requests : List (Int × Int × Int)) (s s1 : AppStage_ComputeTrackerPoses)
    (h : UniqueSessions s)
    (hr : start_requests ndebug allocate_controller_view requests s = some s1) :
    UniqueSessions s1 := by
  induction requests generalizing s with
  | nil =>
    rw [start_requests] at hr
    rw [← Option.some.inj hr]
    exact h
  | cons r rest ih =>
    rw [start_requests] at hr
    cases h2 : request_start_controller_stream ndebug allocate_controller_view s
        r.1 r.2.1 r.2.2 with
    | none => rw [h2] at hr; exact absurd hr (by simp)
    | some s2 =>
      rw [h2] at hr
      exact ih s2 (request_start_controller_stream_unique _ _ _ _ _ _ _ h h2) hr

theorem start_listed_trackers_unique (ndebug : Bool) (tracker_list : List ClientTrackerInfo)
    (tracker_index : Int) (s s1 : AppStage_ComputeTrackerPoses) (h : UniqueSessions s)
    (hr : start_listed_trackers ndebug tracker_list tracker_index s = some s1) :
    UniqueSessions s1 := by
  induction tracker_list generalizing s tracker_index with
  | nil =>
    rw [start_listed_trackers] at hr
    rw [← Option.some.inj hr]
    exact h
  | cons t rest ih =>
    rw [start_listed_trackers] at hr
    cases h2 : request_tracker_start_stream ndebug s t tracker_index with
    | none => rw [h2] at hr; exact absurd hr (by simp)
    | some s2 =>
      rw [h2] at hr
      exact ih _ s2 (request_tracker_start_stream_unique _ _ _ _ _ h h2) hr

theorem handle_all_devices_ready_unique (s : AppStage_ComputeTrackerPoses)
    (h : UniqueSessions s) : UniqueSessions (handle_all_devices_ready s) := by
  unfold handle_all_devices_ready
  split <;> exact setState_unique _ _ h

/-- Every handler of the request chain, `setState` and `release_devices` keep at most one
session per device id in both maps. -/
theorem handlers_unique (ndebug : Bool) (allocate_controller_view : Int → StageControllerView)
    (s : AppStage_ComputeTrackerPoses) (h : UniqueSessions s) :
    UniqueSessions (release_devices s) ∧
    (∀ (rc : eClientPSMoveResultCode) (payload : ResponsePayload)
        (s1 : AppStage_ComputeTrackerPoses),
      handle_controller_list_response ndebug allocate_controller_view s rc payload = some s1 →
        UniqueSessions s1) ∧
    (∀ rc : eClientPSMoveResultCode, UniqueSessions (handle_start_controller_response s rc)) ∧
    (∀ (rc : eClientPSMoveResultCode) (payload : ResponsePayload)
        (s1 : AppStage_ComputeTrackerPoses),
      handle_tracker_list_response ndebug s rc payload = some s1 → UniqueSessions s1) ∧
    (∀ (rc : eClientPSMoveResultCode) (tracker_id : Int) (openVideoStream : Bool)
        (width height : Int) (s1 : AppStage_ComputeTrackerPoses),
      handle_tracker_start_stream_response s rc tracker_id openVideoStream width height =
        some s1 → UniqueSessions s1) := by
  refine ⟨⟨List.nodup_nil, List.nodup_nil⟩, ?_, ?_, ?_, ?_⟩
  · intro rc payload s1 hr
    cases rc with
    | _clientPSMoveResultCode_ok =>
      cases payload with
      | _responsePayloadType_ControllerList controller_list =>
        rw [handle_controller_list_response_ok] at hr
        split at hr
        · rw [← Option.some.inj hr]
          exact setState_unique _ _ h
        · exact start_requests_unique _ _ _ _ _ h hr
      | _responsePayloadType_Empty => exact absurd hr (by simp [handle_controller_list_response])
      | _responsePayloadType_TrackerList l =>
        exact absurd hr (by simp [handle_controller_list_response])
    | _clientPSMoveResultCode_error =>
      rw [← Option.some.inj hr]
      exact setState_unique _ _ h
    | _clientPSMoveResultCode_canceled =>
      rw [← Option.some.inj hr]
      exact setState_unique _ _ h
  · intro rc
    cases rc with
    | _clientPSMoveResultCode_ok =>
      unfold handle_start_controller_response
      simp only
      split
      · unfold request_tracker_list
        split
        · exact setState_unique _ _ h
        · exact h
      · exact h
    | _clientPSMoveResultCode_error => exact setState_unique _ _ h
    | _clientPSMoveResultCode_canceled => exact setState_unique _ _ h
  · intro rc payload s1 hr
    cases rc with
    | _clientPSMoveResultCode_ok =>
      cases payload with
      | _responsePayloadType_TrackerList tracker_list =>
        exact start_listed_trackers_unique ndebug tracker_list 0 s s1 h hr
      | _responsePayloadType_Empty => exact absurd hr (by simp [handle_tracker_list_response])
      | _responsePayloadType_ControllerList l =>
        exact absurd hr (by simp [handle_tracker_list_response])
    | _clientPSMoveResultCode_error =>
      rw [← Option.some.inj hr]
      exact setState_unique _ _ h
    | _clientPSMoveResultCode_canceled =>
      rw [← Option.some.inj hr]
      exact setState_unique _ _ h
  · intro rc tracker_id openVideoStream width height s1 hr
    cases rc with
    | _clientPSMoveResultCode_ok =>
      cases hf : map_find s.m_trackerViews tracker_id with
      | none =>
        unfold handle_tracker_start_stream_response at hr
        simp only [hf] at hr
        exact absurd hr (by simp)
      | some ts =>
        unfold handle_tracker_start_stream_response at hr
        simp only [hf, record] at hr
        split at hr
        · rw [← Option.some.inj hr]
          apply handle_all_devices_ready_unique
          unfold UniqueSessions
          simp only [map_assign_keys]
          exact h
        · rw [← Option.some.inj hr]
          unfold UniqueSessions
          simp only [map_assign_keys]
          exact h
    | _clientPSMoveResultCode_error =>
      rw [← Option.some.inj hr]
      exact setState_unique _ _ h
    | _clientPSMoveResultCode_canceled =>
      rw [← Option.some.inj hr]
      exact setState_unique _ _ h

end AppStage_ComputeTrackerPoses

namespace AppStage_ComputeTrackerPoses

open eMenuState eClientPSMoveResultCode

/-- C21 as stated fails: a controller list that names id 0 twice, and a tracker list that
names id 0 twice, enter no failure state. With asserts the second start request fails the
assertion before the insertion; without asserts both lists are handled to the end, one
session exists for the id, the pending count is 2 and the machine is in the pending start
state. -/
theorem C21_duplicate_id_is_not_an_error_state :
    handle_controller_list_response false example_allocate_controller_view
      example_entered_stage _clientPSMoveResultCode_ok
      (ResponsePayload._responsePayloadType_ControllerList example_duplicate_controller_list)
        = none ∧
    ((handle_controller_list_response true example_allocate_controller_view
      example_entered_stage _clientPSMoveResultCode_ok
      (ResponsePayload._responsePayloadType_ControllerList
        example_duplicate_controller_list)).map
      (fun s => (s.m_menuState, s.m_pendingControllerStartCount,
        s.m_controllerViews.map Prod.fst))) =
      some (pendingControllerStartRequest, 2, [0]) ∧
    handle_tracker_list_response false example_waiting_for_tracker_list
      _clientPSMoveResultCode_ok
      (ResponsePayload._responsePayloadType_TrackerList
        [{ tracker_id := 0 }, { tracker_id := 0 }]) = none ∧
    ((handle_tracker_list_response true example_waiting_for_tracker_list
      _clientPSMoveResultCode_ok
      (ResponsePayload._responsePayloadType_TrackerList
        [{ tracker_id := 0 }, { tracker_id := 0 }])).map
      (fun s => (s.m_menuState, s.m_pendingTrackerStartCount,
        s.m_trackerViews.map Prod.fst))) =
      some (pendingTrackerStartRequest, 2, [0]) := by
  decide

/-- C21 (amended): at most one session exists per device id in both session maps: the maps
are empty after construction, and `setState`, `release_devices`, the two start requests and
the four response handlers keep the ids of each map pairwise distinct. A start request for
an id that already has a session is not reported as an error: with asserts it fails the
assertion before the insertion; without asserts it returns in the pending start state (no
failure state), the session map is left as it was, the pending count is still incremented
and the start request is still sent. This holds for controllers and for trackers. -/
theorem C21_one_session_per_id_duplicates_asserted (ndebug : Bool)
    (allocate_controller_view : Int → StageControllerView)
    (s : AppStage_ComputeTrackerPoses) (ControllerID listIndex trackingColorType : Int)
    (TrackerInfo : ClientTrackerInfo) :
    UniqueSessions create ∧
    (UniqueSessions s →
      (∀ newState, UniqueSessions (setState s newState)) ∧
      UniqueSessions (release_devices s) ∧
      (∀ s1, request_start_controller_stream ndebug allocate_controller_view s ControllerID
        listIndex trackingColorType = some s1 → UniqueSessions s1) ∧
      (∀ s1, request_tracker_start_stream ndebug s TrackerInfo listIndex = some s1 →
        UniqueSessions s1) ∧
      (∀ (rc : eClientPSMoveResultCode) (payload : ResponsePayload)
          (s1 : AppStage_ComputeTrackerPoses),
        handle_controller_list_response ndebug allocate_controller_view s rc payload =
          some s1 → UniqueSessions s1) ∧
      (∀ rc : eClientPSMoveResultCode,
        UniqueSessions (handle_start_controller_response s rc)) ∧
      (∀ (rc : eClientPSMoveResultCode) (payload : ResponsePayload)
          (s1 : AppStage_ComputeTrackerPoses),
        handle_tracker_list_response ndebug s rc payload = some s1 → UniqueSessions s1) ∧
      (∀ (rc : eClientPSMoveResultCode) (tracker_id : Int) (openVideoStream : Bool)
          (width height : Int) (s1 : AppStage_ComputeTrackerPoses),
        handle_tracker_start_stream_response s rc tracker_id openVideoStream width height =
          some s1 → UniqueSessions s1)) ∧
    (s.m_menuState = pendingControllerStartRequest →
      (map_find s.m_controllerViews ControllerID).isSome = true →
      request_start_controller_stream false allocate_controller_view s ControllerID
        listIndex trackingColorType = none ∧
      ∃ s1, request_start_controller_stream true allocate_controller_view s ControllerID
          listIndex trackingColorType = some s1 ∧
        s1.m_menuState = pendingControllerStartRequest ∧
        s1.m_controllerViews = s.m_controllerViews ∧
        s1.m_pendingControllerStartCount = s.m_pendingControllerStartCount + 1 ∧
        s1.calls = s.calls ++
          [ApiCall.allocate_controller_view ControllerID,
           ApiCall.start_controller_data_stream
            (allocate_controller_view ControllerID).ControllerID
            (start_controller_flags s.m_bSkipCalibration)]) ∧
    (s.m_menuState = pendingTrackerStartRequest →
      (map_find s.m_trackerViews TrackerInfo.tracker_id).isSome = true →
      request_tracker_start_stream false s TrackerInfo listIndex = none ∧
      ∃ s1, request_tracker_start_stream true s TrackerInfo listIndex = some s1 ∧
        s1.m_menuState = pendingTrackerStartRequest ∧
        s1.m_trackerViews = s.m_trackerViews ∧
        s1.m_pendingTrackerStartCount = s.m_pendingTrackerStartCount + 1 ∧
        s1.calls = s.calls ++
          [ApiCall.allocate_tracker_view TrackerInfo.tracker_id,
           ApiCall.start_tracker_data_stream TrackerInfo.tracker_id]) := by
  refine ⟨⟨List.nodup_nil, List.nodup_nil⟩, fun h => ?_, fun hs hdup => ?_, fun hs hdup => ?_⟩
  · obtain ⟨u1, u2, u3, u4, u5⟩ := handlers_unique ndebug allocate_controller_view s h
    exact ⟨fun n => setState_unique s n h, u1,
      fun s1 hr => request_start_controller_stream_unique _ _ _ _ _ _ _ h hr,
      fun s1 hr => request_tracker_start_stream_unique _ _ _ _ _ h hr, u2, u3, u4, u5⟩
  · have hsame : setState s pendingControllerStartRequest = s := by
      rw [← hs]
      exact setState_same s
    obtain ⟨v, hv⟩ := Option.isSome_iff_exists.mp hdup
    constructor
    · unfold request_start_controller_stream
      simp only [record, hsame, hdup, Bool.not_false, Bool.and_self, if_true]
    · unfold request_start_controller_stream
      simp only [record, hsame, Bool.not_true, Bool.false_and, Bool.false_eq_true, if_false]
      refine ⟨_, rfl, hs, ?_, rfl, ?_⟩
      · simp only [map_insert, hv]
      · simp
  · have hsame : setState s pendingTrackerStartRequest = s := by
      rw [← hs]
      exact setState_same s
    obtain ⟨v, hv⟩ := Option.isSome_iff_exists.mp hdup
    constructor
    · unfold request_tracker_start_stream
      simp only [record, hsame, hdup, Bool.not_false, Bool.and_self, if_true]
    · unfold request_tracker_start_stream
      simp only [record, hsame, Bool.not_true, Bool.false_and, Bool.false_eq_true, if_false]
      refine ⟨_, rfl, hs, ?_, rfl, ?_⟩
      · simp only [map_insert, hv]
      · simp

theorem C21_one_session_per_id_duplicates_asserted_witness :
    (example_two_requests_in_flight.getD create).m_menuState = pendingControllerStartRequest ∧
    request_start_controller_stream false example_allocate_controller_view
      (example_two_requests_in_flight.getD create) 0 2 0 = none :=
  ⟨by decide,
    ((C21_one_session_per_id_duplicates_asserted false example_allocate_controller_view
      (example_two_requests_in_flight.getD create) 0 2 0 { tracker_id := 0 }).2.2.1
      (by decide) (by decide)).1⟩

theorem go_tracker_of_at_most_one (s : AppStage_ComputeTrackerPoses)
    (h : s.m_trackerViews.length ≤ 1) :
    go_next_tracker s = s ∧ go_previous_tracker s = s := by
  have hn : ¬ ((s.m_trackerViews.length : Int) > 1) := by
    have : (s.m_trackerViews.length : Int) ≤ 1 := by exact_mod_cast h
    omega
  unfold go_next_tracker go_previous_tracker
  simp only [if_neg hn, and_self]

theorem go_tracker_index (s : AppStage_ComputeTrackerPoses)
    (h : 1 < s.m_trackerViews.length) :
    (go_next_tracker s).m_renderTrackerIndex =
      Int.tmod (s.m_renderTrackerIndex + 1) s.m_trackerViews.length ∧
    (go_previous_tracker s).m_renderTrackerIndex =
      Int.tmod (s.m_renderTrackerIndex + s.m_trackerViews.length - 1)
        s.m_trackerViews.length ∧
    (go_next_tracker s).m_trackerViews = s.m_trackerViews ∧
    (go_previous_tracker s).m_trackerViews = s.m_trackerViews := by
  have hn : (s.m_trackerViews.length : Int) > 1 := by exact_mod_cast h
  unfold go_next_tracker go_previous_tracker
  simp only [if_pos hn, and_self]

theorem tmod_next_previous (i n : Int) (hn : 1 < n) (h0 : 0 ≤ i) (h1 : i < n) :
    0 ≤ Int.tmod (i + 1) n ∧ Int.tmod (i + 1) n < n ∧
    0 ≤ Int.tmod (i + n - 1) n ∧ Int.tmod (i + n - 1) n < n ∧
    Int.tmod (Int.tmod (i + 1) n + n - 1) n = i ∧
    Int.tmod (Int.tmod (i + n - 1) n + 1) n = i := by
  have e1 : Int.tmod (i + 1) n = (i + 1) % n := Int.tmod_eq_emod (by omega) (by omega)
  have e2 : Int.tmod (i + n - 1) n = (i + n - 1) % n := Int.tmod_eq_emod (by omega) (by omega)
  have a1 : 0 ≤ (i + 1) % n := Int.emod_nonneg _ (by omega)
  have a2 : (i + 1) % n < n := Int.emod_lt_of_pos _ (by omega)
  have b1 : 0 ≤ (i + n - 1) % n := Int.emod_nonneg _ (by omega)
  have b2 : (i + n - 1) % n < n := Int.emod_lt_of_pos _ (by omega)
  rw [e1, e2]
  refine ⟨a1, a2, b1, b2, ?_, ?_⟩
  · rw [Int.tmod_eq_emod (by omega) (by omega)]
    by_cases hlast : i + 1 = n
    · rw [hlast, Int.emod_self]
      rw [Int.emod_eq_of_lt (by omega) (by omega)]
      omega
    · rw [Int.emod_eq_of_lt (a := i + 1) (by omega) (by omega)]
      have : i + 1 + n - 1 = i + n := by ring
      rw [this, Int.add_emod_self, Int.emod_eq_of_lt h0 h1]
  · rw [Int.tmod_eq_emod (by omega) (by omega)]
    by_cases hfirst : i = 0
    · rw [hfirst]
      have : (0 : Int) + n - 1 = n - 1 := by ring
      rw [this, Int.emod_eq_of_lt (a := n - 1) (by omega) (by omega)]
      have : n - 1 + 1 = n := by ring
      rw [this, Int.emod_self]
    · have : i + n - 1 = (i - 1) + n := by ring
      rw [this, Int.add_emod_self, Int.emod_eq_of_lt (a := i - 1) (by omega) (by omega)]
      have : i - 1 + 1 = i := by ring
      rw [this, Int.emod_eq_of_lt h0 h1]

/-- C28: in the stage of `example_two_trackers_verifying` the selection invariant holds
(index 0, iterator on tracker 0), and "Next Tracker" keeps it (index 1, iterator on
tracker 1). After the calibration has succeeded and "Redo Calibration" is pressed, the
machine enters `verifyTrackers` with the iterator reset to the first session (tracker 0,
`listIndex` 0) while `m_renderTrackerIndex` is still 1; the "Tracker Video" button of
tracker 0 enters `showTrackerVideo` in the same way; and a tracker list that names tracker 1
before tracker 0 enters `verifyTrackers` with index 0 and the iterator on tracker 0, whose
`listIndex` is 1: in all three states the invariant is violated. The two cycling methods do
nothing with at most one tracker and otherwise move an index of `[0, count)` by +1 and -1
modulo the count, each undoing the other. -/
theorem C28_render_selection_not_kept_on_entry :
    (example_two_trackers_verifying.map (fun s =>
      (s.m_menuState, s.m_renderTrackerIndex, s.m_renderTrackerIter,
        decide (RenderSelectionInvariant s)))) = some (verifyTrackers, 0, some 0, true) ∧
    (example_two_trackers_verifying.map (fun s =>
      ((renderUI (example_click "Next Tracker") true s).m_renderTrackerIndex,
        (renderUI (example_click "Next Tracker") true s).m_renderTrackerIter,
        decide (RenderSelectionInvariant (renderUI (example_click "Next Tracker") true s)))))
      = some (1, some 1, true) ∧
    (example_two_trackers_test_tracking.map (fun s =>
      (s.m_menuState, s.m_renderTrackerIndex, s.m_renderTrackerIter))) =
        some (testTracking, 1, some 1) ∧
    (example_redo_calibration.map (fun s =>
      (s.m_menuState, s.m_renderTrackerIndex, s.m_renderTrackerIter,
        decide (RenderSelectionInvariant s)))) = some (verifyTrackers, 1, some 0, false) ∧
    (example_redo_calibration.map (fun s =>
      s.m_trackerViews.map (fun kv => (kv.1, kv.2.listIndex)))) = some [(0, 0), (1, 1)] ∧
    (example_show_tracker_video.map (fun s =>
      (s.m_menuState, s.m_renderTrackerIndex, s.m_renderTrackerIter,
        decide (RenderSelectionInvariant s)))) = some (showTrackerVideo, 1, some 0, false) ∧
    (example_unsorted_trackers_verifying.map (fun s =>
      (s.m_menuState, s.m_renderTrackerIndex, s.m_renderTrackerIter,
        decide (RenderSelectionInvariant s)))) = some (verifyTrackers, 0, some 0, false) ∧
    (example_unsorted_trackers_verifying.map (fun s =>
      s.m_trackerViews.map (fun kv => (kv.1, kv.2.listIndex)))) = some [(0, 1), (1, 0)] ∧
    (∀ s : AppStage_ComputeTrackerPoses, s.m_trackerViews.length ≤ 1 →
      go_next_tracker s = s ∧ go_previous_tracker s = s) ∧
    (∀ s : AppStage_ComputeTrackerPoses, 1 < s.m_trackerViews.length →
      0 ≤ s.m_renderTrackerIndex → s.m_renderTrackerIndex < s.m_trackerViews.length →
      (go_next_tracker s).m_renderTrackerIndex =
        Int.tmod (s.m_renderTrackerIndex + 1) s.m_trackerViews.length ∧
      (go_previous_tracker s).m_renderTrackerIndex =
        Int.tmod (s.m_renderTrackerIndex + s.m_trackerViews.length - 1)
          s.m_trackerViews.length ∧
      0 ≤ (go_next_tracker s).m_renderTrackerIndex ∧
      (go_next_tracker s).m_renderTrackerIndex < s.m_trackerViews.length ∧
      0 ≤ (go_previous_tracker s).m_renderTrackerIndex ∧
      (go_previous_tracker s).m_renderTrackerIndex < s.m_trackerViews.length ∧
      (go_previous_tracker (go_next_tracker s)).m_renderTrackerIndex =
        s.m_renderTrackerIndex ∧
      (go_next_tracker (go_previous_tracker s)).m_renderTrackerIndex =
        s.m_renderTrackerIndex) := by
  refine ⟨by decide, by decide, by decide, by decide, by decide, by decide, by decide,
    by decide, go_tracker_of_at_most_one, ?_⟩
  intro s hlen h0 h1
  obtain ⟨n1, p1, n3, p3⟩ := go_tracker_index s hlen
  have hlenN : 1 < (go_next_tracker s).m_trackerViews.length := by rw [n3]; exact hlen
  have hlenP : 1 < (go_previous_tracker s).m_trackerViews.length := by rw [p3]; exact hlen
  obtain ⟨_, q1, _, _⟩ := go_tracker_index (go_next_tracker s) hlenN
  obtain ⟨q2, _, _, _⟩ := go_tracker_index (go_previous_tracker s) hlenP
  obtain ⟨t1, t2, t3, t4, t5, t6⟩ := tmod_next_previous s.m_renderTrackerIndex
    s.m_trackerViews.length (by exact_mod_cast hlen) h0 h1
  refine ⟨n1, p1, by rw [n1]; exact t1, by rw [n1]; exact t2, by rw [p1]; exact t3,
    by rw [p1]; exact t4, ?_, ?_⟩
  · rw [q1, n1, n3]
    exact t5
  · rw [q2, p1, p3]
    exact t6

end AppStage_ComputeTrackerPoses

/-! ## Properties of the chessboard capture buffer -/

namespace AppStage_DistortionCalibration

namespace OpenCVBufferState

theorem Mat_set_of_inside (m : Mat) (row col : Int) (value : ℚ)
    (h : 0 ≤ row ∧ row < m.rows ∧ 0 ≤ col ∧ col < m.cols) :
    m.set row col value =
      some { m with data := fun r c => if r = row ∧ c = col then value else m.data r c } := by
  unfold Mat.set
  rw [if_pos h]

/-- One pass of the append loop with its row inside both matrices: the pass returns, the
sizes stay, the other rows stay, and the row holds the corner and its board coordinates. -/
theorem write_corner_spec (new_corners : List Point2f) (write_offset rows : Int)
    (points : Mat × Mat) (corner_index : Nat) (corner : Point2f)
    (hc : new_corners[corner_index]? = some corner)
    (h1 : points.1.rows = rows ∧ points.1.cols = 2 ∧ points.2.rows = rows ∧ points.2.cols = 3)
    (h2 : 0 ≤ write_offset + corner_index ∧ write_offset + corner_index < rows) :
    ∃ points1, write_corner new_corners write_offset points corner_index = some points1 ∧
      (points1.1.rows = rows ∧ points1.1.cols = 2 ∧ points1.2.rows = rows ∧
        points1.2.cols = 3) ∧
      (∀ r c : Int, r ≠ write_offset + corner_index →
        points1.1.data r c = points.1.data r c ∧ points1.2.data r c = points.2.data r c) ∧
      points1.1.data (write_offset + corner_index) 0 = corner.x ∧
      points1.1.data (write_offset + corner_index) 1 = corner.y ∧
      points1.2.data (write_offset + corner_index) 0 = (corner_index : ℚ) / (PATTERN_W : ℚ) ∧
      points1.2.data (write_offset + corner_index) 1 =
        ((Int.tmod corner_index PATTERN_W : Int) : ℚ) ∧
      points1.2.data (write_offset + corner_index) 2 = 0 := by
  obtain ⟨r1, c1, r2, c2⟩ := h1
  unfold write_corner
  rw [hc]
  simp only
  rw [Mat_set_of_inside points.1 _ 0 _ ⟨h2.1, by rw [r1]; exact h2.2, le_refl _, by rw [c1]; decide⟩]
  rw [Option.some_bind]
  rw [Mat_set_of_inside _ _ 1 _ ⟨h2.1, by rw [r1]; exact h2.2, by decide, by rw [c1]; decide⟩]
  rw [Option.some_bind]
  rw [Mat_set_of_inside points.2 _ 0 _ ⟨h2.1, by rw [r2]; exact h2.2, le_refl _, by rw [c2]; decide⟩]
  rw [Option.some_bind]
  rw [Mat_set_of_inside _ _ 1 _ ⟨h2.1, by rw [r2]; exact h2.2, by decide, by rw [c2]; decide⟩]
  rw [Option.some_bind]
  rw [Mat_set_of_inside _ _ 2 _ ⟨h2.1, by rw [r2]; exact h2.2, by decide, by rw [c2]; decide⟩]
  rw [Option.some_bind]
  refine ⟨_, rfl, ⟨r1, c1, r2, c2⟩, ?_, ?_, ?_, ?_, ?_, ?_⟩
  · intro r c hr
    simp [hr]
  · simp
  · simp
  · simp
  · simp
  · simp

/-- The append loop over a list of corner indices whose rows lie inside both matrices. -/
theorem write_loop_spec (new_corners : List Point2f) (write_offset rows : Int)
    (indices : List Nat) (points : Mat × Mat)
    (h1 : points.1.rows = rows ∧ points.1.cols = 2 ∧ points.2.rows = rows ∧ points.2.cols = 3)
    (h2 : ∀ i ∈ indices, i < new_corners.length ∧ 0 ≤ write_offset + (i : Int) ∧
      write_offset + (i : Int) < rows) :
    ∃ points1, indices.foldlM (write_corner new_corners write_offset) points = some points1 ∧
      (points1.1.rows = rows ∧ points1.1.cols = 2 ∧ points1.2.rows = rows ∧
        points1.2.cols = 3) ∧
      (∀ r c : Int, (∀ i ∈ indices, r ≠ write_offset + (i : Int)) →
        points1.1.data r c = points.1.data r c ∧ points1.2.data r c = points.2.data r c) ∧
      (∀ i ∈ indices, ∀ corner, new_corners[i]? = some corner →
        points1.1.data (write_offset + (i : Int)) 0 = corner.x ∧
        points1.1.data (write_offset + (i : Int)) 1 = corner.y ∧
        points1.2.data (write_offset + (i : Int)) 0 = (i : ℚ) / (PATTERN_W : ℚ) ∧
        points1.2.data (write_offset + (i : Int)) 1 = ((Int.tmod i PATTERN_W : Int) : ℚ) ∧
        points1.2.data (write_offset + (i : Int)) 2 = 0) := by
  induction indices generalizing points with
  | nil =>
    exact ⟨points, rfl, h1, fun _ _ _ => ⟨rfl, rfl⟩, fun i hi => absurd hi (List.not_mem_nil i)⟩
  | cons j rest ih =>
    obtain ⟨hj1, hj2, hj3⟩ := h2 j (List.mem_cons_self j rest)
    obtain ⟨corner, hcorner⟩ : ∃ corner, new_corners[j]? = some corner :=
      ⟨new_corners[j], List.getElem?_eq_getElem hj1⟩
    obtain ⟨p1, e1, d1, k1, v1⟩ := write_corner_spec new_corners write_offset rows points j
      corner hcorner h1 ⟨hj2, hj3⟩
    obtain ⟨p2, e2, d2, k2, v2⟩ := ih p1 d1 (fun i hi => h2 i (List.mem_cons_of_mem j hi))
    refine ⟨p2, ?_, d2, ?_, ?_⟩
    · rw [List.foldlM_cons, e1]
      exact e2
    · intro r c hr
      obtain ⟨a1, a2⟩ := k2 r c (fun i hi => hr i (List.mem_cons_of_mem j hi))
      obtain ⟨b1, b2⟩ := k1 r c (hr j (List.mem_cons_self j rest))
      exact ⟨by rw [a1, b1], by rw [a2, b2]⟩
    · intro i hi c hc
      by_cases hmem : i ∈ rest
      · exact v2 i hmem c hc
      · have hij : i = j := by
          rcases List.mem_cons.mp hi with h | h
          · exact h
          · exact absurd h hmem
        subst hij
        have hcc : c = corner := by
          rw [hcorner] at hc
          exact (Option.some.inj hc).symm
        subst hcc
        have hkeep : ∀ col : Int,
            p2.1.data (write_offset + (i : Int)) col = p1.1.data (write_offset + (i : Int)) col ∧
            p2.2.data (write_offset + (i : Int)) col =
              p1.2.data (write_offset + (i : Int)) col := by
          intro col
          apply k2
          intro k hk heq
          apply hmem
          have : (i : Int) = (k : Int) := by omega
          rw [Nat.cast_inj.mp this]
          exact hk
        obtain ⟨w1, w2, w3, w4, w5⟩ := v1
        exact ⟨by rw [(hkeep 0).1, w1], by rw [(hkeep 1).1, w2], by rw [(hkeep 0).2, w3],
          by rw [(hkeep 1).2, w4], by rw [(hkeep 2).2, w5]⟩

/-- The error-sum loop returns when both vectors hold a whole board. -/
theorem squared_error_loop_some (norm : Point2f → ℚ) (new_corners corners : List Point2f)
    (indices : List Nat) (sum : ℚ)
    (h : ∀ i ∈ indices, i < new_corners.length ∧ i < corners.length) :
    ∃ total, indices.foldlM (add_squared_error norm new_corners corners) sum = some total := by
  induction indices generalizing sum with
  | nil => exact ⟨sum, rfl⟩
  | cons j rest ih =>
    obtain ⟨h1, h2⟩ := h j (List.mem_cons_self j rest)
    obtain ⟨total, ht⟩ := ih (sum + norm ((new_corners[j]).sub (corners[j])))
      (fun i hi => h i (List.mem_cons_of_mem j hi))
    refine ⟨total, ?_⟩
    rw [List.foldlM_cons]
    unfold add_squared_error
    rw [List.getElem?_eq_getElem h1, List.getElem?_eq_getElem h2]
    exact ht

theorem CORNER_COUNT_eq : CORNER_COUNT = 54 ∧ CORNER_COUNT.toNat = 54 ∧
    DESIRED_CAPTURE_BOARD_COUNT = 100 ∧ DESIRED_CAPTURE_BOARD_COUNT * CORNER_COUNT = 5400 := by
  decide

/-- What one `findAndAppendNewChessBoard` call does to a state that satisfies the invariant:
it returns, keeps the invariant, and either leaves the state as it was or accepts the board:
then the count was below 100 and goes up by one, the 54 rows from `54 * count` on hold the
corners and their board coordinates, and every other row is as before. -/
theorem findAndAppendNewChessBoard_spec (norm : Point2f → ℚ)
    (found : Option (List Point2f)) (s : OpenCVBufferState) (hinv : CaptureInvariant s) :
    ∃ s1, findAndAppendNewChessBoard norm found s = some s1 ∧ CaptureInvariant s1 ∧
      (s1 = s ∨
        (s.capturedBoardCount < 100 ∧
          s1.capturedBoardCount = s.capturedBoardCount + 1 ∧
          ∃ new_corners, found = some new_corners ∧ (new_corners.length : Int) = 54 ∧
            s1.corners = new_corners ∧
            (∀ i : Nat, i < 54 →
              0 ≤ s.capturedBoardCount * 54 + (i : Int) ∧
              s.capturedBoardCount * 54 + (i : Int) < 100 * 54 ∧
              ∀ corner, new_corners[i]? = some corner →
                s1.image_points.data (s.capturedBoardCount * 54 + (i : Int)) 0 = corner.x ∧
                s1.image_points.data (s.capturedBoardCount * 54 + (i : Int)) 1 = corner.y ∧
                s1.object_points.data (s.capturedBoardCount * 54 + (i : Int)) 0 =
                  (i : ℚ) / 9 ∧
                s1.object_points.data (s.capturedBoardCount * 54 + (i : Int)) 1 =
                  ((Int.tmod i 9 : Int) : ℚ) ∧
                s1.object_points.data (s.capturedBoardCount * 54 + (i : Int)) 2 = 0) ∧
            (∀ r c : Int,
              (r < s.capturedBoardCount * 54 ∨ s.capturedBoardCount * 54 + 54 ≤ r) →
              s1.image_points.data r c = s.image_points.data r c ∧
              s1.object_points.data r c = s.object_points.data r c))) := by
  obtain ⟨k1, k2, k3, k4⟩ := CORNER_COUNT_eq
  obtain ⟨i1, i2, i3, i4, i5, i6, i7⟩ := hinv
  rw [k3] at i2
  rw [k4] at i3 i5
  rw [k1] at i7
  unfold findAndAppendNewChessBoard
  by_cases hlt : s.capturedBoardCount < DESIRED_CAPTURE_BOARD_COUNT
  swap
  · rw [if_neg hlt]
    exact ⟨s, rfl, ⟨i1, by rw [k3]; exact i2, by rw [k4]; exact i3, i4, by rw [k4]; exact i5,
      i6, by rw [k1]; exact i7⟩, Or.inl rfl⟩
  have hkeep : CaptureInvariant s :=
    ⟨i1, by rw [k3]; exact i2, by rw [k4]; exact i3, i4, by rw [k4]; exact i5, i6,
      by rw [k1]; exact i7⟩
  rw [if_pos hlt]
  rw [k3] at hlt
  cases found with
  | none => exact ⟨s, rfl, hkeep, Or.inl rfl⟩
  | some new_corners =>
    simp only
    by_cases hlen : (new_corners.length : Int) = CORNER_COUNT
    swap
    · rw [if_neg hlen]
      exact ⟨s, rfl, hkeep, Or.inl rfl⟩
    rw [if_pos hlen]
    rw [k1] at hlen
    have hlenN : new_corners.length = 54 := by exact_mod_cast hlen
    have hchanged : ∃ b : Bool,
        (if s.corners.length > 0 then
          (squared_error_sum norm new_corners s.corners).map
            (fun sum => decide (sum ≥ (BOARD_MOVED_SQUARED_ERROR_SUM : ℚ)))
        else some true) = some b := by
      by_cases hc : s.corners.length > 0
      · rw [if_pos hc]
        have hcl : (s.corners.length : Int) = 54 := by
          rcases i7 with h | h
          · rw [h] at hc
            exact absurd hc (by simp)
          · exact h
        have hclN : s.corners.length = 54 := by exact_mod_cast hcl
        obtain ⟨total, ht⟩ := squared_error_loop_some norm new_corners s.corners
          (List.range CORNER_COUNT.toNat) 0 (by
            intro i hi
            rw [k2, List.mem_range] at hi
            omega)
        unfold squared_error_sum
        rw [ht]
        exact ⟨_, rfl⟩
      · rw [if_neg hc]
        exact ⟨true, rfl⟩
    obtain ⟨b, hb⟩ := hchanged
    rw [hb]
    cases b with
    | false => exact ⟨s, rfl, hkeep, Or.inl rfl⟩
    | true =>
      simp only
      obtain ⟨p1, e1, d1, u1, v1⟩ := write_loop_spec new_corners
        (s.capturedBoardCount * CORNER_COUNT) 5400 (List.range CORNER_COUNT.toNat)
        (s.image_points, s.object_points) ⟨i3, i4, i5, i6⟩ (by
          intro i hi
          rw [k2, List.mem_range] at hi
          rw [k1]
          omega)
      unfold write_board
      rw [e1]
      simp only
      obtain ⟨d11, d12, d13, d14⟩ := d1
      refine ⟨_, rfl, ⟨by show 0 ≤ s.capturedBoardCount + 1; omega,
        by show s.capturedBoardCount + 1 ≤ DESIRED_CAPTURE_BOARD_COUNT; rw [k3]; omega,
        by rw [k4]; exact d11, d12, by rw [k4]; exact d13, d14,
        Or.inr (by rw [k1]; exact hlen)⟩, Or.inr ⟨hlt, rfl, new_corners, rfl, hlen, rfl, ?_, ?_⟩⟩
      · intro i hi
        refine ⟨by omega, by omega, ?_⟩
        intro corner hcorner
        have hv := v1 i (by rw [k2, List.mem_range]; exact hi) corner hcorner
        rw [k1] at hv
        have hw : ((PATTERN_W : Int) : ℚ) = 9 := by norm_num [PATTERN_W]
        obtain ⟨w1, w2, w3, w4, w5⟩ := hv
        exact ⟨w1, w2, by rw [w3, hw], w4, w5⟩
      · intro r c hr
        apply u1
        intro i hi
        rw [k2, List.mem_range] at hi
        rw [k1]
        omega

/-- The method `computeCameraCalibration` succeeds exactly when the count has reached 100. -/
theorem computeCameraCalibration_spec (calibrateCamera : ℚ) (s : OpenCVBufferState)
    (hinv : CaptureInvariant s) :
    ((computeCameraCalibration calibrateCamera s).1 = true ↔ s.capturedBoardCount = 100) ∧
    (computeCameraCalibration calibrateCamera s).2.capturedBoardCount =
      s.capturedBoardCount ∧
    CaptureInvariant (computeCameraCalibration calibrateCamera s).2 := by
  obtain ⟨_, _, k3, _⟩ := CORNER_COUNT_eq
  have h2 := hinv.2.1
  unfold computeCameraCalibration
  by_cases h : s.capturedBoardCount ≥ DESIRED_CAPTURE_BOARD_COUNT
  · rw [if_pos h]
    rw [k3] at h h2
    exact ⟨⟨fun _ => by omega, fun _ => rfl⟩, rfl, hinv⟩
  · rw [if_neg h]
    rw [k3] at h
    exact ⟨⟨fun hf => absurd hf (by simp), fun he => absurd (by omega) h⟩, rfl, hinv⟩

theorem resetCaptureState_spec (s : OpenCVBufferState) :
    CaptureInvariant (resetCaptureState s) ∧ (resetCaptureState s).capturedBoardCount = 0 :=
  ⟨⟨le_refl _, (by decide : (0 : Int) ≤ DESIRED_CAPTURE_BOARD_COUNT), rfl, rfl, rfl, rfl,
    Or.inl rfl⟩, rfl⟩

theorem run_invariant (norm : Point2f → ℚ) (calls : List Call) (s : OpenCVBufferState)
    (hinv : CaptureInvariant s) :
    ∃ s1, run norm calls s = some s1 ∧ CaptureInvariant s1 := by
  induction calls generalizing s with
  | nil => exact ⟨s, rfl, hinv⟩
  | cons call rest ih =>
    cases call with
    | findAndAppendNewChessBoard found =>
      obtain ⟨s2, e2, h2, _⟩ := findAndAppendNewChessBoard_spec norm found s hinv
      obtain ⟨s1, e1, h1⟩ := ih s2 h2
      exact ⟨s1, by rw [run, e2]; exact e1, h1⟩
    | resetCaptureState =>
      obtain ⟨s1, e1, h1⟩ := ih _ (resetCaptureState_spec s).1
      exact ⟨s1, by rw [run]; exact e1, h1⟩
    | computeCameraCalibration calibrateCamera =>
      obtain ⟨s1, e1, h1⟩ := ih _ (computeCameraCalibration_spec calibrateCamera s hinv).2.2
      exact ⟨s1, by rw [run]; exact e1, h1⟩

/-- C27: after construction and any sequence of `findAndAppendNewChessBoard`,
`resetCaptureState` and `computeCameraCalibration` calls, no access has left a vector or a
matrix and `capturedBoardCount` lies in `[0, 100]`; in such a state
`computeCameraCalibration` returns true if and only if the count is 100, and
`findAndAppendNewChessBoard` either leaves the state as it was or accepts the board: the
count then goes up by exactly one, the rows written are the 54 rows from `54 * count` on,
all inside `[0, 100 * 54)`, they hold the 54 corners and their board coordinates, and every
other row of `image_points` and `object_points` is as before. -/
theorem C27_capture_buffer_never_overrun (norm : Point2f → ℚ)
    (uninitialised : Int → Int → ℚ) (calls : List Call) :
    ∃ s, run norm calls (create uninitialised) = some s ∧
      0 ≤ s.capturedBoardCount ∧ s.capturedBoardCount ≤ 100 ∧
      s.image_points.rows = 100 * 54 ∧ s.object_points.rows = 100 * 54 ∧
      (∀ calibrateCamera : ℚ,
        (computeCameraCalibration calibrateCamera s).1 = true ↔ s.capturedBoardCount = 100) ∧
      (∀ found : Option (List Point2f),
        ∃ s1, findAndAppendNewChessBoard norm found s = some s1 ∧
          (s1 = s ∨
            (s.capturedBoardCount < 100 ∧
              s1.capturedBoardCount = s.capturedBoardCount + 1 ∧
              ∃ new_corners, found = some new_corners ∧ (new_corners.length : Int) = 54 ∧
                s1.corners = new_corners ∧
                (∀ i : Nat, i < 54 →
                  0 ≤ s.capturedBoardCount * 54 + (i : Int) ∧
                  s.capturedBoardCount * 54 + (i : Int) < 100 * 54 ∧
                  ∀ corner, new_corners[i]? = some corner →
                    s1.image_points.data (s.capturedBoardCount * 54 + (i : Int)) 0 =
                      corner.x ∧
                    s1.image_points.data (s.capturedBoardCount * 54 + (i : Int)) 1 =
                      corner.y ∧
                    s1.object_points.data (s.capturedBoardCount * 54 + (i : Int)) 0 =
                      (i : ℚ) / 9 ∧
                    s1.object_points.data (s.capturedBoardCount * 54 + (i : Int)) 1 =
                      ((Int.tmod i 9 : Int) : ℚ) ∧
                    s1.object_points.data (s.capturedBoardCount * 54 + (i : Int)) 2 = 0) ∧
                (∀ r c : Int,
                  (r < s.capturedBoardCount * 54 ∨ s.capturedBoardCount * 54 + 54 ≤ r) →
                  s1.image_points.data r c = s.image_points.data r c ∧
                  s1.object_points.data r c = s.object_points.data r c)))) := by
  have hcreate : CaptureInvariant (create uninitialised) :=
    ⟨le_refl _, (by decide : (0 : Int) ≤ DESIRED_CAPTURE_BOARD_COUNT), rfl, rfl, rfl, rfl,
      Or.inl rfl⟩
  obtain ⟨s, hs, hinv⟩ := run_invariant norm calls (create uninitialised) hcreate
  obtain ⟨_, _, k3, k4⟩ := CORNER_COUNT_eq
  refine ⟨s, hs, hinv.1, by rw [← k3]; exact hinv.2.1, hinv.2.2.1.trans k4,
    hinv.2.2.2.2.1.trans k4,
    fun c => (computeCameraCalibration_spec c s hinv).1, ?_⟩
  intro found
  obtain ⟨s1, e1, _, h1⟩ := findAndAppendNewChessBoard_spec norm found s hinv
  exact ⟨s1, e1, h1⟩

/-- The first whole board found after construction is accepted: the count becomes 1. -/
theorem first_board_is_accepted (norm : Point2f → ℚ) (uninitialised : Int → Int → ℚ)
    (new_corners : List Point2f) (h : (new_corners.length : Int) = 54) :
    ∃ s1, findAndAppendNewChessBoard norm (some new_corners) (create uninitialised) =
        some s1 ∧ s1.capturedBoardCount = 1 := by
  obtain ⟨k1, k2, k3, k4⟩ := CORNER_COUNT_eq
  have hlenN : new_corners.length = 54 := by exact_mod_cast h
  obtain ⟨p1, e1, _⟩ := write_loop_spec new_corners
    ((create uninitialised).capturedBoardCount * CORNER_COUNT) 5400
    (List.range CORNER_COUNT.toNat)
    ((create uninitialised).image_points, (create uninitialised).object_points)
    ⟨rfl, rfl, rfl, rfl⟩ (by
      intro i hi
      rw [k2, List.mem_range] at hi
      have h0 : (create uninitialised).capturedBoardCount = 0 := rfl
      rw [k1, h0]
      omega)
  unfold findAndAppendNewChessBoard
  have hlt : (create uninitialised).capturedBoardCount < DESIRED_CAPTURE_BOARD_COUNT := by
    show (0 : Int) < DESIRED_CAPTURE_BOARD_COUNT
    decide
  have hcorners : ¬ ((create uninitialised).corners.length > 0) := by
    show ¬ (([] : List Point2f).length > 0)
    simp
  rw [if_pos hlt]
  simp only
  rw [if_pos (by rw [k1]; exact h), if_neg hcorners]
  simp only
  unfold write_board
  rw [e1]
  exact ⟨_, rfl, rfl⟩

end OpenCVBufferState

end AppStage_DistortionCalibration

/-! ## Repeated controller ids, and the tracker stage without trackers -/

namespace AppStage_ComputeTrackerPoses

open eMenuState eClientPSMoveResultCode

/-- C4 as stated fails: the freshly entered stage is outside `pendingControllerStartRequest`
and the Ok controller list `example_duplicate_controller_list`, which names controller 0
twice, causes N = 2 calls of `request_start_controller_stream`. In a build without asserts
the handler returns with `m_pendingControllerStartCount = 2` but `m_controllerViews` holds
one session; in a build with asserts the second call fails its assertion. -/
theorem C4_repeated_id_gives_fewer_sessions :
    example_entered_stage.m_menuState ≠ pendingControllerStartRequest ∧
    (controller_start_requests example_entered_stage.m_overrideControllerId
      example_duplicate_controller_list).length = 2 ∧
    ((handle_controller_list_response true example_allocate_controller_view
      example_entered_stage _clientPSMoveResultCode_ok
      (ResponsePayload._responsePayloadType_ControllerList
        example_duplicate_controller_list)).map
      (fun s => (s.m_menuState, s.m_pendingControllerStartCount,
        s.m_controllerViews.length))) = some (pendingControllerStartRequest, 2, 1) ∧
    ((handle_controller_list_response true example_allocate_controller_view
      example_entered_stage _clientPSMoveResultCode_ok
      (ResponsePayload._responsePayloadType_ControllerList
        example_duplicate_controller_list)).map
      (fun s => s.calls.filterMap (fun c =>
        match c with
        | ApiCall.start_controller_data_stream ControllerID _ => some ControllerID
        | _ => none))) = some [0, 0] ∧
    handle_controller_list_response false example_allocate_controller_view
      example_entered_stage _clientPSMoveResultCode_ok
      (ResponsePayload._responsePayloadType_ControllerList example_duplicate_controller_list)
        = none := by
  decide

end AppStage_ComputeTrackerPoses

end PSMoveService
